import Mathlib

/-!
Verification development for the configuration-synchronization core of a
Junos Terraform provider (files `junos/resource_interface_physical.go` and a
UTM-policy resource file).  Go string/std-library primitives are embedded as
executable Lean functions over `String`;  device interaction (`sess.command`,
`sess.configSet`, …) is made explicit by passing the device's textual
configuration dump in, and returning the list of staged statements out.
-/

/-! ## Embedded Go string primitives (package `strings` / `strconv`) -/

/-- Model of `strings.HasPrefix s pre`. -/
def strStartsWith (s p : String) : Bool := p.data.isPrefixOf s.data

/-- Model of `strings.HasSuffix s suf`. -/
def strEndsWith (s p : String) : Bool := p.data.reverse.isPrefixOf s.data.reverse

def listHasInfix : List Char → List Char → Bool
  | [], sub => sub.isEmpty
  | c :: t, sub => sub.isPrefixOf (c :: t) || listHasInfix t sub

/-- Model of `strings.Contains s sub` (substring containment). -/
def strContainsSub (s sub : String) : Bool := listHasInfix s.data sub.data

/-- Model of `strings.TrimPrefix s pre`. -/
def strTrimPre (s p : String) : String :=
  if p.data.isPrefixOf s.data then String.mk (s.data.drop p.data.length) else s

/-- Model of `strings.Trim s "\""`: strip any number of double quotes from both ends. -/
def strTrimQuotes (s : String) : String :=
  String.mk (((s.data.dropWhile (· = '"')).reverse.dropWhile (· = '"')).reverse)

/-- Go whitespace test for the characters relevant to `strings.Fields`. -/
def isSpaceChar (c : Char) : Bool := c = ' ' || c = '\t' || c = '\n' || c = '\r'

def fieldsAux : List Char → List Char → List (List Char)
  | [], acc => if acc.isEmpty then [] else [acc.reverse]
  | c :: cs, acc =>
    if isSpaceChar c then
      if acc.isEmpty then fieldsAux cs [] else acc.reverse :: fieldsAux cs []
    else fieldsAux cs (c :: acc)

/-- Model of `strings.Fields`: split around runs of whitespace, dropping empties. -/
def strFields (s : String) : List String := (fieldsAux s.data []).map String.mk

def splitOnCharAux (c : Char) : List Char → List Char → List (List Char)
  | [], acc => [acc.reverse]
  | x :: xs, acc =>
    if x = c then acc.reverse :: splitOnCharAux c xs [] else splitOnCharAux c xs (x :: acc)

/-- Model of `strings.Split s "\n"`. -/
def splitLines (s : String) : List String := (splitOnCharAux '\n' s.data []).map String.mk

def joinLinesData : List (List Char) → List Char
  | [] => []
  | [l] => l
  | l :: l2 :: rest => l ++ '\n' :: joinLinesData (l2 :: rest)

/-- Model of `strings.Join ls "\n"`. -/
def joinLines (ls : List String) : String := String.mk (joinLinesData (ls.map String.data))

def isDigitChar (c : Char) : Bool := 48 ≤ c.toNat && c.toNat ≤ 57

def parseDigitsAux : Nat → List Char → Option Nat
  | acc, [] => some acc
  | acc, c :: cs => if isDigitChar c then parseDigitsAux (10 * acc + (c.toNat - 48)) cs else none

def parseDigits : List Char → Option Nat
  | [] => none
  | cs => parseDigitsAux 0 cs

/-- Model of `strconv.Atoi`: optional sign followed by one or more decimal
digits (the 64-bit range check is irrelevant here and not modelled). -/
def atoi (s : String) : Option Int :=
  match s.data with
  | [] => none
  | c :: cs =>
    if c = '-' then (parseDigits cs).map (fun n => -(n : Int))
    else if c = '+' then (parseDigits cs).map (fun n => (n : Int))
    else (parseDigits (c :: cs)).map (fun n => (n : Int))

def natToDigitsAux : Nat → Nat → List Char → List Char
  | 0, _, acc => acc
  | fuel + 1, n, acc =>
    if n < 10 then Char.ofNat (48 + n % 10) :: acc
    else natToDigitsAux fuel (n / 10) (Char.ofNat (48 + n % 10) :: acc)

def natToDigits (n : Nat) : List Char := natToDigitsAux (n + 1) n []

/-- Model of `strconv.Itoa`. -/
def itoa (i : Int) : String :=
  if i < 0 then String.mk ('-' :: natToDigits i.natAbs) else String.mk (natToDigits i.toNat)

/-! ## Repository-wide constants not present under `src/` -/

/-- Modelled from the spec: the collaborator's sentinel value for a dump with
no statements ("A dump that is exactly the defined `empty` sentinel value
yields an empty sequence", spec 4.1).  The constant itself is declared
outside the given sources. -/
def emptyWord : String := "empty"

/-- Modelled from the spec: displayed statements carry the common `set `
marker which the decoders strip ("produce … statements with the query's
common prefix stripped", spec 4.1).  The constant itself is declared outside
the given sources. -/
def setLineStart : String := "set "

/-! ## Aggregated-interface allocator (`resource_interface_physical.go`) -/

/-- Model of Go regexp `ether-options 802\.3ad ae\d+$` matching
(an unanchored `MatchString`, so: the line ends with that shape). -/
def regexpAEchildMatch (line : String) : Bool :=
  let rev := line.data.reverse
  let ds := rev.takeWhile isDigitChar
  !ds.isEmpty && "ether-options 802.3ad ae".data.reverse.isPrefixOf (rev.drop ds.length)

/-- Model of Go regexp `^set ae\d+ ` matching. -/
def regexpAEparentMatch (line : String) : Bool :=
  "set ae".data.isPrefixOf line.data &&
    (let rest := line.data.drop 6
     let ds := rest.takeWhile isDigitChar
     !ds.isEmpty && (rest.drop ds.length).head? = some ' ')

/-- `interfaceAggregatedLastChild` with the device dump
(`show configuration interfaces | display set relative`) passed explicitly.
Returns `true` when no other interface's line ends with the `802.3ad ae`
binding of `ae`. -/
def interfaceAggregatedLastChild (ae interFace showConf : String) : Bool :=
  (splitLines showConf).foldl
    (fun lastAE item =>
      if strEndsWith item ("ether-options 802.3ad " ++ ae) &&
          !strStartsWith item ("set " ++ interFace ++ " ") then false
      else lastAE)
    true

/-- The scan loop of `interfaceAggregatedCountSearchMax` that collects
referenced `ae<N>` names, applying the old-binding exclusion rules. -/
def listAEFoundOf (oldAE interFace showConf : String) : List String :=
  (splitLines showConf).foldl
    (fun acc line =>
      if regexpAEchildMatch line then
        let wordsLine := strFields line
        let w := wordsLine.getLastD ""
        if interFace = oldAE then acc ++ [w]
        else if w ≠ oldAE then acc ++ [w]
        else acc
      else if regexpAEparentMatch line then
        let wordsLine := strFields line
        let w := wordsLine.getD 1 ""
        if interFace ≠ oldAE then acc ++ [w]
        else if w ≠ oldAE then acc ++ [w]
        else acc
      else acc)
    []

/-- Modelled from the spec: `sortStringsLength` is declared outside the given
sources; the spec (4.4 step 5) sorts the referenced-index set numerically so
that the last element carries the maximal `ae<N>` index.  We sort ascending
by the numeric index parsed from the name (names that do not parse get key
0; only the order of well-formed `ae<N>` names is relied upon). -/
def aeNumKey (s : String) : Int := (atoi (strTrimPre s "ae")).getD 0

/-- Modelled from the spec: numeric ascending sort of `ae<N>` names. -/
def sortStringsLength (l : List String) : List String :=
  List.insertionSort (fun a b => aeNumKey a ≤ aeNumKey b) l

/-- The referenced-index set of `interfaceAggregatedCountSearchMax` after the
"last child" re-inclusion step (Go lines 837-843). -/
def aeReferenced (oldAE interFace showConf : String) : List String :=
  let l := listAEFoundOf oldAE interFace showConf
  if interfaceAggregatedLastChild oldAE interFace showConf then l else l ++ [oldAE]

/-- `interfaceAggregatedCountSearchMax` with the device dump passed
explicitly. -/
def interfaceAggregatedCountSearchMax (newAE oldAE interFace showConf : String) :
    Except String String :=
  match atoi (strTrimPre newAE "ae") with
  | none => .error ("failed to convert ae interaface '" ++ newAE ++ "' to integer")
  | some newAENumInt =>
    let listAEFound := aeReferenced oldAE interFace showConf
    if 0 < listAEFound.length then
      let sorted := sortStringsLength listAEFound
      match atoi (strTrimPre (sorted.getLastD "") "ae") with
      | none => .error "failed to convert internal variable lastAeInt to integer"
      | some lastAeInt =>
        if lastAeInt > newAENumInt then .ok (itoa (lastAeInt + 1))
        else .ok (itoa (newAENumInt + 1))
    else .ok (itoa (newAENumInt + 1))

/-! ## Interface lifecycle classifier -/

/-- The line filter at the head of `checkInterfacePhysicalNCEmpty` (Go lines
378-395): drop `set unit` lines without `ethernet-switching`, drop the
opening framing marker, stop at the closing one, drop blank lines. -/
def ncFilterLines : List String → List String
  | [] => []
  | item :: rest =>
    if strStartsWith item "set unit" && !strContainsSub item "ethernet-switching" then
      ncFilterLines rest
    else if strContainsSub item "<configuration-output>" then ncFilterLines rest
    else if strContainsSub item "</configuration-output>" then []
    else if item = "" then ncFilterLines rest
    else item :: ncFilterLines rest

/-- `checkInterfacePhysicalNCEmpty` with the device reply passed explicitly;
the pair is `(ncInt, emptyInt)`.  `groupIntDel` is `sess.junosGroupIntDel`. -/
def checkInterfacePhysicalNCEmpty (groupIntDel intConfig : String) : Bool × Bool :=
  let intConfigLines := ncFilterLines (splitLines intConfig)
  if intConfigLines.length = 0 then (false, true)
  else
    let ic := joinLines intConfigLines
    if groupIntDel ≠ "" && ic = "set apply-groups " ++ groupIntDel then (true, false)
    else if ic = "set description NC\nset disable" || ic = "set disable\nset description NC" then
      (true, false)
    else if ic = emptyWord then (false, true)
    else (false, false)

/-! ## Delete flow of the physical interface -/

/-- The line loop of `checkInterfacePhysicalContainsUnit`. -/
def containsUnitLoop (interFace : String) : List String → Option String
  | [] => none
  | item :: rest =>
    if strContainsSub item "<configuration-output>" then containsUnitLoop interFace rest
    else if strContainsSub item "</configuration-output>" then none
    else if strStartsWith item "set unit" then
      if strContainsSub item "ethernet-switching" then containsUnitLoop interFace rest
      else some ("interface " ++ interFace ++ " is used for other son unit interface")
    else containsUnitLoop interFace rest

/-- `checkInterfacePhysicalContainsUnit` with the device reply passed
explicitly; `some msg` is the returned error. -/
def checkInterfacePhysicalContainsUnit (interFace intConfig : String) : Option String :=
  containsUnitLoop interFace (splitLines intConfig)

/-- `delInterfacePhysical` with device replies passed explicitly:
`intConfig` answers the per-interface query used by the unit check,
`showConf` the whole-configuration query used by the allocator.  Returns the
statements staged (in `configSet` call order) and `some errorMessage` when
the Go function returns an error — statements staged before the failing step
remain listed, mirroring the edit set already sent to the device. -/
def delInterfacePhysical (name ether8023ad intConfig showConf : String) :
    List String × Option String :=
  match checkInterfacePhysicalContainsUnit name intConfig with
  | some e => ([], some e)
  | none =>
    let staged := ["delete interfaces " ++ name]
    if strStartsWith name "ae" then
      match interfaceAggregatedCountSearchMax "ae-1" name name showConf with
      | .error e => (staged, some e)
      | .ok aggregatedCount =>
        if aggregatedCount = "0" then
          (staged ++ ["delete chassis aggregated-devices ethernet device-count"], none)
        else
          (staged ++ ["set chassis aggregated-devices ethernet device-count " ++ aggregatedCount],
            none)
    else if ether8023ad ≠ "" then
      if interfaceAggregatedLastChild ether8023ad name showConf then
        match interfaceAggregatedCountSearchMax "ae-1" ether8023ad name showConf with
        | .error e => (staged, some e)
        | .ok aggregatedCount =>
          if aggregatedCount = "0" then
            (staged ++ ["delete chassis aggregated-devices ethernet device-count"], none)
          else
            (staged ++
              ["set chassis aggregated-devices ethernet device-count " ++ aggregatedCount], none)
      else (staged, none)
    else (staged, none)

/-! ## Structured option records -/

/-- One UTM profile sub-record (the `anti_virus` / `content_filtering`
shape); all fields default to the unset value `""`. -/
structure UtmProfile where
  ftpDownloadProfile : String := ""
  ftpUploadProfile : String := ""
  httpProfile : String := ""
  imapProfile : String := ""
  pop3Profile : String := ""
  smtpProfile : String := ""
deriving DecidableEq, Repr

/-- The `traffic_sessions_per_client` sub-record; `-1` is the declared
unset sentinel of the numeric `limit` field. -/
structure UtmTrafficOptions where
  limit : Int := -1
  overLimit : String := ""
deriving DecidableEq, Repr

/-- `utmPolicyOptions`;  the Go `[]map[string]interface{}` sub-blocks become
lists of optional fixed-shape records (`none` = a present-but-empty block,
the `v == nil` case of the Go loops). -/
structure UtmPolicyOptions where
  name : String := ""
  antiSpamSMTPProfile : String := ""
  webFilteringProfile : String := ""
  antiVirus : List (Option UtmProfile) := []
  contentFiltering : List (Option UtmProfile) := []
  trafficSessionsPerClient : List (Option UtmTrafficOptions) := []
deriving DecidableEq, Repr

/-- The `esi` sub-block of a physical interface. -/
structure EsiBlock where
  mode : String := ""
  autoDeriveLacp : Bool := false
  dfElectionType : String := ""
  identifier : String := ""
  sourceBmac : String := ""
deriving DecidableEq, Repr

/-- `interfacePhysicalOptions`. -/
structure InterfacePhysicalOptions where
  trunk : Bool := false
  vlanTagging : Bool := false
  aeMinLink : Int := 0
  vlanNative : Int := 0
  aeLacp : String := ""
  aeLinkSpeed : String := ""
  description : String := ""
  v8023ad : String := ""
  vlanMembers : List String := []
  esi : List (Option EsiBlock) := []
deriving DecidableEq, Repr

/-! ## UTM policy codec (`src/unnamed/part_000`) -/

/-- `genMapUtmPolicyProfile`: the freshly materialized profile sub-record
with every field unset. -/
def genMapUtmPolicyProfile : UtmProfile := {}

/-- The freshly materialized traffic sub-record (Go lines 451-454). -/
def genUtmTrafficOptions : UtmTrafficOptions := {}

/-- Statements emitted by `setUtmPolicy` for one non-nil profile block under
prefix `pfxBlock` (the six `if`s of Go lines 329-352 / 361-384). -/
def utmProfileLines (pfxBlock : String) (p : UtmProfile) : List String :=
  (if p.ftpDownloadProfile ≠ "" then
    [pfxBlock ++ "ftp download-profile \"" ++ p.ftpDownloadProfile ++ "\""] else []) ++
  (if p.ftpUploadProfile ≠ "" then
    [pfxBlock ++ "ftp upload-profile \"" ++ p.ftpUploadProfile ++ "\""] else []) ++
  (if p.httpProfile ≠ "" then [pfxBlock ++ "http-profile \"" ++ p.httpProfile ++ "\""] else []) ++
  (if p.imapProfile ≠ "" then [pfxBlock ++ "imap-profile \"" ++ p.imapProfile ++ "\""] else []) ++
  (if p.pop3Profile ≠ "" then [pfxBlock ++ "pop3-profile \"" ++ p.pop3Profile ++ "\""] else []) ++
  (if p.smtpProfile ≠ "" then [pfxBlock ++ "smtp-profile \"" ++ p.smtpProfile ++ "\""] else [])

/-- The profile-block loops of `setUtmPolicy`: a `none` entry (an empty
block) aborts with the block's validation error. -/
def utmBlockLines (pfxBlock errMsg : String) : List (Option UtmProfile) →
    Except String (List String)
  | [] => .ok []
  | none :: _ => .error errMsg
  | some p :: rest => do
    let r ← utmBlockLines pfxBlock errMsg rest
    .ok (utmProfileLines pfxBlock p ++ r)

/-- The `traffic_sessions_per_client` loop of `setUtmPolicy`. -/
def utmTrafficLines (pfx : String) : List (Option UtmTrafficOptions) →
    Except String (List String)
  | [] => .ok []
  | none :: _ => .error "traffic_sessions_per_client block is empty"
  | some t :: rest => do
    let r ← utmTrafficLines pfx rest
    .ok ((if t.limit ≠ -1 then
      [pfx ++ "traffic-options sessions-per-client limit " ++ itoa t.limit] else []) ++
      (if t.overLimit ≠ "" then
        [pfx ++ "traffic-options sessions-per-client over-limit " ++ t.overLimit] else []) ++ r)

/-- `setUtmPolicy` as a pure encoder: the ordered statement list handed to
`sess.configSet`, or the validation error. -/
def setUtmPolicy (o : UtmPolicyOptions) : Except String (List String) := do
  let pfx := "set security utm utm-policy \"" ++ o.name ++ "\" "
  let s1 := if o.antiSpamSMTPProfile ≠ "" then
    [pfx ++ "anti-spam smtp-profile \"" ++ o.antiSpamSMTPProfile ++ "\""] else []
  let s2 ← utmBlockLines (pfx ++ "anti-virus ") "anti_virus block is empty" o.antiVirus
  let s3 ← utmBlockLines (pfx ++ "content-filtering ") "content_filtering block is empty"
    o.contentFiltering
  let s4 ← utmTrafficLines pfx o.trafficSessionsPerClient
  let s5 := if o.webFilteringProfile ≠ "" then
    [pfx ++ "web-filtering http-profile \"" ++ o.webFilteringProfile ++ "\""] else []
  .ok (s1 ++ s2 ++ s3 ++ s4 ++ s5)

/-- Write through the head entry of a lazily-materialized sub-block list
(the Go `confRead.xxx[0][field] = v` step; decode-built lists always hold a
`some` at the head). -/
def modifyFirstSome (dflt : α) (l : List (Option α)) (upd : α → α) : List (Option α) :=
  match l with
  | [] => []
  | h :: t => some (upd (h.getD dflt)) :: t

/-- `readUtmPolicyProfile`: project one profile statement into a field of
the profile sub-record. -/
def readUtmPolicyProfile (itemTrimPolicyProfile : String) (profileMap : UtmProfile) :
    UtmProfile :=
  let val (p : String) : String := strTrimQuotes (strTrimPre itemTrimPolicyProfile p)
  if strStartsWith itemTrimPolicyProfile "ftp download-profile " then
    { profileMap with ftpDownloadProfile := val "ftp download-profile " }
  else if strStartsWith itemTrimPolicyProfile "ftp upload-profile " then
    { profileMap with ftpUploadProfile := val "ftp upload-profile " }
  else if strStartsWith itemTrimPolicyProfile "http-profile " then
    { profileMap with httpProfile := val "http-profile " }
  else if strStartsWith itemTrimPolicyProfile "imap-profile " then
    { profileMap with imapProfile := val "imap-profile " }
  else if strStartsWith itemTrimPolicyProfile "pop3-profile " then
    { profileMap with pop3Profile := val "pop3-profile " }
  else if strStartsWith itemTrimPolicyProfile "smtp-profile " then
    { profileMap with smtpProfile := val "smtp-profile " }
  else profileMap

/-- The Go-side error text of a failed `strconv.Atoi` (modelled from the
standard library's documented `*strconv.NumError` formatting; only the
"invalid syntax" shape can arise here). -/
def strconvAtoiErr (s : String) : String := "strconv.Atoi: parsing \"" ++ s ++ "\": invalid syntax"

/-- The statement loop of `readUtmPolicy` (Go lines 428-471). -/
def readUtmPolicyLoop (st : UtmPolicyOptions) : List String → Except String UtmPolicyOptions
  | [] => .ok st
  | item :: rest =>
    if strContainsSub item "<configuration-output>" then readUtmPolicyLoop st rest
    else if strContainsSub item "</configuration-output>" then .ok st
    else
      let itemTrim := strTrimPre item setLineStart
      if strStartsWith itemTrim "anti-spam smtp-profile " then
        let v := strTrimQuotes (strTrimPre itemTrim "anti-spam smtp-profile ")
        readUtmPolicyLoop { st with antiSpamSMTPProfile := v } rest
      else if strStartsWith itemTrim "anti-virus " then
        let base := if st.antiVirus.isEmpty then [some genMapUtmPolicyProfile] else st.antiVirus
        let av := modifyFirstSome genMapUtmPolicyProfile base
          (readUtmPolicyProfile (strTrimPre itemTrim "anti-virus "))
        readUtmPolicyLoop { st with antiVirus := av } rest
      else if strStartsWith itemTrim "content-filtering " then
        let base := if st.contentFiltering.isEmpty then [some genMapUtmPolicyProfile]
          else st.contentFiltering
        let cf := modifyFirstSome genMapUtmPolicyProfile base
          (readUtmPolicyProfile (strTrimPre itemTrim "content-filtering "))
        readUtmPolicyLoop { st with contentFiltering := cf } rest
      else if strStartsWith itemTrim "traffic-options sessions-per-client " then
        let tl := if st.trafficSessionsPerClient.isEmpty then [some genUtmTrafficOptions]
          else st.trafficSessionsPerClient
        if strStartsWith itemTrim "traffic-options sessions-per-client limit " then
          match atoi (strTrimPre itemTrim "traffic-options sessions-per-client limit ") with
          | none => .error
              (strconvAtoiErr (strTrimPre itemTrim "traffic-options sessions-per-client limit "))
          | some n =>
            let tl := modifyFirstSome genUtmTrafficOptions tl (fun t => { t with limit := n })
            readUtmPolicyLoop { st with trafficSessionsPerClient := tl } rest
        else if strStartsWith itemTrim "traffic-options sessions-per-client over-limit " then
          let w := strTrimPre itemTrim "traffic-options sessions-per-client over-limit "
          let tl := modifyFirstSome genUtmTrafficOptions tl (fun t => { t with overLimit := w })
          readUtmPolicyLoop { st with trafficSessionsPerClient := tl } rest
        else readUtmPolicyLoop { st with trafficSessionsPerClient := tl } rest
      else if strStartsWith itemTrim "web-filtering http-profile " then
        let v := strTrimQuotes (strTrimPre itemTrim "web-filtering http-profile ")
        readUtmPolicyLoop { st with webFilteringProfile := v } rest
      else readUtmPolicyLoop st rest

/-- `readUtmPolicy` with the device reply passed explicitly. -/
def readUtmPolicy (policy policyConfig : String) : Except String UtmPolicyOptions :=
  if policyConfig ≠ emptyWord then readUtmPolicyLoop { name := policy } (splitLines policyConfig)
  else .ok { name := "" }

/-! ## Physical-interface codec (`resource_interface_physical.go`) -/

/-- ASCII word character, the Go regexp class `[\d\w]` (`\d` is contained
in `\w`). -/
def isWordChar (c : Char) : Bool :=
  ('0' ≤ c && c ≤ '9') || ('a' ≤ c && c ≤ 'z') || ('A' ≤ c && c ≤ 'Z') || c = '_'

def esiIdentGroups : Nat → List Char → Bool
  | 0, c1 :: c2 :: _ => isWordChar c1 && isWordChar c2
  | 0, _ => false
  | k + 1, c1 :: c2 :: ':' :: rest => isWordChar c1 && isWordChar c2 && esiIdentGroups k rest
  | _ + 1, _ => false

/-- Model of the Go regexp `^([\d\w]{2}:){9}[\d\w]{2}` (an unanchored tail,
so a prefix match). -/
def esiIdentMatch (s : String) : Bool := esiIdentGroups 9 s.data

/-- `setIntEsi` as a pure encoder: the statements it hands to its own
`sess.configSet` call.  A `nil` (here `none`) element is skipped — the loop
body guards on `v != nil` with no `else` branch. -/
def setIntEsi (setPfx : String) (esiParams : List (Option EsiBlock)) :
    Except String (List String) :=
  .ok (esiParams.foldl
    (fun configSet v =>
      match v with
      | none => configSet
      | some m =>
        if m.mode ≠ "" then configSet ++ [setPfx ++ "esi " ++ m.mode]
        else if m.autoDeriveLacp then configSet ++ [setPfx ++ "esi auto-derive lacp"]
        else if m.dfElectionType ≠ "" then
          configSet ++ [setPfx ++ "esi df-election-type " ++ m.dfElectionType]
        else if m.identifier ≠ "" then configSet ++ [setPfx ++ "esi " ++ m.identifier]
        else if m.sourceBmac ≠ "" then
          configSet ++ [setPfx ++ "esi source-bmac " ++ m.sourceBmac]
        else configSet)
    [])

/-- `readIntEsi`: project one `esi `-trimmed statement into the lazily
materialized esi sub-block; `item` is the statement already trimmed of
`setLineStart` (the caller passes `itemTrim`). -/
def readIntEsi (confRead : InterfacePhysicalOptions) (item : String) : InterfacePhysicalOptions :=
  let itemTrim := strTrimPre item "esi "
  let esi0 := if confRead.esi.isEmpty then [some ({} : EsiBlock)] else confRead.esi
  if esiIdentMatch itemTrim then
    let e := modifyFirstSome {} esi0 (fun b => { b with identifier := itemTrim })
    { confRead with esi := e }
  else if itemTrim = "all-active" || itemTrim = "single-active" then
    let e := modifyFirstSome {} esi0 (fun b => { b with mode := itemTrim })
    { confRead with esi := e }
  else if strStartsWith itemTrim "df-election-type " then
    let v := strTrimPre itemTrim "df-election-type "
    let e := modifyFirstSome {} esi0 (fun b => { b with dfElectionType := v })
    { confRead with esi := e }
  else if strStartsWith itemTrim "source-bmac " then
    let v := strTrimPre itemTrim "source-bmac "
    let e := modifyFirstSome {} esi0 (fun b => { b with sourceBmac := v })
    { confRead with esi := e }
  else if itemTrim = "auto-derive lacp" then
    let e := modifyFirstSome {} esi0 (fun b => { b with autoDeriveLacp := true })
    { confRead with esi := e }
  else { confRead with esi := esi0 }

/-- The statement loop of `readInterfacePhysical` (Go lines 556-603). -/
def readInterfacePhysicalLoop (st : InterfacePhysicalOptions) :
    List String → Except String InterfacePhysicalOptions
  | [] => .ok st
  | item :: rest =>
    if strContainsSub item " unit " && !strContainsSub item "ethernet-switching" then
      readInterfacePhysicalLoop st rest
    else if strContainsSub item "<configuration-output>" then readInterfacePhysicalLoop st rest
    else if strContainsSub item "</configuration-output>" then .ok st
    else
      let itemTrim := strTrimPre item setLineStart
      if strStartsWith itemTrim "aggregated-ether-options lacp " then
        let v := strTrimPre itemTrim "aggregated-ether-options lacp "
        readInterfacePhysicalLoop { st with aeLacp := v } rest
      else if strStartsWith itemTrim "aggregated-ether-options link-speed " then
        let v := strTrimPre itemTrim "aggregated-ether-options link-speed "
        readInterfacePhysicalLoop { st with aeLinkSpeed := v } rest
      else if strStartsWith itemTrim "aggregated-ether-options minimum-links " then
        match atoi (strTrimPre itemTrim "aggregated-ether-options minimum-links ") with
        | none => .error ("failed to convert value from '" ++ itemTrim ++ "' to integer : " ++
            strconvAtoiErr (strTrimPre itemTrim "aggregated-ether-options minimum-links "))
        | some n => readInterfacePhysicalLoop { st with aeMinLink := n } rest
      else if strStartsWith itemTrim "description " then
        let v := strTrimQuotes (strTrimPre itemTrim "description ")
        readInterfacePhysicalLoop { st with description := v } rest
      else if strStartsWith itemTrim "esi " then
        readInterfacePhysicalLoop (readIntEsi st itemTrim) rest
      else if strStartsWith itemTrim "ether-options 802.3ad " then
        let v := strTrimPre itemTrim "ether-options 802.3ad "
        readInterfacePhysicalLoop { st with v8023ad := v } rest
      else if strStartsWith itemTrim "gigether-options 802.3ad " then
        let v := strTrimPre itemTrim "gigether-options 802.3ad "
        readInterfacePhysicalLoop { st with v8023ad := v } rest
      else if strStartsWith itemTrim "native-vlan-id" then
        match atoi (strTrimPre itemTrim "native-vlan-id ") with
        | none => .error ("failed to convert value from '" ++ itemTrim ++ "' to integer : " ++
            strconvAtoiErr (strTrimPre itemTrim "native-vlan-id "))
        | some n => readInterfacePhysicalLoop { st with vlanNative := n } rest
      else if itemTrim = "unit 0 family ethernet-switching interface-mode trunk" then
        readInterfacePhysicalLoop { st with trunk := true } rest
      else if strStartsWith itemTrim "unit 0 family ethernet-switching vlan members" then
        let v := strTrimPre itemTrim "unit 0 family ethernet-switching vlan members "
        readInterfacePhysicalLoop { st with vlanMembers := st.vlanMembers ++ [v] } rest
      else if itemTrim = "vlan-tagging" then
        readInterfacePhysicalLoop { st with vlanTagging := true } rest
      else readInterfacePhysicalLoop st rest

/-- `readInterfacePhysical` with the device reply passed explicitly (the
interface name only shapes the query, not the decode). -/
def readInterfacePhysical (intConfig : String) : Except String InterfacePhysicalOptions :=
  if intConfig ≠ emptyWord then readInterfacePhysicalLoop {} (splitLines intConfig)
  else .ok {}

/-- `setInterfacePhysical` as a pure encoder.  `name` is `d.Get("name")`,
`oldAE` the previous `ether802_3ad` value resolved by the `d.GetChange`
dance (`"ae-1"` when there was none), `showConf` the whole-configuration
dump consumed by the allocator.  The esi statements come first in the
result because `setIntEsi` stages them through its own `sess.configSet`
call before the main list is staged. -/
def setInterfacePhysical (name oldAE : String) (o : InterfacePhysicalOptions)
    (showConf : String) : Except String (List String) := do
  let setPfx := "set interfaces " ++ name ++ " "
  let aeLacpLines ← if o.aeLacp ≠ "" then
      if !strStartsWith name "ae" then Except.error "ae_lacp invalid for this interface"
      else .ok [setPfx ++ "aggregated-ether-options lacp " ++ o.aeLacp]
    else .ok []
  let aeLinkSpeedLines ← if o.aeLinkSpeed ≠ "" then
      if !strStartsWith name "ae" then Except.error "ae_link_speed invalid for this interface"
      else .ok [setPfx ++ "aggregated-ether-options link-speed " ++ o.aeLinkSpeed]
    else .ok []
  let aeMinLinkLines ← if 0 < o.aeMinLink then
      if !strStartsWith name "ae" then Except.error "ae_minimum_links invalid for this interface"
      else .ok [setPfx ++ "aggregated-ether-options minimum-links " ++ itoa o.aeMinLink]
    else .ok []
  let descLines := if o.description ≠ "" then
    [setPfx ++ "description \"" ++ o.description ++ "\""] else []
  let esiLines ← setIntEsi setPfx o.esi
  let aggLines ← if strStartsWith name "ae" then do
      let aggregatedCount ← interfaceAggregatedCountSearchMax name "ae-1" name showConf
      Except.ok ["set chassis aggregated-devices ethernet device-count " ++ aggregatedCount]
    else if o.v8023ad ≠ "" then do
      let aggregatedCount ← interfaceAggregatedCountSearchMax o.v8023ad oldAE name showConf
      Except.ok [setPfx ++ "ether-options 802.3ad " ++ o.v8023ad,
        setPfx ++ "gigether-options 802.3ad " ++ o.v8023ad,
        "set chassis aggregated-devices ethernet device-count " ++ aggregatedCount]
    else .ok []
  let trunkLines := if o.trunk then
    [setPfx ++ "unit 0 family ethernet-switching interface-mode trunk"] else []
  let memberLines := o.vlanMembers.map
    (fun v => setPfx ++ "unit 0 family ethernet-switching vlan members " ++ v)
  let nativeLines := if o.vlanNative ≠ 0 then [setPfx ++ "native-vlan-id " ++ itoa o.vlanNative]
    else []
  let tagLines := if o.vlanTagging then [setPfx ++ "vlan-tagging"] else []
  .ok (esiLines ++ [setPfx] ++ aeLacpLines ++ aeLinkSpeedLines ++ aeMinLinkLines ++ descLines ++
    aggLines ++ trunkLines ++ memberLines ++ nativeLines ++ tagLines)

/-- Modelled from the spec (4.1): the device's `| display set relative`
reply for a sub-hierarchy renders each applied statement under the given
hierarchy with the common query path stripped and the `set ` marker kept;
statements outside the hierarchy do not appear, and the dump is the empty
sentinel when nothing matches. -/
def displaySetRelative (pfx : String) (applied : List String) : String :=
  let kept := applied.filter (fun l => strStartsWith l pfx)
  if kept.isEmpty then emptyWord
  else joinLines (kept.map (fun l => "set " ++ strTrimPre l pfx))

/-! ## Transaction coordination (mutating operations) -/

/-- Oracle for the collaborator calls of `resourceInterfacePhysicalCreate`:
each field is the outcome the device returns for that step. -/
structure InterfaceCreateOracle where
  session : Except String Unit := .ok ()
  ncEmpty1 : Except String (Bool × Bool) := .ok (false, true)
  delNC : Except String Unit := .ok ()
  setIP : Except String Unit := .ok ()
  commit : Except String Unit := .ok ()
  ncEmpty2 : Except String (Bool × Bool) := .ok (false, false)
  intExists : Except String Bool := .ok true

/-- `resourceInterfacePhysicalCreate` control flow; the second component
records whether `sess.configClear` (discard of the pending edit set) was
invoked before returning. -/
def resourceInterfacePhysicalCreate (o : InterfaceCreateOracle) : Except String Unit × Bool :=
  match o.session with
  | .error e => (.error e, false)
  | .ok _ =>
    match o.ncEmpty1 with
    | .error e => (.error e, true)
    | .ok (ncInt, emptyInt) =>
      if !ncInt && !emptyInt then (.error "interface already configured", true)
      else
        match (if ncInt then o.delNC else .ok ()) with
        | .error e => (.error e, true)
        | .ok _ =>
          match o.setIP with
          | .error e => (.error e, true)
          | .ok _ =>
            match o.commit with
            | .error e => (.error e, true)
            | .ok _ =>
              match o.ncEmpty2 with
              | .error e => (.error e, false)
              | .ok (nc2, empty2) =>
                if nc2 then (.error "interface always disable after commit", false)
                else if empty2 then
                  match o.intExists with
                  | .error e => (.error e, false)
                  | .ok ex =>
                    if !ex then (.error "interface not exists after commit", false)
                    else (.ok (), false)
                else (.ok (), false)

/-- Oracle for `resourceSecurityUtmPolicyCreate`. -/
structure UtmCreateOracle where
  session : Except String Unit := .ok ()
  compat : Bool := true
  lock : Except String Unit := .ok ()
  utmPolicyExists1 : Except String Bool := .ok false
  setPol : Except String Unit := .ok ()
  commit : Except String Unit := .ok ()
  utmPolicyExists2 : Except String Bool := .ok true

/-- `resourceSecurityUtmPolicyCreate` control flow with discard tracking. -/
def resourceSecurityUtmPolicyCreate (o : UtmCreateOracle) : Except String Unit × Bool :=
  match o.session with
  | .error e => (.error e, false)
  | .ok _ =>
    if !o.compat then (.error "security utm utm-policy not compatible with Junos device", false)
    else
      match o.lock with
      | .error e => (.error e, false)
      | .ok _ =>
        match o.utmPolicyExists1 with
        | .error e => (.error e, true)
        | .ok exists1 =>
          if exists1 then (.error "security utm utm-policy already exists", true)
          else
            match o.setPol with
            | .error e => (.error e, true)
            | .ok _ =>
              match o.commit with
              | .error e => (.error e, true)
              | .ok _ =>
                match o.utmPolicyExists2 with
                | .error e => (.error e, false)
                | .ok exists2 =>
                  if exists2 then (.ok (), false)
                  else (.error "security utm utm-policy not exists after commit", false)

/-- Oracle for `resourceSecurityUtmPolicyUpdate`. -/
structure UtmUpdateOracle where
  session : Except String Unit := .ok ()
  lock : Except String Unit := .ok ()
  delPol : Except String Unit := .ok ()
  setPol : Except String Unit := .ok ()
  commit : Except String Unit := .ok ()

/-- `resourceSecurityUtmPolicyUpdate` control flow with discard tracking. -/
def resourceSecurityUtmPolicyUpdate (o : UtmUpdateOracle) : Except String Unit × Bool :=
  match o.session with
  | .error e => (.error e, false)
  | .ok _ =>
    match o.lock with
    | .error e => (.error e, false)
    | .ok _ =>
      match o.delPol with
      | .error e => (.error e, true)
      | .ok _ =>
        match o.setPol with
        | .error e => (.error e, true)
        | .ok _ =>
          match o.commit with
          | .error e => (.error e, true)
          | .ok _ => (.ok (), false)

/-- Oracle for `resourceInterfacePhysicalUpdate`. -/
structure InterfaceUpdateOracle where
  session : Except String Unit := .ok ()
  delOpts : Except String Unit := .ok ()
  setIP : Except String Unit := .ok ()
  commit : Except String Unit := .ok ()

/-- `resourceInterfacePhysicalUpdate` control flow with discard tracking
(Go lines 256-286): delete of the previous options, re-apply, commit. -/
def resourceInterfacePhysicalUpdate (o : InterfaceUpdateOracle) : Except String Unit × Bool :=
  match o.session with
  | .error e => (.error e, false)
  | .ok _ =>
    match o.delOpts with
    | .error e => (.error e, true)
    | .ok _ =>
      match o.setIP with
      | .error e => (.error e, true)
      | .ok _ =>
        match o.commit with
        | .error e => (.error e, true)
        | .ok _ => (.ok (), false)

/-- Oracle for `resourceInterfacePhysicalDelete`. -/
structure InterfaceDeleteOracle where
  session : Except String Unit := .ok ()
  delIP : Except String Unit := .ok ()
  commit : Except String Unit := .ok ()
  noDisableOnDestroy : Bool := true
  intExists : Except String Bool := .ok false
  addNC : Except String Unit := .ok ()
  commit2 : Except String Unit := .ok ()

/-- `resourceInterfacePhysicalDelete` control flow with discard tracking
(Go lines 287-337): delete, commit, then unless `no_disable_on_destroy`
re-park the still-existing interface behind a second commit; an
existence-check failure there is only appended as a warning. -/
def resourceInterfacePhysicalDelete (o : InterfaceDeleteOracle) : Except String Unit × Bool :=
  match o.session with
  | .error e => (.error e, false)
  | .ok _ =>
    match o.delIP with
    | .error e => (.error e, true)
    | .ok _ =>
      match o.commit with
      | .error e => (.error e, true)
      | .ok _ =>
        if !o.noDisableOnDestroy then
          match o.intExists with
          | .error _ => (.ok (), false)
          | .ok ex =>
            if ex then
              match o.addNC with
              | .error e => (.error e, true)
              | .ok _ =>
                match o.commit2 with
                | .error e => (.error e, true)
                | .ok _ => (.ok (), false)
            else (.ok (), false)
        else (.ok (), false)

/-- Oracle for `resourceSecurityUtmPolicyDelete`. -/
structure UtmDeleteOracle where
  session : Except String Unit := .ok ()
  lock : Except String Unit := .ok ()
  delPol : Except String Unit := .ok ()
  commit : Except String Unit := .ok ()

/-- `resourceSecurityUtmPolicyDelete` control flow with discard tracking
(Go lines 252-277). -/
def resourceSecurityUtmPolicyDelete (o : UtmDeleteOracle) : Except String Unit × Bool :=
  match o.session with
  | .error e => (.error e, false)
  | .ok _ =>
    match o.lock with
    | .error e => (.error e, false)
    | .ok _ =>
      match o.delPol with
      | .error e => (.error e, true)
      | .ok _ =>
        match o.commit with
        | .error e => (.error e, true)
        | .ok _ => (.ok (), false)

/-! ## Claim-support definitions -/

/-- The esi sub-fields in the fixed priority order of `setIntEsi`'s switch. -/
inductive EsiFieldName where
  | mode
  | autoDeriveLacp
  | dfElectionType
  | identifier
  | sourceBmac
deriving DecidableEq, Repr

def esiFieldPopulated (b : EsiBlock) : EsiFieldName → Bool
  | .mode => b.mode ≠ ""
  | .autoDeriveLacp => b.autoDeriveLacp
  | .dfElectionType => b.dfElectionType ≠ ""
  | .identifier => b.identifier ≠ ""
  | .sourceBmac => b.sourceBmac ≠ ""

def esiPriorityOrder : List EsiFieldName :=
  [.mode, .autoDeriveLacp, .dfElectionType, .identifier, .sourceBmac]

/-- The highest-priority populated esi sub-field, in the fixed order
`mode, auto_derive_lacp, df_election_type, identifier, source_bmac`. -/
def firstPopulatedEsiField (b : EsiBlock) : Option EsiFieldName :=
  esiPriorityOrder.find? (esiFieldPopulated b)

/-- The single statement the encoder emits for a given esi sub-field. -/
def esiFieldStatement (setPfx : String) (b : EsiBlock) : EsiFieldName → String
  | .mode => setPfx ++ "esi " ++ b.mode
  | .autoDeriveLacp => setPfx ++ "esi auto-derive lacp"
  | .dfElectionType => setPfx ++ "esi df-election-type " ++ b.dfElectionType
  | .identifier => setPfx ++ "esi " ++ b.identifier
  | .sourceBmac => setPfx ++ "esi source-bmac " ++ b.sourceBmac

/-- Normalization of the round-trip law: a nested profile block with no
recognizable content collapses to canonical absence. -/
def normalizeProfileBlocks (l : List (Option UtmProfile)) : List (Option UtmProfile) :=
  l.filterMap (fun e =>
    match e with
    | none => none
    | some p => if p = genMapUtmPolicyProfile then none else some (some p))

/-- Normalization of the traffic block: the all-sentinel block (`limit`
unset at `-1`, no `over_limit`) collapses to absence. -/
def normalizeTrafficBlocks (l : List (Option UtmTrafficOptions)) :
    List (Option UtmTrafficOptions) :=
  l.filterMap (fun e =>
    match e with
    | none => none
    | some t => if t = genUtmTrafficOptions then none else some (some t))

/-- Normalization of the esi block list. -/
def normalizeEsiBlocks (l : List (Option EsiBlock)) : List (Option EsiBlock) :=
  l.filterMap (fun e =>
    match e with
    | none => none
    | some b => if b = ({} : EsiBlock) then none else some (some b))

/-- `normalize` of the round-trip law for UTM policy options. -/
def normalizeUtmPolicyOptions (o : UtmPolicyOptions) : UtmPolicyOptions :=
  { o with
    antiVirus := normalizeProfileBlocks o.antiVirus
    contentFiltering := normalizeProfileBlocks o.contentFiltering
    trafficSessionsPerClient := normalizeTrafficBlocks o.trafficSessionsPerClient }

/-- `normalize` of the round-trip law for physical-interface options:
numeric fields held at or below their unset sentinel and contentless esi
blocks collapse to canonical absence. -/
def normalizeInterfacePhysicalOptions (o : InterfacePhysicalOptions) :
    InterfacePhysicalOptions :=
  { o with
    aeMinLink := if 0 < o.aeMinLink then o.aeMinLink else 0
    esi := normalizeEsiBlocks o.esi }

/-- The statements a decoder actually iterates: everything up to (not
including) the first line carrying the closing framing marker. -/
def scanLinesUntilClose (conf : String) : List String :=
  (splitLines conf).takeWhile (fun l => !strContainsSub l "</configuration-output>")

/-- A statement on which `readInterfacePhysical` must fail: it survives the
loop's skip rules and projects a numeric field from an unparseable value. -/
def intNumericOffending (item : String) : Prop :=
  (strContainsSub item " unit " && !strContainsSub item "ethernet-switching") = false ∧
  strContainsSub item "<configuration-output>" = false ∧
  ((strStartsWith (strTrimPre item setLineStart) "aggregated-ether-options minimum-links " = true ∧
      atoi (strTrimPre (strTrimPre item setLineStart)
        "aggregated-ether-options minimum-links ") = none) ∨
    (strStartsWith (strTrimPre item setLineStart) "native-vlan-id" = true ∧
      atoi (strTrimPre (strTrimPre item setLineStart) "native-vlan-id ") = none))

/-- A statement on which `readUtmPolicy` must fail. -/
def utmNumericOffending (item : String) : Prop :=
  strContainsSub item "<configuration-output>" = false ∧
  strStartsWith (strTrimPre item setLineStart)
    "traffic-options sessions-per-client limit " = true ∧
  atoi (strTrimPre (strTrimPre item setLineStart)
    "traffic-options sessions-per-client limit ") = none

/-- A statement an interface-decoder pass treats as matching no known
pattern (ignored by the `default: continue` arm). -/
def intUnknownStatement (item : String) : Prop :=
  (strContainsSub item " unit " && !strContainsSub item "ethernet-switching") = false ∧
  strContainsSub item "<configuration-output>" = false ∧
  strContainsSub item "</configuration-output>" = false ∧
  (let t := strTrimPre item setLineStart
   strStartsWith t "aggregated-ether-options lacp " = false ∧
   strStartsWith t "aggregated-ether-options link-speed " = false ∧
   strStartsWith t "aggregated-ether-options minimum-links " = false ∧
   strStartsWith t "description " = false ∧
   strStartsWith t "esi " = false ∧
   strStartsWith t "ether-options 802.3ad " = false ∧
   strStartsWith t "gigether-options 802.3ad " = false ∧
   strStartsWith t "native-vlan-id" = false ∧
   t ≠ "unit 0 family ethernet-switching interface-mode trunk" ∧
   strStartsWith t "unit 0 family ethernet-switching vlan members" = false ∧
   t ≠ "vlan-tagging")

/-- The line on which `checkInterfacePhysicalContainsUnit` rejects a
delete: a kept `set unit` statement without `ethernet-switching`. -/
def unitOffending (item : String) : Prop :=
  strContainsSub item "<configuration-output>" = false ∧
  strStartsWith item "set unit" = true ∧
  strContainsSub item "ethernet-switching" = false

/-- Whether a line does not stop `readInterfacePhysical`'s loop: the scan
stops at the first line that is kept (not unit-noise, not the opening
marker) and carries the closing framing marker. -/
def intKeepLine (item : String) : Bool :=
  !(!(strContainsSub item " unit " && !strContainsSub item "ethernet-switching") &&
      !strContainsSub item "<configuration-output>" &&
      strContainsSub item "</configuration-output>")

/-- Whether a line does not stop `readUtmPolicy`'s loop. -/
def utmKeepLine (item : String) : Bool :=
  !(!strContainsSub item "<configuration-output>" &&
      strContainsSub item "</configuration-output>")

/-- The lines `readInterfacePhysical`'s loop actually visits. -/
def intScanLines (conf : String) : List String :=
  (splitLines conf).takeWhile intKeepLine

/-- The lines `readUtmPolicy`'s loop actually visits. -/
def utmScanLines (conf : String) : List String :=
  (splitLines conf).takeWhile utmKeepLine

/-- Well-formedness of one displayed statement tail for the UTM decoder:
the statement is a single line free of framing markers. -/
def utmLineOk (tail : String) : Prop :=
  ('\n' ∉ tail.data) ∧
  strContainsSub ("set " ++ tail) "<configuration-output>" = false ∧
  strContainsSub ("set " ++ tail) "</configuration-output>" = false

/-- Well-formedness of one displayed statement tail for the interface
decoder: additionally it must not look like droppable unit noise. -/
def intLineOk (tail : String) : Prop :=
  ('\n' ∉ tail.data) ∧
  (strContainsSub ("set " ++ tail) " unit " &&
    !strContainsSub ("set " ++ tail) "ethernet-switching") = false ∧
  strContainsSub ("set " ++ tail) "<configuration-output>" = false ∧
  strContainsSub ("set " ++ tail) "</configuration-output>" = false

/-- A value that survives the encoder's quoting and the decoder's quote
stripping: no quote at either edge. -/
def quoteSafe (v : String) : Prop :=
  v.data.head? ≠ some '\x22' ∧ v.data.getLast? ≠ some '\x22'

/-- Quote-safety of every quoted value of a UTM profile block. -/
def quoteSafeProfile (p : UtmProfile) : Prop :=
  quoteSafe p.ftpDownloadProfile ∧ quoteSafe p.ftpUploadProfile ∧ quoteSafe p.httpProfile ∧
  quoteSafe p.imapProfile ∧ quoteSafe p.pop3Profile ∧ quoteSafe p.smtpProfile

/-- The esi blocks whose round-trip through the encoder is lossless: at
most one populated sub-field, schema-shaped mode and identifier values. -/
def cleanEsiBlock (b : EsiBlock) : Prop :=
  (esiPriorityOrder.filter (esiFieldPopulated b)).length ≤ 1 ∧
  (b.mode ≠ "" → b.mode = "all-active" ∨ b.mode = "single-active") ∧
  (b.identifier ≠ "" → esiIdentMatch b.identifier = true)

/-- A statement a UTM-policy decoder pass treats as matching no known
pattern. -/
def utmUnknownStatement (item : String) : Prop :=
  strContainsSub item "<configuration-output>" = false ∧
  strContainsSub item "</configuration-output>" = false ∧
  (let t := strTrimPre item setLineStart
   strStartsWith t "anti-spam smtp-profile " = false ∧
   strStartsWith t "anti-virus " = false ∧
   strStartsWith t "content-filtering " = false ∧
   strStartsWith t "traffic-options sessions-per-client " = false ∧
   strStartsWith t "web-filtering http-profile " = false)

/-- `10^(number of decimal digits of n)`, the weight a decimal prefix is
shifted by when the digits of `n` are appended (proof-side helper). -/
def tenPow (n : Nat) : Nat :=
  if n < 10 then 10 else 10 * tenPow (n / 10)
decreasing_by exact Nat.div_lt_self (by omega) (by omega)

/-! ## String-primitive lemmas -/

theorem strStartsWith_iff {s p : String} : strStartsWith s p = true ↔ p.data <+: s.data := by
  simp [strStartsWith, List.isPrefixOf_iff_prefix]

theorem strStartsWith_self_append (p t : String) : strStartsWith (p ++ t) p = true := by
  simp [strStartsWith_iff, String.data_append, List.prefix_append]

theorem strStartsWith_append_of {a q : String} (b : String) (h : strStartsWith a q = true) :
    strStartsWith (a ++ b) q = true := by
  rw [strStartsWith_iff] at h ⊢
  rw [String.data_append]
  exact h.trans (List.prefix_append _ _)

theorem strStartsWith_append_false {a q : String} (b : String)
    (h1 : q.data.isPrefixOf a.data = false) (h2 : a.data.isPrefixOf q.data = false) :
    strStartsWith (a ++ b) q = false := by
  have h1' : ¬ q.data <+: a.data := by simp [← List.isPrefixOf_iff_prefix, h1]
  have h2' : ¬ a.data <+: q.data := by simp [← List.isPrefixOf_iff_prefix, h2]
  rw [← Bool.not_eq_true, strStartsWith_iff, String.data_append]
  intro hpre
  rcases le_or_lt q.data.length a.data.length with hle | hlt
  · exact h1' (List.prefix_of_prefix_length_le hpre (List.prefix_append _ _) hle)
  · exact h2' (List.prefix_of_prefix_length_le (List.prefix_append _ _) hpre (le_of_lt hlt))

theorem strStartsWith_excl (q : String) {t p : String} (hp : strStartsWith t p = true)
    (h1 : q.data.isPrefixOf p.data = false) (h2 : p.data.isPrefixOf q.data = false) :
    strStartsWith t q = false := by
  have h1' : ¬ q.data <+: p.data := by simp [← List.isPrefixOf_iff_prefix, h1]
  have h2' : ¬ p.data <+: q.data := by simp [← List.isPrefixOf_iff_prefix, h2]
  rw [strStartsWith_iff] at hp
  rw [← Bool.not_eq_true, strStartsWith_iff]
  intro hq
  rcases le_or_lt q.data.length p.data.length with hle | hlt
  · exact h1' (List.prefix_of_prefix_length_le hq hp hle)
  · exact h2' (List.prefix_of_prefix_length_le hp hq (le_of_lt hlt))

theorem strTrimPre_append (p t : String) : strTrimPre (p ++ t) p = t := by
  have hp : p.data.isPrefixOf (p ++ t).data = true := by
    simp [String.data_append, List.isPrefixOf_iff_prefix, List.prefix_append]
  rw [strTrimPre, if_pos hp, String.data_append, List.drop_left]

theorem strTrimPre_of_not {s p : String} (h : strStartsWith s p = false) : strTrimPre s p = s := by
  rw [strTrimPre, if_neg]
  simp only [strStartsWith] at h
  simp [h]

theorem listHasInfix_subset {l sub : List Char} (h : listHasInfix l sub = true) :
    ∀ c ∈ sub, c ∈ l := by
  induction l with
  | nil =>
    rw [listHasInfix] at h
    have : sub = [] := by simpa using h
    simp [this]
  | cons x xs ih =>
    rw [listHasInfix, Bool.or_eq_true] at h
    rcases h with h | h
    · have hpre : sub <+: x :: xs := List.isPrefixOf_iff_prefix.mp h
      intro c hc
      exact hpre.subset hc
    · intro c hc
      exact List.mem_cons_of_mem _ (ih h c hc)

theorem strContainsSub_false_of_char {s sub : String} (c : Char) (hc : c ∈ sub.data)
    (hs : c ∉ s.data) : strContainsSub s sub = false := by
  rw [← Bool.not_eq_true, strContainsSub]
  intro h
  exact hs (listHasInfix_subset h c hc)

theorem foldl_sticky_false (p : α → Bool) (l : List α) (b : Bool) :
    l.foldl (fun acc x => if p x then false else acc) b = (b && l.all (fun x => !p x)) := by
  induction l generalizing b with
  | nil => simp
  | cons x xs ih =>
    rw [List.foldl_cons, ih, List.all_cons]
    cases h : p x <;> simp [h, Bool.and_assoc]

theorem splitOnCharAux_no_sep {c : Char} (l : List Char) (acc : List Char)
    (h : c ∉ l) : splitOnCharAux c l acc = [acc.reverse ++ l] := by
  induction l generalizing acc with
  | nil => simp [splitOnCharAux]
  | cons x xs ih =>
    have hx : ¬ x = c := fun he => h (he ▸ List.mem_cons_self x xs)
    rw [splitOnCharAux, if_neg hx, ih _ (fun hm => h (List.mem_cons_of_mem _ hm))]
    simp

theorem splitOnCharAux_sep {c : Char} (xs ys acc : List Char) (h : c ∉ xs) :
    splitOnCharAux c (xs ++ c :: ys) acc =
      (acc.reverse ++ xs) :: splitOnCharAux c ys [] := by
  induction xs generalizing acc with
  | nil => simp [splitOnCharAux]
  | cons x xt ih =>
    have hx : ¬ x = c := fun he => h (he ▸ List.mem_cons_self x xt)
    rw [List.cons_append, splitOnCharAux, if_neg hx,
      ih _ (fun hm => h (List.mem_cons_of_mem _ hm))]
    simp

theorem joinLinesData_split (ds : List (List Char)) (hne : ds ≠ [])
    (h : ∀ d ∈ ds, '\n' ∉ d) :
    splitOnCharAux '\n' (joinLinesData ds) [] = ds := by
  induction ds with
  | nil => exact absurd rfl hne
  | cons d rest ih =>
    match rest with
    | [] =>
      rw [joinLinesData, splitOnCharAux_no_sep _ _ (h d (List.mem_cons_self _ _))]
      simp
    | d2 :: t =>
      rw [joinLinesData, show d ++ '\n' :: joinLinesData (d2 :: t) =
        d ++ '\n' :: joinLinesData (d2 :: t) from rfl]
      rw [splitOnCharAux_sep _ _ _ (h d (List.mem_cons_self _ _))]
      rw [ih (by simp) (fun x hx => h x (List.mem_cons_of_mem _ hx))]
      simp

theorem splitLines_joinLines (ls : List String) (hne : ls ≠ [])
    (h : ∀ l ∈ ls, '\n' ∉ l.data) : splitLines (joinLines ls) = ls := by
  rw [splitLines, joinLines]
  have hd : (String.mk (joinLinesData (ls.map String.data))).data =
      joinLinesData (ls.map String.data) := rfl
  rw [hd, joinLinesData_split _ (by simpa using hne)
    (by intro d hd2; obtain ⟨l, hl, rfl⟩ := List.mem_map.mp hd2; exact h l hl)]
  rw [List.map_map]
  have hcomp : (String.mk ∘ String.data) = id := funext (fun _ => rfl)
  rw [hcomp, List.map_id]

theorem joinLines_single (l : String) : joinLines [l] = l := rfl

theorem joinLines_cons_startsWith (l : String) (rest : List String) (p : String)
    (h : strStartsWith l p = true) : strStartsWith (joinLines (l :: rest)) p = true := by
  match rest with
  | [] => exact h
  | r :: t =>
    rw [strStartsWith_iff] at h ⊢
    have : (joinLines (l :: r :: t)).data = l.data ++ '\n' :: joinLinesData ((r :: t).map String.data) := rfl
    rw [this]
    exact h.trans (List.prefix_append _ _)

theorem digitChar_toNat {n : Nat} (h : n < 10) : (Char.ofNat (48 + n)).toNat = 48 + n := by
  interval_cases n <;> decide

theorem digitChar_isDigit {n : Nat} (h : n < 10) : isDigitChar (Char.ofNat (48 + n)) = true := by
  interval_cases n <;> decide

theorem natToDigitsAux_parse (fuel : Nat) :
    ∀ (n : Nat) (acc : List Char) (a : Nat), n < fuel →
      parseDigitsAux a (natToDigitsAux fuel n acc) = parseDigitsAux (a * tenPow n + n) acc := by
  induction fuel with
  | zero => intro n acc a hn; omega
  | succ f ih =>
    intro n acc a hn
    by_cases h10 : n < 10
    · rw [natToDigitsAux, if_pos h10]
      have hm : n % 10 = n := Nat.mod_eq_of_lt h10
      rw [hm, parseDigitsAux, if_pos (digitChar_isDigit h10), digitChar_toNat h10]
      have ht : tenPow n = 10 := by rw [tenPow, if_pos h10]
      rw [ht]
      congr 1
      omega
    · rw [natToDigitsAux, if_neg h10]
      have hdiv : n / 10 < f := by omega
      rw [ih (n / 10) _ a hdiv]
      have hm : n % 10 < 10 := Nat.mod_lt _ (by omega)
      rw [parseDigitsAux, if_pos (digitChar_isDigit hm), digitChar_toNat hm]
      congr 1
      have ht : tenPow n = 10 * tenPow (n / 10) := by rw [tenPow, if_neg h10]
      have e2 : a * tenPow n + n = (a * tenPow (n / 10)) * 10 + n := by rw [ht]; ring
      have e1 : 10 * (a * tenPow (n / 10) + n / 10) + (48 + n % 10 - 48) =
          (a * tenPow (n / 10)) * 10 + n := by
        generalize (a * tenPow (n / 10)) = w
        omega
      rw [e1, e2]

theorem natToDigitsAux_cons (fuel : Nat) :
    ∀ (n : Nat) (acc : List Char), n < fuel →
      ∃ c cs, natToDigitsAux fuel n acc = c :: cs := by
  induction fuel with
  | zero => intro n acc hn; omega
  | succ f ih =>
    intro n acc hn
    by_cases h10 : n < 10
    · exact ⟨_, acc, by rw [natToDigitsAux, if_pos h10]⟩
    · obtain ⟨c, cs, hc⟩ := ih (n / 10) (Char.ofNat (48 + n % 10) :: acc) (by omega)
      exact ⟨c, cs, by rw [natToDigitsAux, if_neg h10]; exact hc⟩

theorem natToDigitsAux_all_digits (fuel : Nat) :
    ∀ (n : Nat) (acc : List Char), (∀ c ∈ acc, isDigitChar c = true) →
      ∀ c ∈ natToDigitsAux fuel n acc, isDigitChar c = true := by
  induction fuel with
  | zero => intro n acc hacc; exact hacc
  | succ f ih =>
    intro n acc hacc c hc
    by_cases h10 : n < 10
    · rw [natToDigitsAux, if_pos h10] at hc
      rcases List.mem_cons.mp hc with rfl | hmem
      · exact digitChar_isDigit (Nat.mod_lt _ (by omega))
      · exact hacc c hmem
    · rw [natToDigitsAux, if_neg h10] at hc
      refine ih (n / 10) _ ?_ c hc
      intro x hx
      rcases List.mem_cons.mp hx with rfl | hmem
      · exact digitChar_isDigit (Nat.mod_lt _ (by omega))
      · exact hacc x hmem

theorem parseDigits_natToDigits (n : Nat) : parseDigits (natToDigits n) = some n := by
  obtain ⟨c, cs, hc⟩ := natToDigitsAux_cons (n + 1) n [] (Nat.lt_succ_self n)
  rw [natToDigits, hc]
  show parseDigitsAux 0 (c :: cs) = some n
  rw [← hc]
  rw [natToDigitsAux_parse (n + 1) n [] 0 (Nat.lt_succ_self n)]
  simp [parseDigitsAux]

theorem atoi_itoa (i : Int) : atoi (itoa i) = some i := by
  by_cases h : i < 0
  · rw [itoa, if_pos h]
    have hstep : atoi (String.mk ('-' :: natToDigits i.natAbs)) =
        (parseDigits (natToDigits i.natAbs)).map (fun n => -(n : Int)) := by
      simp [atoi]
    rw [hstep, parseDigits_natToDigits]
    show some (-(i.natAbs : Int)) = some i
    congr 1
    omega
  · rw [itoa, if_neg h]
    obtain ⟨c, cs, hc⟩ := natToDigitsAux_cons (i.toNat + 1) i.toNat [] (Nat.lt_succ_self _)
    have hcm : c ∈ natToDigits i.toNat := by rw [natToDigits, hc]; exact List.mem_cons_self _ _
    have hcd : isDigitChar c = true :=
      natToDigitsAux_all_digits (i.toNat + 1) i.toNat [] (by simp) c
        (by rwa [natToDigits] at hcm)
    have hc1 : ¬ c = '-' := fun he => by subst he; exact absurd hcd (by decide)
    have hc2 : ¬ c = '+' := fun he => by subst he; exact absurd hcd (by decide)
    have hstep : atoi (String.mk (natToDigits i.toNat)) =
        (parseDigits (natToDigits i.toNat)).map (fun n => (n : Int)) := by
      rw [natToDigits, hc]
      simp [atoi, hc1, hc2]
    rw [hstep, parseDigits_natToDigits]
    show some ((i.toNat : Int)) = some i
    congr 1
    omega

theorem sorted_le_getLast? (l : List String)
    (h : l.Sorted (fun a b : String => aeNumKey a ≤ aeNumKey b)) :
    ∀ x ∈ l, ∃ y, l.getLast? = some y ∧ aeNumKey x ≤ aeNumKey y := by
  induction l with
  | nil => simp
  | cons a t ih =>
    intro x hx
    cases t with
    | nil =>
      have hxa : x = a := by simpa using hx
      exact ⟨a, rfl, by rw [hxa]⟩
    | cons b t2 =>
      have hs := List.sorted_cons.mp h
      rcases List.mem_cons.mp hx with rfl | hxt
      · obtain ⟨y, hy, hby⟩ := ih hs.2 b (List.mem_cons_self _ _)
        exact ⟨y, by rw [List.getLast?_cons_cons]; exact hy,
          le_trans (hs.1 b (List.mem_cons_self _ _)) hby⟩
      · obtain ⟨y, hy, hxy⟩ := ih hs.2 x hxt
        exact ⟨y, by rw [List.getLast?_cons_cons]; exact hy, hxy⟩

/-! ## Claim theorems -/

/-- C4: `interfaceAggregatedLastChild` returns `true` iff no configuration
line of any other interface (no line not prefixed by the acting interface's
own `set <name> ` marker) ends with the `802.3ad` binding naming the
parent; and in the concrete scenario where `ae7` has exactly one child
`xe-0/0/1` which is the acting interface being removed, the check is `true`
and the recomputed count excludes `ae7` (the allocator returns `"0"`). -/
theorem claimC4_lastChild_spec (ae interFace showConf : String) :
    (interfaceAggregatedLastChild ae interFace showConf = true ↔
      ∀ line ∈ splitLines showConf,
        strEndsWith line ("ether-options 802.3ad " ++ ae) = true →
        strStartsWith line ("set " ++ interFace ++ " ") = true) ∧
    (interfaceAggregatedLastChild "ae7" "xe-0/0/1"
        "set xe-0/0/1 ether-options 802.3ad ae7" = true ∧
      interfaceAggregatedCountSearchMax "ae-1" "ae7" "xe-0/0/1"
        "set xe-0/0/1 ether-options 802.3ad ae7" = .ok "0") := by
  refine ⟨?_, by decide, rfl⟩
  rw [interfaceAggregatedLastChild, foldl_sticky_false]
  simp only [Bool.true_and, List.all_eq_true]
  constructor
  · intro h line hline hends
    have := h line hline
    cases hstart : strStartsWith line ("set " ++ interFace ++ " ") with
    | true => rfl
    | false => rw [hends, hstart] at this; simp at this
  · intro h line hline
    cases hends : strEndsWith line ("ether-options 802.3ad " ++ ae) with
    | true => rw [h line hline hends]; simp
    | false => simp [hends]

/-- C4 witness: the forward direction applied to a configuration with no
other child binding. -/
theorem claimC4_witness :
    ∀ line ∈ splitLines "set xe-0/0/0 unit 0 family inet",
      strEndsWith line ("ether-options 802.3ad " ++ "ae9") = true →
      strStartsWith line ("set " ++ "xe-0/0/9" ++ " ") = true :=
  (claimC4_lastChild_spec "ae9" "xe-0/0/9" "set xe-0/0/0 unit 0 family inet").1.mp (by decide)

/-- C9: when more than one esi sub-field is populated, `setIntEsi` emits
exactly one statement — the one of the highest-priority populated field in
the fixed order mode, auto_derive_lacp, df_election_type, identifier,
source_bmac — silently dropping the remaining populated fields. -/
theorem claimC9_setIntEsi_priority (setPfx : String) (b : EsiBlock)
    (h : 2 ≤ (esiPriorityOrder.filter (esiFieldPopulated b)).length) :
    ∃ f, firstPopulatedEsiField b = some f ∧
      setIntEsi setPfx [some b] = .ok [esiFieldStatement setPfx b f] := by
  by_cases hm : b.mode = ""
  · by_cases ha : b.autoDeriveLacp = true
    · exact ⟨.autoDeriveLacp,
        by simp [firstPopulatedEsiField, esiPriorityOrder, esiFieldPopulated, List.find?, hm, ha],
        by simp [setIntEsi, esiFieldStatement, hm, ha]⟩
    · by_cases hd : b.dfElectionType = ""
      · by_cases hi : b.identifier = ""
        · by_cases hs : b.sourceBmac = ""
          · exfalso
            simp [esiPriorityOrder, esiFieldPopulated, hm, ha, hd, hi, hs] at h
          · exact ⟨.sourceBmac,
              by simp [firstPopulatedEsiField, esiPriorityOrder, esiFieldPopulated, List.find?,
                hm, ha, hd, hi, hs],
              by simp [setIntEsi, esiFieldStatement, hm, ha, hd, hi, hs]⟩
        · exact ⟨.identifier,
            by simp [firstPopulatedEsiField, esiPriorityOrder, esiFieldPopulated, List.find?,
              hm, ha, hd, hi],
            by simp [setIntEsi, esiFieldStatement, hm, ha, hd, hi]⟩
      · exact ⟨.dfElectionType,
          by simp [firstPopulatedEsiField, esiPriorityOrder, esiFieldPopulated, List.find?,
            hm, ha, hd],
          by simp [setIntEsi, esiFieldStatement, hm, ha, hd]⟩
  · exact ⟨.mode,
      by simp [firstPopulatedEsiField, esiPriorityOrder, esiFieldPopulated, List.find?, hm],
      by simp [setIntEsi, esiFieldStatement, hm]⟩

/-- C9 witness: a block with mode and df_election_type populated emits only
the mode statement. -/
theorem claimC9_witness :
    ∃ f, firstPopulatedEsiField { mode := "all-active", dfElectionType := "mod" } = some f ∧
      setIntEsi "set interfaces eth0 "
        [some { mode := "all-active", dfElectionType := "mod" }] =
        .ok [esiFieldStatement "set interfaces eth0 "
          { mode := "all-active", dfElectionType := "mod" } f] :=
  claimC9_setIntEsi_priority "set interfaces eth0 "
    { mode := "all-active", dfElectionType := "mod" } (by decide)

theorem except_bind_error {α β : Type} (e : String) (f : α → Except String β) :
    (Except.error e : Except String α) >>= f = .error e := rfl

theorem except_bind_ok {α β : Type} (a : α) (f : α → Except String β) :
    (Except.ok a : Except String α) >>= f = f a := rfl

theorem utmBlockLines_error (pfxBlock errMsg : String) (l : List (Option UtmProfile))
    (h : none ∈ l) : utmBlockLines pfxBlock errMsg l = .error errMsg := by
  induction l with
  | nil => simp at h
  | cons x t ih =>
    cases x with
    | none => rfl
    | some p =>
      have ht : none ∈ t := by
        rcases List.mem_cons.mp h with he | ht
        · exact absurd he (by simp)
        · exact ht
      rw [utmBlockLines, ih ht, except_bind_error]

theorem utmTrafficLines_error (pfx : String) (l : List (Option UtmTrafficOptions))
    (h : none ∈ l) :
    utmTrafficLines pfx l = .error "traffic_sessions_per_client block is empty" := by
  induction l with
  | nil => simp at h
  | cons x t ih =>
    cases x with
    | none => rfl
    | some p =>
      have ht : none ∈ t := by
        rcases List.mem_cons.mp h with he | ht
        · exact absurd he (by simp)
        · exact ht
      rw [utmTrafficLines, ih ht, except_bind_error]

/-- C6 counterexample: the claim says an explicitly-present-but-empty
sub-block always fails encoding with a validation error, including "the
interface esi block"; but `setIntEsi`'s loop guards `v != nil` with no
`else`, so a present-but-empty esi container is silently skipped and the
encoder succeeds emitting nothing. -/
theorem claimC6_counterexample : setIntEsi "set interfaces eth0 " [none] = .ok [] := rfl

/-- C6 amended: encoding fails with the block's validation error for a
present-but-empty anti-virus, content-filtering or traffic-sessions block
of a UTM policy; a present-but-empty interface esi block is instead
silently ignored (no statements, no error). -/
theorem claimC6_amended :
    (∀ o : UtmPolicyOptions,
      none ∈ o.antiVirus ∨ none ∈ o.contentFiltering ∨ none ∈ o.trafficSessionsPerClient →
        ∃ e, setUtmPolicy o = .error e) ∧
    (∀ setPfx : String, setIntEsi setPfx [none] = .ok []) := by
  constructor
  · intro o h
    rcases h with h | h | h
    · exact ⟨"anti_virus block is empty",
        by rw [setUtmPolicy]; rw [utmBlockLines_error _ _ _ h]; rfl⟩
    · cases hav : utmBlockLines ("set security utm utm-policy \"" ++ o.name ++ "\" " ++
          "anti-virus ") "anti_virus block is empty" o.antiVirus with
      | error e => exact ⟨e, by rw [setUtmPolicy, hav]; rfl⟩
      | ok r =>
        exact ⟨"content_filtering block is empty",
          by rw [setUtmPolicy, hav, except_bind_ok, utmBlockLines_error _ _ _ h]; rfl⟩
    · cases hav : utmBlockLines ("set security utm utm-policy \"" ++ o.name ++ "\" " ++
          "anti-virus ") "anti_virus block is empty" o.antiVirus with
      | error e => exact ⟨e, by rw [setUtmPolicy, hav]; rfl⟩
      | ok r =>
        cases hcf : utmBlockLines ("set security utm utm-policy \"" ++ o.name ++ "\" " ++
            "content-filtering ") "content_filtering block is empty" o.contentFiltering with
        | error e => exact ⟨e, by rw [setUtmPolicy, hav, except_bind_ok, hcf]; rfl⟩
        | ok r2 =>
          exact ⟨"traffic_sessions_per_client block is empty",
            by rw [setUtmPolicy, hav, except_bind_ok, hcf, except_bind_ok,
              utmTrafficLines_error _ _ h]; rfl⟩
  · intro setPfx
    rfl

/-- C6 witness: a UTM policy whose anti-virus list holds an empty block is
rejected. -/
theorem claimC6_witness :
    ∃ e, setUtmPolicy { name := "p1", antiVirus := [none] } = .error e :=
  claimC6_amended.1 { name := "p1", antiVirus := [none] } (by simp)

theorem containsUnitLoop_some (interFace : String) (lines : List String)
    (h : ∃ l ∈ lines.takeWhile (fun l => !strContainsSub l "</configuration-output>"),
      unitOffending l) :
    containsUnitLoop interFace lines =
      some ("interface " ++ interFace ++ " is used for other son unit interface") := by
  induction lines with
  | nil => simp at h
  | cons l rest ih =>
    obtain ⟨x, hx, hoff⟩ := h
    by_cases hcl : strContainsSub l "</configuration-output>" = true
    · rw [List.takeWhile_cons] at hx
      simp [hcl] at hx
    · rw [List.takeWhile_cons] at hx
      rw [show (!strContainsSub l "</configuration-output>") = true by simp [hcl]] at hx
      simp only [if_pos] at hx
      rw [containsUnitLoop]
      by_cases ho : strContainsSub l "<configuration-output>" = true
      · rw [if_pos ho]
        apply ih
        rcases List.mem_cons.mp hx with rfl | hxt
        · exact absurd hoff.1 (by simp [ho])
        · exact ⟨x, hxt, hoff⟩
      · rw [if_neg ho, if_neg (by simp [hcl])]
        by_cases hu : strStartsWith l "set unit" = true
        · rw [if_pos hu]
          by_cases he : strContainsSub l "ethernet-switching" = true
          · rw [if_pos he]
            apply ih
            rcases List.mem_cons.mp hx with rfl | hxt
            · exact absurd hoff.2.2 (by simp [he])
            · exact ⟨x, hxt, hoff⟩
          · rw [if_neg he]
        · rw [if_neg hu]
          apply ih
          rcases List.mem_cons.mp hx with rfl | hxt
          · exact absurd hoff.2.1 hu
          · exact ⟨x, hxt, hoff⟩

/-- C10: deleting a physical interface whose configuration still carries a
`set unit` statement without `ethernet-switching` fails with the
"used for other son unit interface" error before staging any delete
statement (the staged edit list is empty). -/
theorem claimC10_delete_unit_guard (name ether8023ad intConfig showConf : String)
    (h : ∃ l ∈ scanLinesUntilClose intConfig, unitOffending l) :
    delInterfacePhysical name ether8023ad intConfig showConf =
      ([], some ("interface " ++ name ++ " is used for other son unit interface")) := by
  rw [scanLinesUntilClose] at h
  rw [delInterfacePhysical, checkInterfacePhysicalContainsUnit, containsUnitLoop_some name _ h]

/-- C10 witness. -/
theorem claimC10_witness :
    delInterfacePhysical "xe-0/0/1" "" "set unit 0 family inet" "" =
      ([], some ("interface " ++ "xe-0/0/1" ++ " is used for other son unit interface")) :=
  claimC10_delete_unit_guard "xe-0/0/1" "" "set unit 0 family inet" ""
    ⟨"set unit 0 family inet", by decide, by unfold unitOffending; decide⟩

/-- C8: every pre-commit failure of a mutating operation — existence-check
failure, conflict, or encode/apply failure — discards the staged statements
(`configClear`) before surfacing the error, for all six mutating flows:
interface create, update and delete, and UTM-policy create, update and
delete (for the delete flows, also the re-park step before their second
commit). -/
theorem claimC8_discard_before_commit :
    (∀ (o : InterfaceCreateOracle) (e : String), o.session = .ok () →
      o.ncEmpty1 = .error e →
      resourceInterfacePhysicalCreate o = (.error e, true)) ∧
    (∀ o : InterfaceCreateOracle, o.session = .ok () →
      o.ncEmpty1 = .ok (false, false) →
      resourceInterfacePhysicalCreate o = (.error "interface already configured", true)) ∧
    (∀ (o : InterfaceCreateOracle) (e : String) (em : Bool), o.session = .ok () →
      o.ncEmpty1 = .ok (true, em) → o.delNC = .error e →
      resourceInterfacePhysicalCreate o = (.error e, true)) ∧
    (∀ (o : InterfaceCreateOracle) (e : String) (nc em : Bool), o.session = .ok () →
      o.ncEmpty1 = .ok (nc, em) → ¬(nc = false ∧ em = false) →
      (nc = true → o.delNC = .ok ()) → o.setIP = .error e →
      resourceInterfacePhysicalCreate o = (.error e, true)) ∧
    (∀ (o : UtmCreateOracle) (e : String), o.session = .ok () → o.compat = true →
      o.lock = .ok () → o.utmPolicyExists1 = .error e →
      resourceSecurityUtmPolicyCreate o = (.error e, true)) ∧
    (∀ o : UtmCreateOracle, o.session = .ok () → o.compat = true →
      o.lock = .ok () → o.utmPolicyExists1 = .ok true →
      resourceSecurityUtmPolicyCreate o =
        (.error "security utm utm-policy already exists", true)) ∧
    (∀ (o : UtmCreateOracle) (e : String), o.session = .ok () → o.compat = true →
      o.lock = .ok () → o.utmPolicyExists1 = .ok false → o.setPol = .error e →
      resourceSecurityUtmPolicyCreate o = (.error e, true)) ∧
    (∀ (o : UtmUpdateOracle) (e : String), o.session = .ok () → o.lock = .ok () →
      o.delPol = .error e →
      resourceSecurityUtmPolicyUpdate o = (.error e, true)) ∧
    (∀ (o : UtmUpdateOracle) (e : String), o.session = .ok () → o.lock = .ok () →
      o.delPol = .ok () → o.setPol = .error e →
      resourceSecurityUtmPolicyUpdate o = (.error e, true)) ∧
    (∀ (o : InterfaceUpdateOracle) (e : String), o.session = .ok () →
      o.delOpts = .error e →
      resourceInterfacePhysicalUpdate o = (.error e, true)) ∧
    (∀ (o : InterfaceUpdateOracle) (e : String), o.session = .ok () →
      o.delOpts = .ok () → o.setIP = .error e →
      resourceInterfacePhysicalUpdate o = (.error e, true)) ∧
    (∀ (o : InterfaceDeleteOracle) (e : String), o.session = .ok () →
      o.delIP = .error e →
      resourceInterfacePhysicalDelete o = (.error e, true)) ∧
    (∀ (o : InterfaceDeleteOracle) (e : String), o.session = .ok () →
      o.delIP = .ok () → o.commit = .ok () → o.noDisableOnDestroy = false →
      o.intExists = .ok true → o.addNC = .error e →
      resourceInterfacePhysicalDelete o = (.error e, true)) ∧
    (∀ (o : UtmDeleteOracle) (e : String), o.session = .ok () → o.lock = .ok () →
      o.delPol = .error e →
      resourceSecurityUtmPolicyDelete o = (.error e, true)) := by
  refine ⟨?_, ?_, ?_, ?_, ?_, ?_, ?_, ?_, ?_, ?_, ?_, ?_, ?_, ?_⟩
  · intro o e hs hnc
    rw [resourceInterfacePhysicalCreate, hs, hnc]
  · intro o hs hnc
    rw [resourceInterfacePhysicalCreate, hs, hnc]
    rfl
  · intro o e em hs hnc hdel
    rw [resourceInterfacePhysicalCreate, hs, hnc]
    simp [hdel]
  · intro o e nc em hs hnc hne hdel hset
    rw [resourceInterfacePhysicalCreate, hs, hnc]
    cases nc with
    | true => simp [hdel rfl, hset]
    | false =>
      cases em with
      | true => simp [hset]
      | false => exact absurd ⟨rfl, rfl⟩ hne
  · intro o e hs hc hl hex
    rw [resourceSecurityUtmPolicyCreate, hs, hc, hl, hex]
    rfl
  · intro o hs hc hl hex
    rw [resourceSecurityUtmPolicyCreate, hs, hc, hl, hex]
    rfl
  · intro o e hs hc hl hex hset
    rw [resourceSecurityUtmPolicyCreate, hs, hc, hl, hex, hset]
    rfl
  · intro o e hs hl hdel
    rw [resourceSecurityUtmPolicyUpdate, hs, hl, hdel]
  · intro o e hs hl hdel hset
    rw [resourceSecurityUtmPolicyUpdate, hs, hl, hdel, hset]
  · intro o e hs hdel
    rw [resourceInterfacePhysicalUpdate, hs, hdel]
  · intro o e hs hdel hset
    rw [resourceInterfacePhysicalUpdate, hs, hdel, hset]
  · intro o e hs hdel
    rw [resourceInterfacePhysicalDelete, hs, hdel]
  · intro o e hs hdel hcommit hnd hex hnc
    rw [resourceInterfacePhysicalDelete, hs, hdel, hcommit, hnd, hex, hnc]
    rfl
  · intro o e hs hl hdel
    rw [resourceSecurityUtmPolicyDelete, hs, hl, hdel]

/-- C8 witness: an apply failure during UTM-policy update discards the
pending edit set. -/
theorem claimC8_witness :
    resourceSecurityUtmPolicyUpdate { setPol := .error "apply failed" } =
      (.error "apply failed", true) :=
  claimC8_discard_before_commit.2.2.2.2.2.2.2.2.1 { setPol := .error "apply failed" }
    "apply failed" rfl rfl rfl rfl

theorem append_ne_of_startsWith_false {a b : String} (x : String)
    (h : strStartsWith b a = false) : a ++ x ≠ b := by
  intro he
  rw [← he, strStartsWith_self_append] at h
  simp at h

/-- C5: when the delete flow recomputes the aggregated device-count and the
referenced set is empty (the allocator returns `"0"`), the staged
statements remove the chassis device-count setting entirely and no staged
statement sets it (in particular never to `0`); when the computed count is
non-zero a set statement with that count is staged instead and no delete of
the setting is staged.  Both the parent-delete branch and the
last-child-delete branch are covered. -/
theorem claimC5_devicecount_statements :
    (∀ name ether8023ad intConfig showConf : String,
      checkInterfacePhysicalContainsUnit name intConfig = none →
      strStartsWith name "ae" = true →
      interfaceAggregatedCountSearchMax "ae-1" name name showConf = .ok "0" →
      "delete chassis aggregated-devices ethernet device-count" ∈
        (delInterfacePhysical name ether8023ad intConfig showConf).1 ∧
      ∀ s ∈ (delInterfacePhysical name ether8023ad intConfig showConf).1,
        strStartsWith s "set chassis aggregated-devices ethernet device-count" = false) ∧
    (∀ name ether8023ad intConfig showConf c : String,
      checkInterfacePhysicalContainsUnit name intConfig = none →
      strStartsWith name "ae" = true →
      interfaceAggregatedCountSearchMax "ae-1" name name showConf = .ok c → c ≠ "0" →
      ("set chassis aggregated-devices ethernet device-count " ++ c) ∈
        (delInterfacePhysical name ether8023ad intConfig showConf).1 ∧
      "delete chassis aggregated-devices ethernet device-count" ∉
        (delInterfacePhysical name ether8023ad intConfig showConf).1) ∧
    (∀ name ether8023ad intConfig showConf : String,
      checkInterfacePhysicalContainsUnit name intConfig = none →
      strStartsWith name "ae" = false → ether8023ad ≠ "" →
      interfaceAggregatedLastChild ether8023ad name showConf = true →
      interfaceAggregatedCountSearchMax "ae-1" ether8023ad name showConf = .ok "0" →
      "delete chassis aggregated-devices ethernet device-count" ∈
        (delInterfacePhysical name ether8023ad intConfig showConf).1 ∧
      ∀ s ∈ (delInterfacePhysical name ether8023ad intConfig showConf).1,
        strStartsWith s "set chassis aggregated-devices ethernet device-count" = false) ∧
    (∀ name ether8023ad intConfig showConf c : String,
      checkInterfacePhysicalContainsUnit name intConfig = none →
      strStartsWith name "ae" = false → ether8023ad ≠ "" →
      interfaceAggregatedLastChild ether8023ad name showConf = true →
      interfaceAggregatedCountSearchMax "ae-1" ether8023ad name showConf = .ok c → c ≠ "0" →
      ("set chassis aggregated-devices ethernet device-count " ++ c) ∈
        (delInterfacePhysical name ether8023ad intConfig showConf).1 ∧
      "delete chassis aggregated-devices ethernet device-count" ∉
        (delInterfacePhysical name ether8023ad intConfig showConf).1) := by
  refine ⟨?_, ?_, ?_, ?_⟩
  · intro name ether8023ad intConfig showConf hunit hae hcount
    simp only [delInterfacePhysical, hunit, if_pos hae, hcount]
    refine ⟨by simp, ?_⟩
    intro s hs
    rcases (by simpa using hs : s = "delete interfaces " ++ name ∨
        s = "delete chassis aggregated-devices ethernet device-count") with rfl | rfl
    · exact strStartsWith_append_false _ (by decide) (by decide)
    · decide
  · intro name ether8023ad intConfig showConf c hunit hae hcount hc0
    simp only [delInterfacePhysical, hunit, if_pos hae, hcount, if_neg hc0]
    refine ⟨by simp, ?_⟩
    intro hmem
    rcases (by simpa using hmem :
        "delete chassis aggregated-devices ethernet device-count" =
          "delete interfaces " ++ name ∨
        "delete chassis aggregated-devices ethernet device-count" =
          "set chassis aggregated-devices ethernet device-count " ++ c) with he | he
    · exact append_ne_of_startsWith_false name (by decide) he.symm
    · exact append_ne_of_startsWith_false c (by decide) he.symm
  · intro name ether8023ad intConfig showConf hunit hae hne hlc hcount
    simp only [delInterfacePhysical, hunit, hae, Bool.false_eq_true, if_false, if_neg,
      if_pos hne, hlc, if_pos, hcount, if_true]
    refine ⟨by simp, ?_⟩
    intro s hs
    rcases (by simpa using hs : s = "delete interfaces " ++ name ∨
        s = "delete chassis aggregated-devices ethernet device-count") with rfl | rfl
    · exact strStartsWith_append_false _ (by decide) (by decide)
    · decide
  · intro name ether8023ad intConfig showConf c hunit hae hne hlc hcount hc0
    simp only [delInterfacePhysical, hunit, hae, Bool.false_eq_true, if_false, if_neg,
      if_pos hne, hlc, if_pos, hcount, if_neg hc0, if_true]
    refine ⟨by simp, ?_⟩
    intro hmem
    rcases (by simpa using hmem :
        "delete chassis aggregated-devices ethernet device-count" =
          "delete interfaces " ++ name ∨
        "delete chassis aggregated-devices ethernet device-count" =
          "set chassis aggregated-devices ethernet device-count " ++ c) with he | he
    · exact append_ne_of_startsWith_false name (by decide) he.symm
    · exact append_ne_of_startsWith_false c (by decide) he.symm

/-- C5 witness: deleting parent `ae3` from a configuration with no other
`ae` references stages the removal of the device-count setting. -/
theorem claimC5_witness :
    "delete chassis aggregated-devices ethernet device-count" ∈
      (delInterfacePhysical "ae3" "" "set description x" "set xe-0/0/0 unit 0 family inet").1 ∧
    ∀ s ∈ (delInterfacePhysical "ae3" "" "set description x"
        "set xe-0/0/0 unit 0 family inet").1,
      strStartsWith s "set chassis aggregated-devices ethernet device-count" = false :=
  claimC5_devicecount_statements.1 "ae3" "" "set description x"
    "set xe-0/0/0 unit 0 family inet" rfl rfl rfl

/-- C1: whenever the referenced-index names collected by the allocator's
scan (after the exclusion and last-child rules) all parse as integers `ks`
with maximum `M`, and the requested new index parses as `newN`,
`interfaceAggregatedCountSearchMax` returns `M + 1` when `M` exceeds
`newN` and `newN + 1` otherwise; in particular a scan containing parents
`ae1, ae3, ae7` with no exclusions and a requested index below 7 yields
`"8"`. -/
theorem claimC1_countSearchMax_spec :
    (∀ (newAE oldAE interFace showConf : String) (newN M : Int) (ks : List Int),
      atoi (strTrimPre newAE "ae") = some newN →
      (aeReferenced oldAE interFace showConf).map (fun s => atoi (strTrimPre s "ae")) =
        ks.map some →
      M ∈ ks → (∀ k ∈ ks, k ≤ M) →
      interfaceAggregatedCountSearchMax newAE oldAE interFace showConf =
        .ok (itoa (if newN < M then M + 1 else newN + 1))) ∧
    interfaceAggregatedCountSearchMax "ae0" "ae-1" "ae0"
      "set ae1 unit 0 family inet\nset ae3 unit 0 family inet\nset ae7 unit 0 family inet" =
      .ok "8" := by
  refine ⟨?_, rfl⟩
  intro newAE oldAE interFace showConf newN M ks hnew href hM hmax
  haveI instTot : IsTotal String (fun a b => aeNumKey a ≤ aeNumKey b) :=
    ⟨fun a b => le_total _ _⟩
  haveI instTrans : IsTrans String (fun a b => aeNumKey a ≤ aeNumKey b) :=
    ⟨fun _ _ _ hab hbc => le_trans hab hbc⟩
  set L := aeReferenced oldAE interFace showConf with hLdef
  have hks_ne : ks ≠ [] := List.ne_nil_of_mem hM
  have hLlen : L.length = ks.length := by
    have := congrArg List.length href
    simpa using this
  have hL_ne : L ≠ [] := by
    intro h0
    rw [h0] at hLlen
    exact hks_ne (List.eq_nil_of_length_eq_zero hLlen.symm)
  have hpos : 0 < L.length := List.length_pos.mpr hL_ne
  have hsorted : (sortStringsLength L).Sorted (fun a b => aeNumKey a ≤ aeNumKey b) := by
    rw [sortStringsLength]
    exact List.sorted_insertionSort _ L
  have hperm : (sortStringsLength L).Perm L := by
    rw [sortStringsLength]
    exact List.perm_insertionSort _ L
  obtain ⟨sM, hsM_L, hfsM⟩ : ∃ s ∈ L, atoi (strTrimPre s "ae") = some M := by
    have hmm : some M ∈ ks.map some := List.mem_map_of_mem some hM
    rw [← href] at hmm
    obtain ⟨s, hs, he⟩ := List.mem_map.mp hmm
    exact ⟨s, hs, he⟩
  obtain ⟨y, hy, hle⟩ := sorted_le_getLast? _ hsorted sM (hperm.mem_iff.mpr hsM_L)
  have hy_L : y ∈ L := hperm.mem_iff.mp (List.mem_of_mem_getLast? hy)
  obtain ⟨ky, hky_ks, hfy⟩ : ∃ k ∈ ks, atoi (strTrimPre y "ae") = some k := by
    have hmm : atoi (strTrimPre y "ae") ∈ ks.map some := by
      rw [← href]
      exact List.mem_map_of_mem _ hy_L
    obtain ⟨k, hk, he⟩ := List.mem_map.mp hmm
    exact ⟨k, hk, he.symm⟩
  have hkey_y : aeNumKey y = ky := by rw [aeNumKey, hfy]; rfl
  have hkey_sM : aeNumKey sM = M := by rw [aeNumKey, hfsM]; rfl
  have hky_eq : ky = M :=
    le_antisymm (hmax ky hky_ks) (by rw [← hkey_sM, ← hkey_y]; exact hle)
  have hlastD : (sortStringsLength L).getLastD "" = y := by
    rw [List.getLastD_eq_getLast?, hy]
    rfl
  have hlast_atoi : atoi (strTrimPre ((sortStringsLength L).getLastD "") "ae") = some M := by
    rw [hlastD, hfy, hky_eq]
  simp only [interfaceAggregatedCountSearchMax, hnew, ← hLdef, if_pos hpos, hlast_atoi]
  by_cases hc : M > newN
  · have hc' : newN < M := hc
    simp [hc, hc']
  · have hc' : ¬ newN < M := hc
    simp [hc, hc']

/-- C1 witness: the general law applied to the `ae1, ae3, ae7` scan with
requested index 0 — the referenced maximum 7 exceeds 0, so the count is 8. -/
theorem claimC1_witness :
    interfaceAggregatedCountSearchMax "ae0" "ae-1" "ae0"
      "set ae1 unit 0 family inet\nset ae3 unit 0 family inet\nset ae7 unit 0 family inet" =
      .ok (itoa (if (0 : Int) < 7 then 7 + 1 else 0 + 1)) :=
  claimC1_countSearchMax_spec.1 "ae0" "ae-1" "ae0"
    "set ae1 unit 0 family inet\nset ae3 unit 0 family inet\nset ae7 unit 0 family inet"
    0 7 [1, 3, 7] (by decide) (by rfl) (by decide) (by decide)

theorem splitLines_no_newline (s : String) (h : '\n' ∉ s.data) : splitLines s = [s] := by
  rw [splitLines, splitOnCharAux_no_sep _ _ h]
  simp

theorem ne_empty_of_startsWith_set {l : String} (h : strStartsWith l "set " = true) : l ≠ "" := by
  intro he
  subst he
  exact absurd h (by decide)

theorem ncFilterLines_id (lines : List String)
    (h : ∀ l ∈ lines,
      strStartsWith l "set " = true ∧
      (strStartsWith l "set unit" && !strContainsSub l "ethernet-switching") = false ∧
      strContainsSub l "<configuration-output>" = false ∧
      strContainsSub l "</configuration-output>" = false) :
    ncFilterLines lines = lines := by
  induction lines with
  | nil => rfl
  | cons l rest ih =>
    obtain ⟨hset, hunit, ho, hc⟩ := h l (List.mem_cons_self _ _)
    rw [ncFilterLines]
    rw [if_neg (by simp [hunit]), if_neg (by simp [ho]), if_neg (by simp [hc]),
      if_neg (ne_empty_of_startsWith_set hset)]
    rw [ih (fun x hx => h x (List.mem_cons_of_mem _ hx))]

/-- C3: over normalized statement sequences for one interface (each line a
single `set `-statement, already filtered of unit noise and framing), the
classifier is the exact three-way split: Empty (`(false, true)`) for the
empty sequence, NotConfigured (`(true, false)`) for exactly the two-line
parked pattern in either order or exactly the single applied
deletion-group statement when a group name is configured, and Present
(`(false, false)`) for every other sequence; and no input ever yields both
flags at once. -/
theorem claimC3_lifecycle_trichotomy (groupIntDel : String) (lines : List String)
    (hg : '\n' ∉ groupIntDel.data)
    (h : ∀ l ∈ lines,
      strStartsWith l "set " = true ∧ '\n' ∉ l.data ∧
      (strStartsWith l "set unit" && !strContainsSub l "ethernet-switching") = false ∧
      strContainsSub l "<configuration-output>" = false ∧
      strContainsSub l "</configuration-output>" = false) :
    (lines = [] → checkInterfacePhysicalNCEmpty groupIntDel (joinLines lines) = (false, true)) ∧
    ((lines = ["set description NC", "set disable"] ∨
        lines = ["set disable", "set description NC"] ∨
        (groupIntDel ≠ "" ∧ lines = ["set apply-groups " ++ groupIntDel])) →
      checkInterfacePhysicalNCEmpty groupIntDel (joinLines lines) = (true, false)) ∧
    (lines ≠ [] →
      ¬(lines = ["set description NC", "set disable"] ∨
        lines = ["set disable", "set description NC"] ∨
        (groupIntDel ≠ "" ∧ lines = ["set apply-groups " ++ groupIntDel])) →
      checkInterfacePhysicalNCEmpty groupIntDel (joinLines lines) = (false, false)) ∧
    (∀ g conf : String, checkInterfacePhysicalNCEmpty g conf ≠ (true, true)) := by
  have hnn : ∀ l ∈ lines, '\n' ∉ l.data := fun l hl => (h l hl).2.1
  refine ⟨?_, ?_, ?_, ?_⟩
  · intro he
    subst he
    rw [checkInterfacePhysicalNCEmpty]
    have h0 : ncFilterLines (splitLines (joinLines ([] : List String))) = [] := by decide
    rw [h0]
    rfl
  · intro hp
    rcases hp with rfl | rfl | ⟨hgne, rfl⟩
    · rw [checkInterfacePhysicalNCEmpty]
      have h1 : ncFilterLines (splitLines (joinLines ["set description NC", "set disable"])) =
          ["set description NC", "set disable"] := by decide
      rw [h1]
      have h2 : joinLines ["set description NC", "set disable"] =
          "set description NC\nset disable" := rfl
      have hne : "set description NC\nset disable" ≠
          "set apply-groups " ++ groupIntDel := fun he =>
        append_ne_of_startsWith_false groupIntDel (by decide) he.symm
      simp [h2, hne]
    · rw [checkInterfacePhysicalNCEmpty]
      have h1 : ncFilterLines (splitLines (joinLines ["set disable", "set description NC"])) =
          ["set disable", "set description NC"] := by decide
      rw [h1]
      have h2 : joinLines ["set disable", "set description NC"] =
          "set disable\nset description NC" := rfl
      have hne : "set disable\nset description NC" ≠
          "set apply-groups " ++ groupIntDel := fun he =>
        append_ne_of_startsWith_false groupIntDel (by decide) he.symm
      simp [h2, hne]
    · have hsplit : splitLines (joinLines ["set apply-groups " ++ groupIntDel]) =
          ["set apply-groups " ++ groupIntDel] := by
        rw [joinLines_single]
        exact splitLines_no_newline _ (hnn _ (List.mem_cons_self _ _))
      rw [checkInterfacePhysicalNCEmpty, hsplit,
        ncFilterLines_id ["set apply-groups " ++ groupIntDel]
          (fun l hl => ⟨(h l hl).1, (h l hl).2.2⟩)]
      simp [joinLines_single, hgne]
  · intro hne hnp
    have hsplit : splitLines (joinLines lines) = lines := splitLines_joinLines lines hne hnn
    rw [checkInterfacePhysicalNCEmpty, hsplit, ncFilterLines_id _
      (fun l hl => ⟨(h l hl).1, (h l hl).2.2⟩)]
    rw [if_neg (by simpa [List.length_eq_zero] using hne)]
    obtain ⟨l0, rest, rfl⟩ := List.exists_cons_of_ne_nil hne
    have hic_set : strStartsWith (joinLines (l0 :: rest)) "set " = true :=
      joinLines_cons_startsWith l0 rest _ (h l0 (List.mem_cons_self _ _)).1
    have hne_group : ¬(groupIntDel ≠ "" ∧
        joinLines (l0 :: rest) = "set apply-groups " ++ groupIntDel) := by
      rintro ⟨hg1, hg2⟩
      apply hnp
      right; right
      refine ⟨hg1, ?_⟩
      have : splitLines (joinLines (l0 :: rest)) =
          splitLines ("set apply-groups " ++ groupIntDel) := by rw [hg2]
      rw [hsplit, splitLines_no_newline _ ?_] at this
      · exact this
      · rw [String.data_append]
        intro hm
        rcases List.mem_append.mp hm with hm1 | hm2
        · exact absurd hm1 (by decide)
        · exact hg hm2
    have hne_p1 : joinLines (l0 :: rest) ≠ "set description NC\nset disable" := by
      intro he
      apply hnp
      left
      have : splitLines (joinLines (l0 :: rest)) =
          splitLines "set description NC\nset disable" := by rw [he]
      rw [hsplit] at this
      rw [this]
      decide
    have hne_p2 : joinLines (l0 :: rest) ≠ "set disable\nset description NC" := by
      intro he
      apply hnp
      right; left
      have : splitLines (joinLines (l0 :: rest)) =
          splitLines "set disable\nset description NC" := by rw [he]
      rw [hsplit] at this
      rw [this]
      decide
    have hne_empty : joinLines (l0 :: rest) ≠ emptyWord := by
      intro he
      rw [he] at hic_set
      exact absurd hic_set (by decide)
    rw [if_neg (by simpa using hne_group), if_neg (by simp [hne_p1, hne_p2]),
      if_neg hne_empty]
  · intro g conf
    simp only [checkInterfacePhysicalNCEmpty]
    split
    · simp
    · split
      · simp
      · split
        · simp
        · split
          · simp
          · simp

/-- C3 witness: the parked pattern in reversed order classifies as
NotConfigured. -/
theorem claimC3_witness :
    checkInterfacePhysicalNCEmpty ""
      (joinLines ["set disable", "set description NC"]) = (true, false) :=
  (claimC3_lifecycle_trichotomy "" ["set disable", "set description NC"] (by decide)
    (by decide)).2.1 (Or.inr (Or.inl rfl))

theorem listHasInfix_nil_sub (l : List Char) : listHasInfix l [] = true := by
  cases l with
  | nil => rfl
  | cons c t => simp [listHasInfix, List.isPrefixOf]

theorem listHasInfix_of_infix {l sub : List Char} (h : sub <:+: l) : listHasInfix l sub = true := by
  obtain ⟨u, v, huv⟩ := h
  subst huv
  induction u with
  | nil =>
    cases sub with
    | nil => simp [listHasInfix_nil_sub]
    | cons c s2 =>
      rw [List.nil_append, List.cons_append]
      simp only [listHasInfix, Bool.or_eq_true]
      left
      rw [List.isPrefixOf_iff_prefix]
      rw [← List.cons_append]
      exact List.prefix_append _ _
  | cons x u2 ih =>
    rw [List.cons_append]
    simp only [listHasInfix, Bool.or_eq_true]
    right
    exact ih

theorem strContainsSub_sandwich (a b c : String) : strContainsSub (a ++ b ++ c) b = true := by
  apply listHasInfix_of_infix
  rw [String.data_append, String.data_append]
  exact ⟨a.data, c.data, rfl⟩

theorem contains_conv_err (t s : String) :
    strContainsSub
      ("failed to convert value from '" ++ t ++ "' to integer : " ++ strconvAtoiErr s) t =
      true := by
  have h1 : "failed to convert value from '" ++ t ++ "' to integer : " ++ strconvAtoiErr s =
      "failed to convert value from '" ++ t ++ ("' to integer : " ++ strconvAtoiErr s) := by
    rw [String.append_assoc]
  rw [h1]
  exact strContainsSub_sandwich _ _ _

theorem contains_strconv_err (s : String) : strContainsSub (strconvAtoiErr s) s = true := by
  rw [strconvAtoiErr]
  exact strContainsSub_sandwich _ _ _

theorem readIntLoop_errors (lines : List String) :
    ∀ st : InterfacePhysicalOptions,
      ((∃ msg, readInterfacePhysicalLoop st lines = .error msg) ↔
        ∃ l ∈ lines.takeWhile intKeepLine, intNumericOffending l) ∧
      (∀ msg, readInterfacePhysicalLoop st lines = .error msg →
        ∃ l ∈ lines.takeWhile intKeepLine, intNumericOffending l ∧
          strContainsSub msg (strTrimPre l setLineStart) = true) := by
  induction lines with
  | nil =>
    intro st
    refine ⟨⟨fun ⟨msg, hmsg⟩ => absurd hmsg (by simp [readInterfacePhysicalLoop]),
      fun ⟨x, hx, _⟩ => absurd hx (by simp)⟩,
      fun msg hmsg => absurd hmsg (by simp [readInterfacePhysicalLoop])⟩
  | cons l rest ih =>
    intro st
    have step : ∀ st' : InterfacePhysicalOptions,
        readInterfacePhysicalLoop st (l :: rest) = readInterfacePhysicalLoop st' rest →
        intKeepLine l = true → ¬ intNumericOffending l →
        ((∃ msg, readInterfacePhysicalLoop st (l :: rest) = .error msg) ↔
          ∃ x ∈ (l :: rest).takeWhile intKeepLine, intNumericOffending x) ∧
        (∀ msg, readInterfacePhysicalLoop st (l :: rest) = .error msg →
          ∃ x ∈ (l :: rest).takeWhile intKeepLine, intNumericOffending x ∧
            strContainsSub msg (strTrimPre x setLineStart) = true) := by
      intro st' hloop hkeep hnoff
      have hreg : (l :: rest).takeWhile intKeepLine = l :: rest.takeWhile intKeepLine := by
        rw [List.takeWhile_cons, if_pos hkeep]
      rw [hloop, hreg]
      constructor
      · rw [(ih st').1]
        constructor
        · rintro ⟨x, hx, ho⟩
          exact ⟨x, List.mem_cons_of_mem _ hx, ho⟩
        · rintro ⟨x, hx, ho⟩
          rcases List.mem_cons.mp hx with rfl | hx2
          · exact absurd ho hnoff
          · exact ⟨x, hx2, ho⟩
      · intro msg hmsg
        obtain ⟨x, hx, ho, hc⟩ := (ih st').2 msg hmsg
        exact ⟨x, List.mem_cons_of_mem _ hx, ho, hc⟩
    have errcase : ∀ msg0 : String,
        readInterfacePhysicalLoop st (l :: rest) = .error msg0 →
        intKeepLine l = true → intNumericOffending l →
        strContainsSub msg0 (strTrimPre l setLineStart) = true →
        ((∃ msg, readInterfacePhysicalLoop st (l :: rest) = .error msg) ↔
          ∃ x ∈ (l :: rest).takeWhile intKeepLine, intNumericOffending x) ∧
        (∀ msg, readInterfacePhysicalLoop st (l :: rest) = .error msg →
          ∃ x ∈ (l :: rest).takeWhile intKeepLine, intNumericOffending x ∧
            strContainsSub msg (strTrimPre x setLineStart) = true) := by
      intro msg0 hloop hkeep hoff hcon
      have hreg : (l :: rest).takeWhile intKeepLine = l :: rest.takeWhile intKeepLine := by
        rw [List.takeWhile_cons, if_pos hkeep]
      rw [hloop, hreg]
      refine ⟨⟨fun _ => ⟨l, List.mem_cons_self _ _, hoff⟩, fun _ => ⟨msg0, rfl⟩⟩, ?_⟩
      intro msg hmsg
      injection hmsg with he
      subst he
      exact ⟨l, List.mem_cons_self _ _, hoff, hcon⟩
    cases hunit : (strContainsSub l " unit " && !strContainsSub l "ethernet-switching") with
    | true =>
      refine step st (by rw [readInterfacePhysicalLoop, if_pos hunit]) ?_ ?_
      · simp [intKeepLine, hunit]
      · intro ho
        rw [intNumericOffending] at ho
        rw [hunit] at ho
        exact absurd ho.1 (by simp)
    | false =>
      cases hopen : strContainsSub l "<configuration-output>" with
      | true =>
        refine step st ?_ ?_ ?_
        · rw [readInterfacePhysicalLoop, if_neg (by simp [hunit]), if_pos (by rw [hopen])]
        · simp [intKeepLine, hopen]
        · intro ho
          rw [intNumericOffending] at ho
          rw [hopen] at ho
          exact absurd ho.2.1 (by simp)
      | false =>
        cases hclose : strContainsSub l "</configuration-output>" with
        | true =>
          have hloop : readInterfacePhysicalLoop st (l :: rest) = .ok st := by
            rw [readInterfacePhysicalLoop, if_neg (by simp [hunit]),
              if_neg (by simp [hopen]), if_pos (by rw [hclose])]
          have hreg : (l :: rest).takeWhile intKeepLine = [] := by
            rw [List.takeWhile_cons, if_neg]
            simp [intKeepLine, hunit, hopen, hclose]
          rw [hloop, hreg]
          refine ⟨⟨fun ⟨msg, hmsg⟩ => absurd hmsg (by simp), fun ⟨x, hx, _⟩ => absurd hx (by simp)⟩,
            fun msg hmsg => absurd hmsg (by simp)⟩
        | false =>
          have hkeep : intKeepLine l = true := by simp [intKeepLine, hunit, hopen, hclose]
          cases hlacp : strStartsWith (strTrimPre l setLineStart)
              "aggregated-ether-options lacp " with
          | true =>
            refine step { st with aeLacp := strTrimPre (strTrimPre l setLineStart) "aggregated-ether-options lacp " } (by simp [readInterfacePhysicalLoop, hunit, hopen, hclose, hlacp]) hkeep ?_
            rintro ⟨-, -, ⟨hC1, -⟩ | ⟨hD1, -⟩⟩
            · exact absurd hC1 (by simp [strStartsWith_excl "aggregated-ether-options minimum-links " hlacp (by decide) (by decide)])
            · exact absurd hD1 (by simp [strStartsWith_excl "native-vlan-id" hlacp (by decide) (by decide)])
          | false =>
            cases hspeed : strStartsWith (strTrimPre l setLineStart)
                "aggregated-ether-options link-speed " with
            | true =>
              refine step { st with aeLinkSpeed := strTrimPre (strTrimPre l setLineStart) "aggregated-ether-options link-speed " } (by simp [readInterfacePhysicalLoop, hunit, hopen, hclose, hlacp, hspeed]) hkeep ?_
              rintro ⟨-, -, ⟨hC1, -⟩ | ⟨hD1, -⟩⟩
              · exact absurd hC1 (by simp [strStartsWith_excl "aggregated-ether-options minimum-links " hspeed (by decide) (by decide)])
              · exact absurd hD1 (by simp [strStartsWith_excl "native-vlan-id" hspeed (by decide) (by decide)])
            | false =>
              cases hmin : strStartsWith (strTrimPre l setLineStart)
                  "aggregated-ether-options minimum-links " with
              | true =>
                cases hat : atoi (strTrimPre (strTrimPre l setLineStart)
                    "aggregated-ether-options minimum-links ") with
                | none =>
                  refine errcase ("failed to convert value from '" ++ strTrimPre l setLineStart ++ "' to integer : " ++ strconvAtoiErr (strTrimPre (strTrimPre l setLineStart) "aggregated-ether-options minimum-links ")) (by simp [readInterfacePhysicalLoop, hunit, hopen, hclose, hlacp, hspeed, hmin, hat]) hkeep ?_ (contains_conv_err (strTrimPre l setLineStart) (strTrimPre (strTrimPre l setLineStart) "aggregated-ether-options minimum-links "))
                  rw [intNumericOffending]
                  exact ⟨by simp [hunit], hopen, Or.inl ⟨hmin, hat⟩⟩
                | some n =>
                  refine step { st with aeMinLink := n } (by simp [readInterfacePhysicalLoop, hunit, hopen, hclose, hlacp, hspeed, hmin, hat]) hkeep ?_
                  rintro ⟨-, -, ⟨-, hC2⟩ | ⟨hD1, -⟩⟩
                  · rw [hat] at hC2
                    exact Option.noConfusion hC2
                  · exact absurd hD1 (by simp [strStartsWith_excl "native-vlan-id" hmin (by decide) (by decide)])
              | false =>
                cases hdesc : strStartsWith (strTrimPre l setLineStart) "description " with
                | true =>
                  refine step { st with description := strTrimQuotes (strTrimPre (strTrimPre l setLineStart) "description ") } (by simp [readInterfacePhysicalLoop, hunit, hopen, hclose, hlacp, hspeed, hmin, hdesc]) hkeep ?_
                  rintro ⟨-, -, ⟨hC1, -⟩ | ⟨hD1, -⟩⟩
                  · rw [hC1] at hmin
                    exact Bool.noConfusion hmin
                  · exact absurd hD1
                      (by simp [strStartsWith_excl "native-vlan-id" hdesc (by decide) (by decide)])
                | false =>
                  cases hesi : strStartsWith (strTrimPre l setLineStart) "esi " with
                  | true =>
                    refine step (readIntEsi st (strTrimPre l setLineStart)) (by simp [readInterfacePhysicalLoop, hunit, hopen, hclose, hlacp, hspeed, hmin, hdesc, hesi]) hkeep ?_
                    rintro ⟨-, -, ⟨hC1, -⟩ | ⟨hD1, -⟩⟩
                    · rw [hC1] at hmin
                      exact Bool.noConfusion hmin
                    · exact absurd hD1
                        (by simp [strStartsWith_excl "native-vlan-id" hesi (by decide) (by decide)])
                  | false =>
                    cases hether : strStartsWith (strTrimPre l setLineStart)
                        "ether-options 802.3ad " with
                    | true =>
                      refine step { st with v8023ad := strTrimPre (strTrimPre l setLineStart) "ether-options 802.3ad " } (by simp [readInterfacePhysicalLoop, hunit, hopen, hclose, hlacp, hspeed, hmin, hdesc, hesi, hether]) hkeep ?_
                      rintro ⟨-, -, ⟨hC1, -⟩ | ⟨hD1, -⟩⟩
                      · rw [hC1] at hmin
                        exact Bool.noConfusion hmin
                      · exact absurd hD1
                          (by simp [strStartsWith_excl "native-vlan-id" hether (by decide) (by decide)])
                    | false =>
                      cases hgig : strStartsWith (strTrimPre l setLineStart)
                          "gigether-options 802.3ad " with
                      | true =>
                        refine step { st with v8023ad := strTrimPre (strTrimPre l setLineStart) "gigether-options 802.3ad " } (by simp [readInterfacePhysicalLoop, hunit, hopen, hclose, hlacp, hspeed, hmin, hdesc, hesi, hether, hgig]) hkeep ?_
                        rintro ⟨-, -, ⟨hC1, -⟩ | ⟨hD1, -⟩⟩
                        · rw [hC1] at hmin
                          exact Bool.noConfusion hmin
                        · exact absurd hD1
                            (by simp [strStartsWith_excl "native-vlan-id" hgig (by decide) (by decide)])
                      | false =>
                        cases hnative : strStartsWith (strTrimPre l setLineStart)
                            "native-vlan-id" with
                        | true =>
                          cases hat2 : atoi (strTrimPre (strTrimPre l setLineStart)
                              "native-vlan-id ") with
                          | none =>
                            refine errcase ("failed to convert value from '" ++ strTrimPre l setLineStart ++ "' to integer : " ++ strconvAtoiErr (strTrimPre (strTrimPre l setLineStart) "native-vlan-id ")) (by simp [readInterfacePhysicalLoop, hunit, hopen, hclose, hlacp, hspeed, hmin, hdesc, hesi, hether, hgig, hnative, hat2]) hkeep ?_ (contains_conv_err (strTrimPre l setLineStart) (strTrimPre (strTrimPre l setLineStart) "native-vlan-id "))
                            rw [intNumericOffending]
                            exact ⟨by simp [hunit], hopen, Or.inr ⟨hnative, hat2⟩⟩
                          | some n =>
                            refine step { st with vlanNative := n } (by simp [readInterfacePhysicalLoop, hunit, hopen, hclose, hlacp, hspeed, hmin, hdesc, hesi, hether, hgig, hnative, hat2]) hkeep ?_
                            rintro ⟨-, -, ⟨hC1, -⟩ | ⟨-, hD2⟩⟩
                            · rw [hC1] at hmin
                              exact Bool.noConfusion hmin
                            · rw [hat2] at hD2
                              exact Option.noConfusion hD2
                        | false =>
                          have hnooff : ¬ intNumericOffending l := by
                            rintro ⟨-, -, ⟨hC1, -⟩ | ⟨hD1, -⟩⟩
                            · rw [hC1] at hmin
                              exact Bool.noConfusion hmin
                            · rw [hD1] at hnative
                              exact Bool.noConfusion hnative
                          by_cases htrunk : strTrimPre l setLineStart =
                              "unit 0 family ethernet-switching interface-mode trunk"
                          · refine step { st with trunk := true } (by simp [readInterfacePhysicalLoop, hunit, hopen, hclose, hlacp, hspeed, hmin, hdesc, hesi, hether, hgig, hnative, ← htrunk]) hkeep hnooff
                          · cases hmem : strStartsWith (strTrimPre l setLineStart)
                                "unit 0 family ethernet-switching vlan members" with
                            | true =>
                              refine step { st with vlanMembers := st.vlanMembers ++ [strTrimPre (strTrimPre l setLineStart) "unit 0 family ethernet-switching vlan members "] } (by simp [readInterfacePhysicalLoop, hunit, hopen, hclose, hlacp, hspeed, hmin, hdesc, hesi, hether, hgig, hnative, htrunk, hmem]) hkeep hnooff
                            | false =>
                              by_cases htag : strTrimPre l setLineStart = "vlan-tagging"
                              · refine step { st with vlanTagging := true } (by simp [readInterfacePhysicalLoop, hunit, hopen, hclose, hlacp, hspeed, hmin, hdesc, hesi, hether, hgig, hnative, htrunk, hmem, ← htag]) hkeep hnooff
                              · refine step st (by simp [readInterfacePhysicalLoop, hunit, hopen, hclose, hlacp, hspeed, hmin, hdesc, hesi, hether, hgig, hnative, htrunk, hmem, htag]) hkeep hnooff

theorem strStartsWith_weaken {t q : String} (p : String) (h : strStartsWith t q = true)
    (hpq : p.data.isPrefixOf q.data = true) : strStartsWith t p = true := by
  rw [strStartsWith_iff] at h ⊢
  exact (List.isPrefixOf_iff_prefix.mp hpq).trans h

theorem readUtmLoop_errors (lines : List String) :
    ∀ st : UtmPolicyOptions,
      ((∃ msg, readUtmPolicyLoop st lines = .error msg) ↔
        ∃ l ∈ lines.takeWhile utmKeepLine, utmNumericOffending l) ∧
      (∀ msg, readUtmPolicyLoop st lines = .error msg →
        ∃ l ∈ lines.takeWhile utmKeepLine, utmNumericOffending l ∧
          strContainsSub msg (strTrimPre (strTrimPre l setLineStart)
            "traffic-options sessions-per-client limit ") = true) := by
  induction lines with
  | nil =>
    intro st
    refine ⟨⟨fun ⟨msg, hmsg⟩ => absurd hmsg (by simp [readUtmPolicyLoop]),
      fun ⟨x, hx, _⟩ => absurd hx (by simp)⟩,
      fun msg hmsg => absurd hmsg (by simp [readUtmPolicyLoop])⟩
  | cons l rest ih =>
    intro st
    have step : ∀ st' : UtmPolicyOptions,
        readUtmPolicyLoop st (l :: rest) = readUtmPolicyLoop st' rest →
        utmKeepLine l = true → ¬ utmNumericOffending l →
        ((∃ msg, readUtmPolicyLoop st (l :: rest) = .error msg) ↔
          ∃ x ∈ (l :: rest).takeWhile utmKeepLine, utmNumericOffending x) ∧
        (∀ msg, readUtmPolicyLoop st (l :: rest) = .error msg →
          ∃ x ∈ (l :: rest).takeWhile utmKeepLine, utmNumericOffending x ∧
            strContainsSub msg (strTrimPre (strTrimPre x setLineStart)
              "traffic-options sessions-per-client limit ") = true) := by
      intro st' hloop hkeep hnoff
      have hreg : (l :: rest).takeWhile utmKeepLine = l :: rest.takeWhile utmKeepLine := by
        rw [List.takeWhile_cons, if_pos hkeep]
      rw [hloop, hreg]
      constructor
      · rw [(ih st').1]
        constructor
        · rintro ⟨x, hx, ho⟩
          exact ⟨x, List.mem_cons_of_mem _ hx, ho⟩
        · rintro ⟨x, hx, ho⟩
          rcases List.mem_cons.mp hx with rfl | hx2
          · exact absurd ho hnoff
          · exact ⟨x, hx2, ho⟩
      · intro msg hmsg
        obtain ⟨x, hx, ho, hc⟩ := (ih st').2 msg hmsg
        exact ⟨x, List.mem_cons_of_mem _ hx, ho, hc⟩
    cases hopen : strContainsSub l "<configuration-output>" with
    | true =>
      refine step st ?_ ?_ ?_
      · rw [readUtmPolicyLoop, if_pos (by rw [hopen])]
      · simp [utmKeepLine, hopen]
      · intro ho
        rw [utmNumericOffending] at ho
        rw [hopen] at ho
        exact absurd ho.1 (by simp)
    | false =>
      cases hclose : strContainsSub l "</configuration-output>" with
      | true =>
        have hloop : readUtmPolicyLoop st (l :: rest) = .ok st := by
          rw [readUtmPolicyLoop, if_neg (by simp [hopen]), if_pos (by rw [hclose])]
        have hreg : (l :: rest).takeWhile utmKeepLine = [] := by
          rw [List.takeWhile_cons, if_neg]
          simp [utmKeepLine, hopen, hclose]
        rw [hloop, hreg]
        refine ⟨⟨fun ⟨msg, hmsg⟩ => absurd hmsg (by simp), fun ⟨x, hx, _⟩ => absurd hx (by simp)⟩,
          fun msg hmsg => absurd hmsg (by simp)⟩
      | false =>
        have hkeep : utmKeepLine l = true := by simp [utmKeepLine, hopen, hclose]
        cases hspam : strStartsWith (strTrimPre l setLineStart) "anti-spam smtp-profile " with
        | true =>
          refine step { st with antiSpamSMTPProfile := strTrimQuotes (strTrimPre (strTrimPre l setLineStart) "anti-spam smtp-profile ") } (by simp [readUtmPolicyLoop, hopen, hclose, hspam]) hkeep ?_
          rintro ⟨-, hB, -⟩
          exact absurd hB (by simp [strStartsWith_excl
            "traffic-options sessions-per-client limit " hspam (by decide) (by decide)])
        | false =>
          cases hav : strStartsWith (strTrimPre l setLineStart) "anti-virus " with
          | true =>
            refine step { st with antiVirus := modifyFirstSome genMapUtmPolicyProfile (if st.antiVirus.isEmpty then [some genMapUtmPolicyProfile] else st.antiVirus) (readUtmPolicyProfile (strTrimPre (strTrimPre l setLineStart) "anti-virus ")) } (by simp [readUtmPolicyLoop, hopen, hclose, hspam, hav]) hkeep ?_
            rintro ⟨-, hB, -⟩
            exact absurd hB (by simp [strStartsWith_excl
              "traffic-options sessions-per-client limit " hav (by decide) (by decide)])
          | false =>
            cases hcf : strStartsWith (strTrimPre l setLineStart) "content-filtering " with
            | true =>
              refine step { st with contentFiltering := modifyFirstSome genMapUtmPolicyProfile (if st.contentFiltering.isEmpty then [some genMapUtmPolicyProfile] else st.contentFiltering) (readUtmPolicyProfile (strTrimPre (strTrimPre l setLineStart) "content-filtering ")) } (by simp [readUtmPolicyLoop, hopen, hclose, hspam, hav, hcf]) hkeep ?_
              rintro ⟨-, hB, -⟩
              exact absurd hB (by simp [strStartsWith_excl
                "traffic-options sessions-per-client limit " hcf (by decide) (by decide)])
            | false =>
              cases htr : strStartsWith (strTrimPre l setLineStart)
                  "traffic-options sessions-per-client " with
              | true =>
                cases hlim : strStartsWith (strTrimPre l setLineStart)
                    "traffic-options sessions-per-client limit " with
                | true =>
                  cases hat : atoi (strTrimPre (strTrimPre l setLineStart)
                      "traffic-options sessions-per-client limit ") with
                  | none =>
                    have hloop : readUtmPolicyLoop st (l :: rest) =
                        .error (strconvAtoiErr (strTrimPre (strTrimPre l setLineStart)
                          "traffic-options sessions-per-client limit ")) := by
                      simp [readUtmPolicyLoop, hopen, hclose, hspam, hav, hcf, htr, hlim, hat]
                    have hreg : (l :: rest).takeWhile utmKeepLine =
                        l :: rest.takeWhile utmKeepLine := by
                      rw [List.takeWhile_cons, if_pos hkeep]
                    have hoff : utmNumericOffending l := by
                      rw [utmNumericOffending]
                      exact ⟨hopen, hlim, hat⟩
                    rw [hloop, hreg]
                    refine ⟨⟨fun _ => ⟨l, List.mem_cons_self _ _, hoff⟩,
                      fun _ => ⟨_, rfl⟩⟩, ?_⟩
                    intro msg hmsg
                    injection hmsg with he
                    subst he
                    exact ⟨l, List.mem_cons_self _ _, hoff, contains_strconv_err _⟩
                  | some n =>
                    refine step { st with trafficSessionsPerClient := modifyFirstSome genUtmTrafficOptions (if st.trafficSessionsPerClient.isEmpty then [some genUtmTrafficOptions] else st.trafficSessionsPerClient) (fun t => { t with limit := n }) } (by simp [readUtmPolicyLoop, hopen, hclose, hspam, hav, hcf, htr, hlim, hat]) hkeep ?_
                    rintro ⟨-, -, hC⟩
                    rw [hat] at hC
                    exact Option.noConfusion hC
                | false =>
                  cases hover : strStartsWith (strTrimPre l setLineStart)
                      "traffic-options sessions-per-client over-limit " with
                  | true =>
                    refine step { st with trafficSessionsPerClient := modifyFirstSome genUtmTrafficOptions (if st.trafficSessionsPerClient.isEmpty then [some genUtmTrafficOptions] else st.trafficSessionsPerClient) (fun t => { t with overLimit := strTrimPre (strTrimPre l setLineStart) "traffic-options sessions-per-client over-limit " }) } (by simp [readUtmPolicyLoop, hopen, hclose, hspam, hav, hcf, htr, hlim, hover]) hkeep ?_
                    rintro ⟨-, hB, -⟩
                    rw [hB] at hlim
                    exact Bool.noConfusion hlim
                  | false =>
                    refine step { st with trafficSessionsPerClient := if st.trafficSessionsPerClient.isEmpty then [some genUtmTrafficOptions] else st.trafficSessionsPerClient } (by simp [readUtmPolicyLoop, hopen, hclose, hspam, hav, hcf, htr, hlim, hover]) hkeep ?_
                    rintro ⟨-, hB, -⟩
                    rw [hB] at hlim
                    exact Bool.noConfusion hlim
              | false =>
                cases hweb : strStartsWith (strTrimPre l setLineStart)
                    "web-filtering http-profile " with
                | true =>
                  refine step { st with webFilteringProfile := strTrimQuotes (strTrimPre (strTrimPre l setLineStart) "web-filtering http-profile ") } (by simp [readUtmPolicyLoop, hopen, hclose, hspam, hav, hcf, htr, hweb]) hkeep ?_
                  rintro ⟨-, hB, -⟩
                  exact absurd hB (by simp [strStartsWith_excl
                    "traffic-options sessions-per-client limit " hweb (by decide) (by decide)])
                | false =>
                  refine step st (by simp [readUtmPolicyLoop, hopen, hclose, hspam, hav, hcf,
                    htr, hweb]) hkeep ?_
                  rintro ⟨-, hB, -⟩
                  have := strStartsWith_weaken "traffic-options sessions-per-client " hB
                    (by decide)
                  rw [this] at htr
                  exact Bool.noConfusion htr

/-- C7: a decode pass fails iff some visited statement projects a numeric
field from a textual value that does not parse as an integer; every such
error carries the offending statement's text (the trimmed statement for the
interface decoder, the offending value for the UTM decoder, whose raw
`strconv` error is returned unwrapped); and statements matching no known
prefix pattern are skipped without error or state change. -/
theorem claimC7_decode_error_characterization :
    (∀ conf : String,
      ((∃ msg, readInterfacePhysical conf = .error msg) ↔
        ∃ l ∈ intScanLines conf, intNumericOffending l) ∧
      (∀ msg, readInterfacePhysical conf = .error msg →
        ∃ l ∈ intScanLines conf, intNumericOffending l ∧
          strContainsSub msg (strTrimPre l setLineStart) = true)) ∧
    (∀ policy conf : String,
      ((∃ msg, readUtmPolicy policy conf = .error msg) ↔
        ∃ l ∈ utmScanLines conf, utmNumericOffending l) ∧
      (∀ msg, readUtmPolicy policy conf = .error msg →
        ∃ l ∈ utmScanLines conf, utmNumericOffending l ∧
          strContainsSub msg (strTrimPre (strTrimPre l setLineStart)
            "traffic-options sessions-per-client limit ") = true)) ∧
    (∀ (st : InterfacePhysicalOptions) (l : String) (rest : List String),
      intUnknownStatement l →
      readInterfacePhysicalLoop st (l :: rest) = readInterfacePhysicalLoop st rest) ∧
    (∀ (st : UtmPolicyOptions) (l : String) (rest : List String),
      utmUnknownStatement l →
      readUtmPolicyLoop st (l :: rest) = readUtmPolicyLoop st rest) := by
  refine ⟨?_, ?_, ?_, ?_⟩
  · intro conf
    by_cases hconf : conf = emptyWord
    · subst hconf
      constructor
      · constructor
        · rintro ⟨msg, hmsg⟩
          exact absurd hmsg (by simp [readInterfacePhysical])
        · rintro ⟨x, hx, hoff⟩
          have hscan : intScanLines emptyWord = ["empty"] := by decide
          rw [hscan] at hx
          have hx2 : x = "empty" := by simpa using hx
          subst hx2
          rw [intNumericOffending] at hoff
          rcases hoff with ⟨-, -, ⟨h1, -⟩ | ⟨h1, -⟩⟩ <;> exact absurd h1 (by decide)
      · intro msg hmsg
        exact absurd hmsg (by simp [readInterfacePhysical])
    · have hr : readInterfacePhysical conf = readInterfacePhysicalLoop {} (splitLines conf) := by
        rw [readInterfacePhysical, if_pos hconf]
      constructor
      · rw [hr, intScanLines]
        exact (readIntLoop_errors (splitLines conf) {}).1
      · intro msg hmsg
        rw [hr] at hmsg
        rw [intScanLines]
        exact (readIntLoop_errors (splitLines conf) {}).2 msg hmsg
  · intro policy conf
    by_cases hconf : conf = emptyWord
    · subst hconf
      constructor
      · constructor
        · rintro ⟨msg, hmsg⟩
          exact absurd hmsg (by simp [readUtmPolicy])
        · rintro ⟨x, hx, hoff⟩
          have hscan : utmScanLines emptyWord = ["empty"] := by decide
          rw [hscan] at hx
          have hx2 : x = "empty" := by simpa using hx
          subst hx2
          rw [utmNumericOffending] at hoff
          exact absurd hoff.2.1 (by decide)
      · intro msg hmsg
        exact absurd hmsg (by simp [readUtmPolicy])
    · have hr : readUtmPolicy policy conf =
          readUtmPolicyLoop { name := policy } (splitLines conf) := by
        rw [readUtmPolicy, if_pos hconf]
      constructor
      · rw [hr, utmScanLines]
        exact (readUtmLoop_errors (splitLines conf) { name := policy }).1
      · intro msg hmsg
        rw [hr] at hmsg
        rw [utmScanLines]
        exact (readUtmLoop_errors (splitLines conf) { name := policy }).2 msg hmsg
  · intro st l rest hunk
    simp only [intUnknownStatement] at hunk
    obtain ⟨h1, h2, h3, hd1, hd2, hd3, hd4, hd5, hd6, hd7, hd8, hd9, hd10, hd11⟩ := hunk
    simp [readInterfacePhysicalLoop, h1, h2, h3, hd1, hd2, hd3, hd4, hd5, hd6, hd7, hd8,
      hd9, hd10, hd11]
  · intro st l rest hunk
    simp only [utmUnknownStatement] at hunk
    obtain ⟨h1, h2, hd1, hd2, hd3, hd4, hd5⟩ := hunk
    simp [readUtmPolicyLoop, h1, h2, hd1, hd2, hd3, hd4, hd5]

/-- C7 witness: an unparseable `native-vlan-id` statement makes
`readInterfacePhysical` fail with a message carrying the offending
statement. -/
theorem claimC7_witness :
    ∃ l ∈ intScanLines "set native-vlan-id abc", intNumericOffending l ∧
      strContainsSub ("failed to convert value from '" ++ "native-vlan-id abc" ++
        "' to integer : " ++ strconvAtoiErr "abc") (strTrimPre l setLineStart) = true :=
  (claimC7_decode_error_characterization.1 "set native-vlan-id abc").2
    ("failed to convert value from '" ++ "native-vlan-id abc" ++ "' to integer : " ++
      strconvAtoiErr "abc") (by rfl)

theorem strTrimPre_self (p : String) : strTrimPre p p = "" := by
  rw [strTrimPre, if_pos (by simp [List.isPrefixOf_iff_prefix])]
  rw [List.drop_length]

theorem strTrimPre_set (tail : String) : strTrimPre ("set " ++ tail) setLineStart = tail :=
  strTrimPre_append "set " tail

theorem strTrimQuotes_wrap (v : String) (h1 : v.data.head? ≠ some '\x22')
    (h2 : v.data.getLast? ≠ some '\x22') : strTrimQuotes ("\"" ++ (v ++ "\"")) = v := by
  rw [strTrimQuotes]
  have hd : ("\"" ++ (v ++ "\"")).data = '\x22' :: (v.data ++ ['\x22']) := by
    rw [String.data_append, String.data_append]
    rfl
  rw [hd]
  cases hv : v.data with
  | nil =>
    have hv0 : v = "" := by
      have : String.mk v.data = String.mk [] := by rw [hv]
      simpa using this
    simp [hv0, List.dropWhile]
  | cons c cs =>
    have hc : ¬ c = '\x22' := by
      rw [hv] at h1
      simpa using h1
    rw [List.dropWhile_cons, if_pos (by simp), List.cons_append]
    rw [List.dropWhile_cons, if_neg (by simpa using hc)]
    have hrev : (c :: (cs ++ ['\x22']) : List Char).reverse = '\x22' :: (c :: cs).reverse := by simp
    rw [hrev, List.dropWhile_cons, if_pos (by simp)]
    obtain ⟨d, ds, hds⟩ : ∃ d ds, (c :: cs : List Char).reverse = d :: ds := by
      cases h : (c :: cs : List Char).reverse with
      | nil => exact absurd h (by simp)
      | cons d ds => exact ⟨d, ds, rfl⟩
    have hdlast : (c :: cs : List Char).getLast? = some d := by
      rw [← List.head?_reverse, hds]
      rfl
    have hdq : ¬ d = '\x22' := by
      rw [hv] at h2
      rw [hdlast] at h2
      simpa using h2
    rw [hds, List.dropWhile_cons, if_neg (by simpa using hdq), ← hds, List.reverse_reverse]
    have hmk : String.mk v.data = v := by simp
    rw [← hv, hmk]

theorem ne_emptyWord_of_startsWith_set {l : String} (h : strStartsWith l "set " = true) :
    l ≠ emptyWord := by
  intro he
  subst he
  exact absurd h (by decide)

theorem newline_not_mem_set_append {t : String} (h : '\n' ∉ t.data) :
    '\n' ∉ ("set " ++ t).data := by
  rw [String.data_append]
  intro hm
  rcases List.mem_append.mp hm with h1 | h1
  · exact absurd h1 (by decide)
  · exact h h1

theorem utmLoop_cond_chunk (c : Prop) [Decidable c] (l : String) (R : List String)
    (st : UtmPolicyOptions) (g : UtmPolicyOptions → UtmPolicyOptions)
    (hstep : c → ∀ s rest, readUtmPolicyLoop s (l :: rest) = readUtmPolicyLoop (g s) rest) :
    readUtmPolicyLoop st ((if c then [l] else []) ++ R) =
      readUtmPolicyLoop (if c then g st else st) R := by
  by_cases hc : c
  · simp [hc, hstep hc]
  · simp [hc]

theorem utmStep_antispam (v : String)
    (hok : utmLineOk ("anti-spam smtp-profile \"" ++ (v ++ "\""))) (hq : quoteSafe v) :
    ∀ (st : UtmPolicyOptions) (rest : List String),
      readUtmPolicyLoop st (("set " ++ ("anti-spam smtp-profile \"" ++ (v ++ "\""))) :: rest) =
      readUtmPolicyLoop { st with antiSpamSMTPProfile := v } rest := by
  intro st rest
  obtain ⟨-, ho, hc⟩ := hok
  have hsp : strStartsWith ("anti-spam smtp-profile \"" ++ (v ++ "\""))
      "anti-spam smtp-profile " = true :=
    strStartsWith_append_of _ (by decide)
  have hsplit : ("anti-spam smtp-profile \"" : String) ++ (v ++ "\"") =
      "anti-spam smtp-profile " ++ ("\"" ++ (v ++ "\"")) := by
    rw [show ("anti-spam smtp-profile \"" : String) = "anti-spam smtp-profile " ++ "\"" from rfl,
      String.append_assoc]
  have htrim : strTrimPre ("anti-spam smtp-profile \"" ++ (v ++ "\""))
      "anti-spam smtp-profile " = "\"" ++ (v ++ "\"") := by
    rw [hsplit, strTrimPre_append]
  simp [readUtmPolicyLoop, ho, hc, strTrimPre_set, hsp, htrim,
    strTrimQuotes_wrap v hq.1 hq.2]

theorem utmStep_av (ftail : String) (hok : utmLineOk ("anti-virus " ++ ftail)) :
    ∀ (st : UtmPolicyOptions) (rest : List String),
      readUtmPolicyLoop st (("set " ++ ("anti-virus " ++ ftail)) :: rest) =
      readUtmPolicyLoop { st with antiVirus := (modifyFirstSome genMapUtmPolicyProfile
        (if st.antiVirus.isEmpty then [some genMapUtmPolicyProfile] else st.antiVirus)
        (readUtmPolicyProfile ftail)) } rest := by
  intro st rest
  obtain ⟨-, ho, hc⟩ := hok
  have hspam : strStartsWith ("anti-virus " ++ ftail) "anti-spam smtp-profile " = false :=
    strStartsWith_append_false _ (by decide) (by decide)
  have hav : strStartsWith ("anti-virus " ++ ftail) "anti-virus " = true :=
    strStartsWith_self_append _ _
  simp [readUtmPolicyLoop, ho, hc, strTrimPre_set, hspam, hav, strTrimPre_append]

theorem utmStep_cf (ftail : String) (hok : utmLineOk ("content-filtering " ++ ftail)) :
    ∀ (st : UtmPolicyOptions) (rest : List String),
      readUtmPolicyLoop st (("set " ++ ("content-filtering " ++ ftail)) :: rest) =
      readUtmPolicyLoop { st with contentFiltering := (modifyFirstSome genMapUtmPolicyProfile
        (if st.contentFiltering.isEmpty then [some genMapUtmPolicyProfile]
          else st.contentFiltering) (readUtmPolicyProfile ftail)) } rest := by
  intro st rest
  obtain ⟨-, ho, hc⟩ := hok
  have hspam : strStartsWith ("content-filtering " ++ ftail) "anti-spam smtp-profile " = false :=
    strStartsWith_append_false _ (by decide) (by decide)
  have hav : strStartsWith ("content-filtering " ++ ftail) "anti-virus " = false :=
    strStartsWith_append_false _ (by decide) (by decide)
  have hcf : strStartsWith ("content-filtering " ++ ftail) "content-filtering " = true :=
    strStartsWith_self_append _ _
  simp [readUtmPolicyLoop, ho, hc, strTrimPre_set, hspam, hav, hcf, strTrimPre_append]

theorem utmStep_limit (n : Int)
    (hok : utmLineOk ("traffic-options sessions-per-client limit " ++ itoa n)) :
    ∀ (st : UtmPolicyOptions) (rest : List String),
      readUtmPolicyLoop st
        (("set " ++ ("traffic-options sessions-per-client limit " ++ itoa n)) :: rest) =
      readUtmPolicyLoop { st with trafficSessionsPerClient :=
        (modifyFirstSome genUtmTrafficOptions
          (if st.trafficSessionsPerClient.isEmpty then [some genUtmTrafficOptions]
            else st.trafficSessionsPerClient) (fun t => { t with limit := n })) } rest := by
  intro st rest
  obtain ⟨-, ho, hc⟩ := hok
  have h1 : strStartsWith ("traffic-options sessions-per-client limit " ++ itoa n)
      "anti-spam smtp-profile " = false :=
    strStartsWith_append_false _ (by decide) (by decide)
  have h2 : strStartsWith ("traffic-options sessions-per-client limit " ++ itoa n)
      "anti-virus " = false :=
    strStartsWith_append_false _ (by decide) (by decide)
  have h3 : strStartsWith ("traffic-options sessions-per-client limit " ++ itoa n)
      "content-filtering " = false :=
    strStartsWith_append_false _ (by decide) (by decide)
  have hu : strStartsWith ("traffic-options sessions-per-client limit " ++ itoa n)
      "traffic-options sessions-per-client " = true :=
    strStartsWith_append_of _ (by decide)
  have hl : strStartsWith ("traffic-options sessions-per-client limit " ++ itoa n)
      "traffic-options sessions-per-client limit " = true :=
    strStartsWith_self_append _ _
  simp [readUtmPolicyLoop, ho, hc, strTrimPre_set, h1, h2, h3, hu, hl, strTrimPre_append,
    atoi_itoa]

theorem utmStep_over (w : String)
    (hok : utmLineOk ("traffic-options sessions-per-client over-limit " ++ w)) :
    ∀ (st : UtmPolicyOptions) (rest : List String),
      readUtmPolicyLoop st
        (("set " ++ ("traffic-options sessions-per-client over-limit " ++ w)) :: rest) =
      readUtmPolicyLoop { st with trafficSessionsPerClient :=
        (modifyFirstSome genUtmTrafficOptions
          (if st.trafficSessionsPerClient.isEmpty then [some genUtmTrafficOptions]
            else st.trafficSessionsPerClient) (fun t => { t with overLimit := w })) } rest := by
  intro st rest
  obtain ⟨-, ho, hc⟩ := hok
  have h1 : strStartsWith ("traffic-options sessions-per-client over-limit " ++ w)
      "anti-spam smtp-profile " = false :=
    strStartsWith_append_false _ (by decide) (by decide)
  have h2 : strStartsWith ("traffic-options sessions-per-client over-limit " ++ w)
      "anti-virus " = false :=
    strStartsWith_append_false _ (by decide) (by decide)
  have h3 : strStartsWith ("traffic-options sessions-per-client over-limit " ++ w)
      "content-filtering " = false :=
    strStartsWith_append_false _ (by decide) (by decide)
  have hu : strStartsWith ("traffic-options sessions-per-client over-limit " ++ w)
      "traffic-options sessions-per-client " = true :=
    strStartsWith_append_of _ (by decide)
  have hl : strStartsWith ("traffic-options sessions-per-client over-limit " ++ w)
      "traffic-options sessions-per-client limit " = false :=
    strStartsWith_append_false _ (by decide) (by decide)
  have ho2 : strStartsWith ("traffic-options sessions-per-client over-limit " ++ w)
      "traffic-options sessions-per-client over-limit " = true :=
    strStartsWith_self_append _ _
  simp [readUtmPolicyLoop, ho, hc, strTrimPre_set, h1, h2, h3, hu, hl, ho2, strTrimPre_append]

theorem utmStep_web (v : String)
    (hok : utmLineOk ("web-filtering http-profile \"" ++ (v ++ "\""))) (hq : quoteSafe v) :
    ∀ (st : UtmPolicyOptions) (rest : List String),
      readUtmPolicyLoop st (("set " ++ ("web-filtering http-profile \"" ++ (v ++ "\""))) :: rest) =
      readUtmPolicyLoop { st with webFilteringProfile := v } rest := by
  intro st rest
  obtain ⟨-, ho, hc⟩ := hok
  have h1 : strStartsWith ("web-filtering http-profile \"" ++ (v ++ "\""))
      "anti-spam smtp-profile " = false :=
    strStartsWith_append_false _ (by decide) (by decide)
  have h2 : strStartsWith ("web-filtering http-profile \"" ++ (v ++ "\""))
      "anti-virus " = false :=
    strStartsWith_append_false _ (by decide) (by decide)
  have h3 : strStartsWith ("web-filtering http-profile \"" ++ (v ++ "\""))
      "content-filtering " = false :=
    strStartsWith_append_false _ (by decide) (by decide)
  have h4 : strStartsWith ("web-filtering http-profile \"" ++ (v ++ "\""))
      "traffic-options sessions-per-client " = false :=
    strStartsWith_append_false _ (by decide) (by decide)
  have h5 : strStartsWith ("web-filtering http-profile \"" ++ (v ++ "\""))
      "web-filtering http-profile " = true :=
    strStartsWith_append_of _ (by decide)
  have hsplit : ("web-filtering http-profile \"" : String) ++ (v ++ "\"") =
      "web-filtering http-profile " ++ ("\"" ++ (v ++ "\"")) := by
    rw [show ("web-filtering http-profile \"" : String) =
      "web-filtering http-profile " ++ "\"" from rfl, String.append_assoc]
  have htrim : strTrimPre ("web-filtering http-profile \"" ++ (v ++ "\""))
      "web-filtering http-profile " = "\"" ++ (v ++ "\"") := by
    rw [hsplit, strTrimPre_append]
  simp [readUtmPolicyLoop, ho, hc, strTrimPre_set, h1, h2, h3, h4, h5, htrim,
    strTrimQuotes_wrap v hq.1 hq.2]

theorem readUtmProf_ftpDownload (v : String) (hq : quoteSafe v) :
    ∀ q : UtmProfile, readUtmPolicyProfile ("ftp download-profile \"" ++ (v ++ "\"")) q =
      { q with ftpDownloadProfile := v } := by
  intro q
  have h1 : strStartsWith ("ftp download-profile \"" ++ (v ++ "\""))
      "ftp download-profile " = true := strStartsWith_append_of _ (by decide)
  have hsplit : ("ftp download-profile \"" : String) ++ (v ++ "\"") =
      "ftp download-profile " ++ ("\"" ++ (v ++ "\"")) := by
    rw [show ("ftp download-profile \"" : String) = "ftp download-profile " ++ "\"" from rfl,
      String.append_assoc]
  have htrim : strTrimPre ("ftp download-profile \"" ++ (v ++ "\""))
      "ftp download-profile " = "\"" ++ (v ++ "\"") := by
    rw [hsplit, strTrimPre_append]
  simp [readUtmPolicyProfile, h1, htrim, strTrimQuotes_wrap v hq.1 hq.2]

theorem readUtmProf_ftpUpload (v : String) (hq : quoteSafe v) :
    ∀ q : UtmProfile, readUtmPolicyProfile ("ftp upload-profile \"" ++ (v ++ "\"")) q =
      { q with ftpUploadProfile := v } := by
  intro q
  have h0 : strStartsWith ("ftp upload-profile \"" ++ (v ++ "\""))
      "ftp download-profile " = false := strStartsWith_append_false _ (by decide) (by decide)
  have h1 : strStartsWith ("ftp upload-profile \"" ++ (v ++ "\""))
      "ftp upload-profile " = true := strStartsWith_append_of _ (by decide)
  have hsplit : ("ftp upload-profile \"" : String) ++ (v ++ "\"") =
      "ftp upload-profile " ++ ("\"" ++ (v ++ "\"")) := by
    rw [show ("ftp upload-profile \"" : String) = "ftp upload-profile " ++ "\"" from rfl,
      String.append_assoc]
  have htrim : strTrimPre ("ftp upload-profile \"" ++ (v ++ "\""))
      "ftp upload-profile " = "\"" ++ (v ++ "\"") := by
    rw [hsplit, strTrimPre_append]
  simp [readUtmPolicyProfile, h0, h1, htrim, strTrimQuotes_wrap v hq.1 hq.2]

theorem readUtmProf_http (v : String) (hq : quoteSafe v) :
    ∀ q : UtmProfile, readUtmPolicyProfile ("http-profile \"" ++ (v ++ "\"")) q =
      { q with httpProfile := v } := by
  intro q
  have h0 : strStartsWith ("http-profile \"" ++ (v ++ "\""))
      "ftp download-profile " = false := strStartsWith_append_false _ (by decide) (by decide)
  have h0' : strStartsWith ("http-profile \"" ++ (v ++ "\""))
      "ftp upload-profile " = false := strStartsWith_append_false _ (by decide) (by decide)
  have h1 : strStartsWith ("http-profile \"" ++ (v ++ "\"")) "http-profile " = true :=
    strStartsWith_append_of _ (by decide)
  have hsplit : ("http-profile \"" : String) ++ (v ++ "\"") =
      "http-profile " ++ ("\"" ++ (v ++ "\"")) := by
    rw [show ("http-profile \"" : String) = "http-profile " ++ "\"" from rfl,
      String.append_assoc]
  have htrim : strTrimPre ("http-profile \"" ++ (v ++ "\"")) "http-profile " =
      "\"" ++ (v ++ "\"") := by
    rw [hsplit, strTrimPre_append]
  simp [readUtmPolicyProfile, h0, h0', h1, htrim, strTrimQuotes_wrap v hq.1 hq.2]

theorem readUtmProf_imap (v : String) (hq : quoteSafe v) :
    ∀ q : UtmProfile, readUtmPolicyProfile ("imap-profile \"" ++ (v ++ "\"")) q =
      { q with imapProfile := v } := by
  intro q
  have h0 : strStartsWith ("imap-profile \"" ++ (v ++ "\""))
      "ftp download-profile " = false := strStartsWith_append_false _ (by decide) (by decide)
  have h0' : strStartsWith ("imap-profile \"" ++ (v ++ "\""))
      "ftp upload-profile " = false := strStartsWith_append_false _ (by decide) (by decide)
  have h0'' : strStartsWith ("imap-profile \"" ++ (v ++ "\"")) "http-profile " = false :=
    strStartsWith_append_false _ (by decide) (by decide)
  have h1 : strStartsWith ("imap-profile \"" ++ (v ++ "\"")) "imap-profile " = true :=
    strStartsWith_append_of _ (by decide)
  have hsplit : ("imap-profile \"" : String) ++ (v ++ "\"") =
      "imap-profile " ++ ("\"" ++ (v ++ "\"")) := by
    rw [show ("imap-profile \"" : String) = "imap-profile " ++ "\"" from rfl,
      String.append_assoc]
  have htrim : strTrimPre ("imap-profile \"" ++ (v ++ "\"")) "imap-profile " =
      "\"" ++ (v ++ "\"") := by
    rw [hsplit, strTrimPre_append]
  simp [readUtmPolicyProfile, h0, h0', h0'', h1, htrim, strTrimQuotes_wrap v hq.1 hq.2]

theorem readUtmProf_pop3 (v : String) (hq : quoteSafe v) :
    ∀ q : UtmProfile, readUtmPolicyProfile ("pop3-profile \"" ++ (v ++ "\"")) q =
      { q with pop3Profile := v } := by
  intro q
  have h0 : strStartsWith ("pop3-profile \"" ++ (v ++ "\""))
      "ftp download-profile " = false := strStartsWith_append_false _ (by decide) (by decide)
  have h0' : strStartsWith ("pop3-profile \"" ++ (v ++ "\""))
      "ftp upload-profile " = false := strStartsWith_append_false _ (by decide) (by decide)
  have h0'' : strStartsWith ("pop3-profile \"" ++ (v ++ "\"")) "http-profile " = false :=
    strStartsWith_append_false _ (by decide) (by decide)
  have h0''' : strStartsWith ("pop3-profile \"" ++ (v ++ "\"")) "imap-profile " = false :=
    strStartsWith_append_false _ (by decide) (by decide)
  have h1 : strStartsWith ("pop3-profile \"" ++ (v ++ "\"")) "pop3-profile " = true :=
    strStartsWith_append_of _ (by decide)
  have hsplit : ("pop3-profile \"" : String) ++ (v ++ "\"") =
      "pop3-profile " ++ ("\"" ++ (v ++ "\"")) := by
    rw [show ("pop3-profile \"" : String) = "pop3-profile " ++ "\"" from rfl,
      String.append_assoc]
  have htrim : strTrimPre ("pop3-profile \"" ++ (v ++ "\"")) "pop3-profile " =
      "\"" ++ (v ++ "\"") := by
    rw [hsplit, strTrimPre_append]
  simp [readUtmPolicyProfile, h0, h0', h0'', h0''', h1, htrim, strTrimQuotes_wrap v hq.1 hq.2]

theorem readUtmProf_smtp (v : String) (hq : quoteSafe v) :
    ∀ q : UtmProfile, readUtmPolicyProfile ("smtp-profile \"" ++ (v ++ "\"")) q =
      { q with smtpProfile := v } := by
  intro q
  have h0 : strStartsWith ("smtp-profile \"" ++ (v ++ "\""))
      "ftp download-profile " = false := strStartsWith_append_false _ (by decide) (by decide)
  have h0' : strStartsWith ("smtp-profile \"" ++ (v ++ "\""))
      "ftp upload-profile " = false := strStartsWith_append_false _ (by decide) (by decide)
  have h0'' : strStartsWith ("smtp-profile \"" ++ (v ++ "\"")) "http-profile " = false :=
    strStartsWith_append_false _ (by decide) (by decide)
  have h0''' : strStartsWith ("smtp-profile \"" ++ (v ++ "\"")) "imap-profile " = false :=
    strStartsWith_append_false _ (by decide) (by decide)
  have h0'''' : strStartsWith ("smtp-profile \"" ++ (v ++ "\"")) "pop3-profile " = false :=
    strStartsWith_append_false _ (by decide) (by decide)
  have h1 : strStartsWith ("smtp-profile \"" ++ (v ++ "\"")) "smtp-profile " = true :=
    strStartsWith_append_of _ (by decide)
  have hsplit : ("smtp-profile \"" : String) ++ (v ++ "\"") =
      "smtp-profile " ++ ("\"" ++ (v ++ "\"")) := by
    rw [show ("smtp-profile \"" : String) = "smtp-profile " ++ "\"" from rfl,
      String.append_assoc]
  have htrim : strTrimPre ("smtp-profile \"" ++ (v ++ "\"")) "smtp-profile " =
      "\"" ++ (v ++ "\"") := by
    rw [hsplit, strTrimPre_append]
  simp [readUtmPolicyProfile, h0, h0', h0'', h0''', h0'''', h1, htrim,
    strTrimQuotes_wrap v hq.1 hq.2]

theorem utmBlock_av_decode (p : UtmProfile) (hq : quoteSafeProfile p)
    (h1 : p.ftpDownloadProfile ≠ "" → utmLineOk ("anti-virus " ++ ("ftp download-profile \"" ++
      (p.ftpDownloadProfile ++ "\""))))
    (h2 : p.ftpUploadProfile ≠ "" → utmLineOk ("anti-virus " ++ ("ftp upload-profile \"" ++
      (p.ftpUploadProfile ++ "\""))))
    (h3 : p.httpProfile ≠ "" → utmLineOk ("anti-virus " ++ ("http-profile \"" ++
      (p.httpProfile ++ "\""))))
    (h4 : p.imapProfile ≠ "" → utmLineOk ("anti-virus " ++ ("imap-profile \"" ++
      (p.imapProfile ++ "\""))))
    (h5 : p.pop3Profile ≠ "" → utmLineOk ("anti-virus " ++ ("pop3-profile \"" ++
      (p.pop3Profile ++ "\""))))
    (h6 : p.smtpProfile ≠ "" → utmLineOk ("anti-virus " ++ ("smtp-profile \"" ++
      (p.smtpProfile ++ "\"")))) :
    ∀ (st : UtmPolicyOptions) (R : List String), st.antiVirus = [] →
      readUtmPolicyLoop st
        ((if p.ftpDownloadProfile ≠ "" then
            ["set " ++ ("anti-virus " ++ ("ftp download-profile \"" ++
              (p.ftpDownloadProfile ++ "\"")))] else []) ++
         ((if p.ftpUploadProfile ≠ "" then
            ["set " ++ ("anti-virus " ++ ("ftp upload-profile \"" ++
              (p.ftpUploadProfile ++ "\"")))] else []) ++
          ((if p.httpProfile ≠ "" then
            ["set " ++ ("anti-virus " ++ ("http-profile \"" ++ (p.httpProfile ++ "\"")))]
            else []) ++
           ((if p.imapProfile ≠ "" then
            ["set " ++ ("anti-virus " ++ ("imap-profile \"" ++ (p.imapProfile ++ "\"")))]
            else []) ++
            ((if p.pop3Profile ≠ "" then
            ["set " ++ ("anti-virus " ++ ("pop3-profile \"" ++ (p.pop3Profile ++ "\"")))]
            else []) ++
             ((if p.smtpProfile ≠ "" then
            ["set " ++ ("anti-virus " ++ ("smtp-profile \"" ++ (p.smtpProfile ++ "\"")))]
            else []) ++ R)))))) =
      readUtmPolicyLoop
        { st with antiVirus := (if p = genMapUtmPolicyProfile then [] else [some p]) } R := by
  obtain ⟨v1, v2, v3, v4, v5, v6⟩ := p
  obtain ⟨hq1, hq2, hq3, hq4, hq5, hq6⟩ := hq
  intro st R hst
  obtain ⟨n0, a0, w0, av0, c0, t0⟩ := st
  rw [utmLoop_cond_chunk _ _ _ _ _ (fun hc => utmStep_av _ (h1 hc)),
    utmLoop_cond_chunk _ _ _ _ _ (fun hc => utmStep_av _ (h2 hc)),
    utmLoop_cond_chunk _ _ _ _ _ (fun hc => utmStep_av _ (h3 hc)),
    utmLoop_cond_chunk _ _ _ _ _ (fun hc => utmStep_av _ (h4 hc)),
    utmLoop_cond_chunk _ _ _ _ _ (fun hc => utmStep_av _ (h5 hc)),
    utmLoop_cond_chunk _ _ _ _ _ (fun hc => utmStep_av _ (h6 hc))]
  congr 1
  by_cases hv1 : v1 = "" <;> by_cases hv2 : v2 = "" <;> by_cases hv3 : v3 = "" <;>
    by_cases hv4 : v4 = "" <;> by_cases hv5 : v5 = "" <;> by_cases hv6 : v6 = "" <;>
    simp_all [modifyFirstSome, genMapUtmPolicyProfile, readUtmProf_ftpDownload v1 hq1,
      readUtmProf_ftpUpload v2 hq2, readUtmProf_http v3 hq3, readUtmProf_imap v4 hq4,
      readUtmProf_pop3 v5 hq5, readUtmProf_smtp v6 hq6]

theorem utmBlock_cf_decode (p : UtmProfile) (hq : quoteSafeProfile p)
    (h1 : p.ftpDownloadProfile ≠ "" → utmLineOk ("content-filtering " ++
      ("ftp download-profile \"" ++ (p.ftpDownloadProfile ++ "\""))))
    (h2 : p.ftpUploadProfile ≠ "" → utmLineOk ("content-filtering " ++
      ("ftp upload-profile \"" ++ (p.ftpUploadProfile ++ "\""))))
    (h3 : p.httpProfile ≠ "" → utmLineOk ("content-filtering " ++
      ("http-profile \"" ++ (p.httpProfile ++ "\""))))
    (h4 : p.imapProfile ≠ "" → utmLineOk ("content-filtering " ++
      ("imap-profile \"" ++ (p.imapProfile ++ "\""))))
    (h5 : p.pop3Profile ≠ "" → utmLineOk ("content-filtering " ++
      ("pop3-profile \"" ++ (p.pop3Profile ++ "\""))))
    (h6 : p.smtpProfile ≠ "" → utmLineOk ("content-filtering " ++
      ("smtp-profile \"" ++ (p.smtpProfile ++ "\"")))) :
    ∀ (st : UtmPolicyOptions) (R : List String), st.contentFiltering = [] →
      readUtmPolicyLoop st
        ((if p.ftpDownloadProfile ≠ "" then
            ["set " ++ ("content-filtering " ++ ("ftp download-profile \"" ++
              (p.ftpDownloadProfile ++ "\"")))] else []) ++
         ((if p.ftpUploadProfile ≠ "" then
            ["set " ++ ("content-filtering " ++ ("ftp upload-profile \"" ++
              (p.ftpUploadProfile ++ "\"")))] else []) ++
          ((if p.httpProfile ≠ "" then
            ["set " ++ ("content-filtering " ++ ("http-profile \"" ++ (p.httpProfile ++ "\"")))]
            else []) ++
           ((if p.imapProfile ≠ "" then
            ["set " ++ ("content-filtering " ++ ("imap-profile \"" ++ (p.imapProfile ++ "\"")))]
            else []) ++
            ((if p.pop3Profile ≠ "" then
            ["set " ++ ("content-filtering " ++ ("pop3-profile \"" ++ (p.pop3Profile ++ "\"")))]
            else []) ++
             ((if p.smtpProfile ≠ "" then
            ["set " ++ ("content-filtering " ++ ("smtp-profile \"" ++ (p.smtpProfile ++ "\"")))]
            else []) ++ R)))))) =
      readUtmPolicyLoop
        { st with contentFiltering := (if p = genMapUtmPolicyProfile then [] else [some p]) }
        R := by
  obtain ⟨v1, v2, v3, v4, v5, v6⟩ := p
  obtain ⟨hq1, hq2, hq3, hq4, hq5, hq6⟩ := hq
  intro st R hst
  obtain ⟨n0, a0, w0, av0, c0, t0⟩ := st
  rw [utmLoop_cond_chunk _ _ _ _ _ (fun hc => utmStep_cf _ (h1 hc)),
    utmLoop_cond_chunk _ _ _ _ _ (fun hc => utmStep_cf _ (h2 hc)),
    utmLoop_cond_chunk _ _ _ _ _ (fun hc => utmStep_cf _ (h3 hc)),
    utmLoop_cond_chunk _ _ _ _ _ (fun hc => utmStep_cf _ (h4 hc)),
    utmLoop_cond_chunk _ _ _ _ _ (fun hc => utmStep_cf _ (h5 hc)),
    utmLoop_cond_chunk _ _ _ _ _ (fun hc => utmStep_cf _ (h6 hc))]
  congr 1
  by_cases hv1 : v1 = "" <;> by_cases hv2 : v2 = "" <;> by_cases hv3 : v3 = "" <;>
    by_cases hv4 : v4 = "" <;> by_cases hv5 : v5 = "" <;> by_cases hv6 : v6 = "" <;>
    simp_all [modifyFirstSome, genMapUtmPolicyProfile, readUtmProf_ftpDownload v1 hq1,
      readUtmProf_ftpUpload v2 hq2, readUtmProf_http v3 hq3, readUtmProf_imap v4 hq4,
      readUtmProf_pop3 v5 hq5, readUtmProf_smtp v6 hq6]

theorem utmBlock_traffic_decode (t : UtmTrafficOptions)
    (h1 : t.limit ≠ -1 → utmLineOk ("traffic-options sessions-per-client limit " ++ itoa t.limit))
    (h2 : t.overLimit ≠ "" →
      utmLineOk ("traffic-options sessions-per-client over-limit " ++ t.overLimit)) :
    ∀ (st : UtmPolicyOptions) (R : List String), st.trafficSessionsPerClient = [] →
      readUtmPolicyLoop st
        ((if t.limit ≠ -1 then
            ["set " ++ ("traffic-options sessions-per-client limit " ++ itoa t.limit)]
          else []) ++
         ((if t.overLimit ≠ "" then
            ["set " ++ ("traffic-options sessions-per-client over-limit " ++ t.overLimit)]
          else []) ++ R)) =
      readUtmPolicyLoop
        { st with trafficSessionsPerClient :=
          (if t = genUtmTrafficOptions then [] else [some t]) } R := by
  obtain ⟨n, w⟩ := t
  intro st R hst
  obtain ⟨n0, a0, w0, av0, c0, t0⟩ := st
  rw [utmLoop_cond_chunk _ _ _ _ _ (fun hc => utmStep_limit _ (h1 hc)),
    utmLoop_cond_chunk _ _ _ _ _ (fun hc => utmStep_over _ (h2 hc))]
  congr 1
  by_cases hn : n = -1 <;> by_cases hw : w = "" <;>
    simp_all [modifyFirstSome, genUtmTrafficOptions]

theorem filter_pfx_chunk (pfx : String) (c : Prop) [Decidable c] (t : String) :
    List.filter (fun l => strStartsWith l pfx) (if c then [pfx ++ t] else []) =
      (if c then [pfx ++ t] else []) := by
  split
  · simp [strStartsWith_self_append]
  · rfl

theorem map_trim_chunk (pfx t : String) (c : Prop) [Decidable c] :
    List.map (fun l => "set " ++ strTrimPre l pfx) (if c then [pfx ++ t] else []) =
      (if c then ["set " ++ t] else []) := by
  split
  · simp [strTrimPre_append]
  · rfl

theorem joinLines_ne_emptyWord (ls : List String) (h1 : ls ≠ [])
    (h2 : ∀ l ∈ ls, strStartsWith l "set " = true) : joinLines ls ≠ emptyWord := by
  cases ls with
  | nil => exact absurd rfl h1
  | cons m ms =>
    exact ne_emptyWord_of_startsWith_set
      (joinLines_cons_startsWith m ms "set " (h2 m (List.mem_cons_self _ _)))

theorem utm_roundtrip_aux (o : UtmPolicyOptions) (stmts : List String)
    (hav : o.antiVirus = [] ∨ ∃ p, o.antiVirus = [some p])
    (hcf : o.contentFiltering = [] ∨ ∃ p, o.contentFiltering = [some p])
    (htr : o.trafficSessionsPerClient = [] ∨ ∃ t, o.trafficSessionsPerClient = [some t])
    (henc : setUtmPolicy o = .ok stmts) (hne : stmts ≠ [])
    (hok : ∀ l ∈ stmts,
      utmLineOk (strTrimPre l ("set security utm utm-policy \"" ++ o.name ++ "\" ")))
    (hq1 : quoteSafe o.antiSpamSMTPProfile) (hq2 : quoteSafe o.webFilteringProfile)
    (hqa : ∀ p, some p ∈ o.antiVirus → quoteSafeProfile p)
    (hqc : ∀ p, some p ∈ o.contentFiltering → quoteSafeProfile p) :
    readUtmPolicy o.name
      (displaySetRelative ("set security utm utm-policy \"" ++ o.name ++ "\" ") stmts) =
      .ok (normalizeUtmPolicyOptions o) := by
  obtain ⟨pA, hA1, hA2, hA3⟩ :
      ∃ pA, (∀ pb err, utmBlockLines pb err o.antiVirus = .ok (utmProfileLines pb pA)) ∧
        normalizeProfileBlocks o.antiVirus =
          (if pA = genMapUtmPolicyProfile then [] else [some pA]) ∧
        quoteSafeProfile pA := by
    rcases hav with h | ⟨p, h⟩
    · refine ⟨genMapUtmPolicyProfile, ?_, ?_, ?_⟩
      · intro pb err
        rw [h]
        rfl
      · rw [h]
        rfl
      · exact ⟨by simp [genMapUtmPolicyProfile, quoteSafe], by simp [genMapUtmPolicyProfile,
          quoteSafe], by simp [genMapUtmPolicyProfile, quoteSafe], by simp [genMapUtmPolicyProfile,
          quoteSafe], by simp [genMapUtmPolicyProfile, quoteSafe],
          by simp [genMapUtmPolicyProfile, quoteSafe]⟩
    · refine ⟨p, ?_, ?_, hqa p (by rw [h]; exact List.mem_cons_self _ _)⟩
      · intro pb err
        rw [h]
        simp [utmBlockLines, except_bind_ok]
      · rw [h]
        by_cases hg : p = genMapUtmPolicyProfile <;> simp [normalizeProfileBlocks, hg]
  obtain ⟨pC, hC1, hC2, hC3⟩ :
      ∃ pC, (∀ pb err, utmBlockLines pb err o.contentFiltering = .ok (utmProfileLines pb pC)) ∧
        normalizeProfileBlocks o.contentFiltering =
          (if pC = genMapUtmPolicyProfile then [] else [some pC]) ∧
        quoteSafeProfile pC := by
    rcases hcf with h | ⟨p, h⟩
    · refine ⟨genMapUtmPolicyProfile, ?_, ?_, ?_⟩
      · intro pb err
        rw [h]
        rfl
      · rw [h]
        rfl
      · exact ⟨by simp [genMapUtmPolicyProfile, quoteSafe], by simp [genMapUtmPolicyProfile,
          quoteSafe], by simp [genMapUtmPolicyProfile, quoteSafe], by simp [genMapUtmPolicyProfile,
          quoteSafe], by simp [genMapUtmPolicyProfile, quoteSafe],
          by simp [genMapUtmPolicyProfile, quoteSafe]⟩
    · refine ⟨p, ?_, ?_, hqc p (by rw [h]; exact List.mem_cons_self _ _)⟩
      · intro pb err
        rw [h]
        simp [utmBlockLines, except_bind_ok]
      · rw [h]
        by_cases hg : p = genMapUtmPolicyProfile <;> simp [normalizeProfileBlocks, hg]
  obtain ⟨tT, hT1, hT2⟩ :
      ∃ tT : UtmTrafficOptions, (∀ pb, utmTrafficLines pb o.trafficSessionsPerClient =
          .ok ((if tT.limit ≠ -1 then
              [pb ++ "traffic-options sessions-per-client limit " ++ itoa tT.limit] else []) ++
            (if tT.overLimit ≠ "" then
              [pb ++ "traffic-options sessions-per-client over-limit " ++ tT.overLimit]
            else []))) ∧
        normalizeTrafficBlocks o.trafficSessionsPerClient =
          (if tT = genUtmTrafficOptions then [] else [some tT]) := by
    rcases htr with h | ⟨t, h⟩
    · refine ⟨genUtmTrafficOptions, ?_, ?_⟩
      · intro pb
        rw [h]
        rfl
      · rw [h]
        rfl
    · refine ⟨t, ?_, ?_⟩
      · intro pb
        rw [h]
        simp [utmTrafficLines, except_bind_ok]
      · rw [h]
        by_cases hg : t = genUtmTrafficOptions <;> simp [normalizeTrafficBlocks, hg]
  simp only [setUtmPolicy] at henc
  rw [hA1, except_bind_ok, hC1, except_bind_ok, hT1, except_bind_ok] at henc
  injection henc with hstmts
  generalize hPg : ("set security utm utm-policy \"" ++ o.name ++ "\" " : String) = P
    at hstmts hok ⊢
  have hall : ∀ l ∈ stmts, strStartsWith l P = true := by
    intro l hl
    rw [← hstmts] at hl
    simp [utmProfileLines, String.append_assoc] at hl
    rcases hl with h|h|h|h|h|h|h|h|h|h|h|h|h|h|h|h <;>
      (obtain ⟨-, rfl⟩ := h
       exact strStartsWith_self_append _ _)
  have hfil : stmts.filter (fun l => strStartsWith l P) = stmts :=
    List.filter_eq_self.mpr hall
  have hMne : stmts.map (fun l => "set " ++ strTrimPre l P) ≠ [] := by
    simpa using hne
  have hMsw : ∀ l ∈ stmts.map (fun l => "set " ++ strTrimPre l P),
      strStartsWith l "set " = true := by
    intro l hl
    obtain ⟨x, -, rfl⟩ := List.mem_map.mp hl
    exact strStartsWith_self_append _ _
  have hMnl : ∀ l ∈ stmts.map (fun l => "set " ++ strTrimPre l P), '
' ∉ l.data := by
    intro l hl
    obtain ⟨x, hx, rfl⟩ := List.mem_map.mp hl
    exact newline_not_mem_set_append (hok x hx).1
  have hspok : o.antiSpamSMTPProfile ≠ "" →
      utmLineOk ("anti-spam smtp-profile \"" ++ (o.antiSpamSMTPProfile ++ "\"")) := by
    intro hc
    have h2 := hok (P ++ ("anti-spam smtp-profile \"" ++ (o.antiSpamSMTPProfile ++ "\"")))
      (by rw [← hstmts]; simp [utmProfileLines, String.append_assoc, hc])
    rwa [strTrimPre_append] at h2
  have hwfok : o.webFilteringProfile ≠ "" →
      utmLineOk ("web-filtering http-profile \"" ++ (o.webFilteringProfile ++ "\"")) := by
    intro hc
    have h2 := hok (P ++ ("web-filtering http-profile \"" ++ (o.webFilteringProfile ++ "\"")))
      (by rw [← hstmts]; simp [utmProfileLines, String.append_assoc, hc])
    rwa [strTrimPre_append] at h2
  have hb1 : pA.ftpDownloadProfile ≠ "" → utmLineOk ("anti-virus " ++
      ("ftp download-profile \"" ++ (pA.ftpDownloadProfile ++ "\""))) := by
    intro hc
    have h3 : ("anti-virus " : String) ++ ("ftp download-profile \"" ++ (pA.ftpDownloadProfile ++ "\"")) =
        "anti-virus ftp download-profile \"" ++ (pA.ftpDownloadProfile ++ "\"") := by
      rw [← String.append_assoc]
      rfl
    rw [h3]
    have h2 := hok (P ++ ("anti-virus ftp download-profile \"" ++ (pA.ftpDownloadProfile ++ "\"")))
      (by rw [← hstmts]; simp [utmProfileLines, String.append_assoc, hc])
    rwa [strTrimPre_append] at h2
  have hb2 : pA.ftpUploadProfile ≠ "" → utmLineOk ("anti-virus " ++
      ("ftp upload-profile \"" ++ (pA.ftpUploadProfile ++ "\""))) := by
    intro hc
    have h3 : ("anti-virus " : String) ++ ("ftp upload-profile \"" ++ (pA.ftpUploadProfile ++ "\"")) =
        "anti-virus ftp upload-profile \"" ++ (pA.ftpUploadProfile ++ "\"") := by
      rw [← String.append_assoc]
      rfl
    rw [h3]
    have h2 := hok (P ++ ("anti-virus ftp upload-profile \"" ++ (pA.ftpUploadProfile ++ "\"")))
      (by rw [← hstmts]; simp [utmProfileLines, String.append_assoc, hc])
    rwa [strTrimPre_append] at h2
  have hb3 : pA.httpProfile ≠ "" → utmLineOk ("anti-virus " ++
      ("http-profile \"" ++ (pA.httpProfile ++ "\""))) := by
    intro hc
    have h3 : ("anti-virus " : String) ++ ("http-profile \"" ++ (pA.httpProfile ++ "\"")) =
        "anti-virus http-profile \"" ++ (pA.httpProfile ++ "\"") := by
      rw [← String.append_assoc]
      rfl
    rw [h3]
    have h2 := hok (P ++ ("anti-virus http-profile \"" ++ (pA.httpProfile ++ "\"")))
      (by rw [← hstmts]; simp [utmProfileLines, String.append_assoc, hc])
    rwa [strTrimPre_append] at h2
  have hb4 : pA.imapProfile ≠ "" → utmLineOk ("anti-virus " ++
      ("imap-profile \"" ++ (pA.imapProfile ++ "\""))) := by
    intro hc
    have h3 : ("anti-virus " : String) ++ ("imap-profile \"" ++ (pA.imapProfile ++ "\"")) =
        "anti-virus imap-profile \"" ++ (pA.imapProfile ++ "\"") := by
      rw [← String.append_assoc]
      rfl
    rw [h3]
    have h2 := hok (P ++ ("anti-virus imap-profile \"" ++ (pA.imapProfile ++ "\"")))
      (by rw [← hstmts]; simp [utmProfileLines, String.append_assoc, hc])
    rwa [strTrimPre_append] at h2
  have hb5 : pA.pop3Profile ≠ "" → utmLineOk ("anti-virus " ++
      ("pop3-profile \"" ++ (pA.pop3Profile ++ "\""))) := by
    intro hc
    have h3 : ("anti-virus " : String) ++ ("pop3-profile \"" ++ (pA.pop3Profile ++ "\"")) =
        "anti-virus pop3-profile \"" ++ (pA.pop3Profile ++ "\"") := by
      rw [← String.append_assoc]
      rfl
    rw [h3]
    have h2 := hok (P ++ ("anti-virus pop3-profile \"" ++ (pA.pop3Profile ++ "\"")))
      (by rw [← hstmts]; simp [utmProfileLines, String.append_assoc, hc])
    rwa [strTrimPre_append] at h2
  have hb6 : pA.smtpProfile ≠ "" → utmLineOk ("anti-virus " ++
      ("smtp-profile \"" ++ (pA.smtpProfile ++ "\""))) := by
    intro hc
    have h3 : ("anti-virus " : String) ++ ("smtp-profile \"" ++ (pA.smtpProfile ++ "\"")) =
        "anti-virus smtp-profile \"" ++ (pA.smtpProfile ++ "\"") := by
      rw [← String.append_assoc]
      rfl
    rw [h3]
    have h2 := hok (P ++ ("anti-virus smtp-profile \"" ++ (pA.smtpProfile ++ "\"")))
      (by rw [← hstmts]; simp [utmProfileLines, String.append_assoc, hc])
    rwa [strTrimPre_append] at h2
  have hc1 : pC.ftpDownloadProfile ≠ "" → utmLineOk ("content-filtering " ++
      ("ftp download-profile \"" ++ (pC.ftpDownloadProfile ++ "\""))) := by
    intro hc
    have h3 : ("content-filtering " : String) ++ ("ftp download-profile \"" ++ (pC.ftpDownloadProfile ++ "\"")) =
        "content-filtering ftp download-profile \"" ++ (pC.ftpDownloadProfile ++ "\"") := by
      rw [← String.append_assoc]
      rfl
    rw [h3]
    have h2 := hok (P ++ ("content-filtering ftp download-profile \"" ++ (pC.ftpDownloadProfile ++ "\"")))
      (by rw [← hstmts]; simp [utmProfileLines, String.append_assoc, hc])
    rwa [strTrimPre_append] at h2
  have hc2 : pC.ftpUploadProfile ≠ "" → utmLineOk ("content-filtering " ++
      ("ftp upload-profile \"" ++ (pC.ftpUploadProfile ++ "\""))) := by
    intro hc
    have h3 : ("content-filtering " : String) ++ ("ftp upload-profile \"" ++ (pC.ftpUploadProfile ++ "\"")) =
        "content-filtering ftp upload-profile \"" ++ (pC.ftpUploadProfile ++ "\"") := by
      rw [← String.append_assoc]
      rfl
    rw [h3]
    have h2 := hok (P ++ ("content-filtering ftp upload-profile \"" ++ (pC.ftpUploadProfile ++ "\"")))
      (by rw [← hstmts]; simp [utmProfileLines, String.append_assoc, hc])
    rwa [strTrimPre_append] at h2
  have hc3 : pC.httpProfile ≠ "" → utmLineOk ("content-filtering " ++
      ("http-profile \"" ++ (pC.httpProfile ++ "\""))) := by
    intro hc
    have h3 : ("content-filtering " : String) ++ ("http-profile \"" ++ (pC.httpProfile ++ "\"")) =
        "content-filtering http-profile \"" ++ (pC.httpProfile ++ "\"") := by
      rw [← String.append_assoc]
      rfl
    rw [h3]
    have h2 := hok (P ++ ("content-filtering http-profile \"" ++ (pC.httpProfile ++ "\"")))
      (by rw [← hstmts]; simp [utmProfileLines, String.append_assoc, hc])
    rwa [strTrimPre_append] at h2
  have hc4 : pC.imapProfile ≠ "" → utmLineOk ("content-filtering " ++
      ("imap-profile \"" ++ (pC.imapProfile ++ "\""))) := by
    intro hc
    have h3 : ("content-filtering " : String) ++ ("imap-profile \"" ++ (pC.imapProfile ++ "\"")) =
        "content-filtering imap-profile \"" ++ (pC.imapProfile ++ "\"") := by
      rw [← String.append_assoc]
      rfl
    rw [h3]
    have h2 := hok (P ++ ("content-filtering imap-profile \"" ++ (pC.imapProfile ++ "\"")))
      (by rw [← hstmts]; simp [utmProfileLines, String.append_assoc, hc])
    rwa [strTrimPre_append] at h2
  have hc5 : pC.pop3Profile ≠ "" → utmLineOk ("content-filtering " ++
      ("pop3-profile \"" ++ (pC.pop3Profile ++ "\""))) := by
    intro hc
    have h3 : ("content-filtering " : String) ++ ("pop3-profile \"" ++ (pC.pop3Profile ++ "\"")) =
        "content-filtering pop3-profile \"" ++ (pC.pop3Profile ++ "\"") := by
      rw [← String.append_assoc]
      rfl
    rw [h3]
    have h2 := hok (P ++ ("content-filtering pop3-profile \"" ++ (pC.pop3Profile ++ "\"")))
      (by rw [← hstmts]; simp [utmProfileLines, String.append_assoc, hc])
    rwa [strTrimPre_append] at h2
  have hc6 : pC.smtpProfile ≠ "" → utmLineOk ("content-filtering " ++
      ("smtp-profile \"" ++ (pC.smtpProfile ++ "\""))) := by
    intro hc
    have h3 : ("content-filtering " : String) ++ ("smtp-profile \"" ++ (pC.smtpProfile ++ "\"")) =
        "content-filtering smtp-profile \"" ++ (pC.smtpProfile ++ "\"") := by
      rw [← String.append_assoc]
      rfl
    rw [h3]
    have h2 := hok (P ++ ("content-filtering smtp-profile \"" ++ (pC.smtpProfile ++ "\"")))
      (by rw [← hstmts]; simp [utmProfileLines, String.append_assoc, hc])
    rwa [strTrimPre_append] at h2
  have ht1ok : tT.limit ≠ -1 →
      utmLineOk ("traffic-options sessions-per-client limit " ++ itoa tT.limit) := by
    intro hc
    have h2 := hok (P ++ ("traffic-options sessions-per-client limit " ++ itoa tT.limit))
      (by rw [← hstmts]; simp [utmProfileLines, String.append_assoc, hc])
    rwa [strTrimPre_append] at h2
  have ht2ok : tT.overLimit ≠ "" →
      utmLineOk ("traffic-options sessions-per-client over-limit " ++ tT.overLimit) := by
    intro hc
    have h2 := hok (P ++ ("traffic-options sessions-per-client over-limit " ++ tT.overLimit))
      (by rw [← hstmts]; simp [utmProfileLines, String.append_assoc, hc])
    rwa [strTrimPre_append] at h2
  simp only [displaySetRelative]
  rw [hfil]
  have hEf : ¬((stmts.isEmpty : Bool) = true) := by
    simpa [List.isEmpty_iff] using hne
  rw [if_neg hEf]
  rw [readUtmPolicy]
  rw [if_pos (joinLines_ne_emptyWord _ hMne hMsw)]
  rw [splitLines_joinLines _ hMne hMnl]
  rw [← hstmts]
  simp only [List.append_assoc, String.append_assoc, utmProfileLines, List.map_append,
    map_trim_chunk, List.map_nil, List.nil_append, List.append_nil]
  by_cases hsp : o.antiSpamSMTPProfile = "" <;> by_cases hwf : o.webFilteringProfile = ""
  · rw [if_neg (show ¬(o.antiSpamSMTPProfile ≠ "") from by simp [hsp]), List.nil_append]
    simp only [utmBlock_av_decode pA hA3 hb1 hb2 hb3 hb4 hb5 hb6,
      utmBlock_cf_decode pC hC3 hc1 hc2 hc3 hc4 hc5 hc6,
      utmBlock_traffic_decode tT ht1ok ht2ok]
    rw [if_neg (show ¬(o.webFilteringProfile ≠ "") from by simp [hwf])]
    simp [readUtmPolicyLoop, normalizeUtmPolicyOptions, hA2, hC2, hT2, hsp, hwf]
  · rw [if_neg (show ¬(o.antiSpamSMTPProfile ≠ "") from by simp [hsp]), List.nil_append]
    simp only [utmBlock_av_decode pA hA3 hb1 hb2 hb3 hb4 hb5 hb6,
      utmBlock_cf_decode pC hC3 hc1 hc2 hc3 hc4 hc5 hc6,
      utmBlock_traffic_decode tT ht1ok ht2ok]
    rw [if_pos hwf, utmStep_web _ (hwfok hwf) hq2]
    simp [readUtmPolicyLoop, normalizeUtmPolicyOptions, hA2, hC2, hT2, hsp]
  · rw [if_pos hsp, List.singleton_append, utmStep_antispam _ (hspok hsp) hq1]
    simp only [utmBlock_av_decode pA hA3 hb1 hb2 hb3 hb4 hb5 hb6,
      utmBlock_cf_decode pC hC3 hc1 hc2 hc3 hc4 hc5 hc6,
      utmBlock_traffic_decode tT ht1ok ht2ok]
    rw [if_neg (show ¬(o.webFilteringProfile ≠ "") from by simp [hwf])]
    simp [readUtmPolicyLoop, normalizeUtmPolicyOptions, hA2, hC2, hT2, hwf]
  · rw [if_pos hsp, List.singleton_append, utmStep_antispam _ (hspok hsp) hq1]
    simp only [utmBlock_av_decode pA hA3 hb1 hb2 hb3 hb4 hb5 hb6,
      utmBlock_cf_decode pC hC3 hc1 hc2 hc3 hc4 hc5 hc6,
      utmBlock_traffic_decode tT ht1ok ht2ok]
    rw [if_pos hwf, utmStep_web _ (hwfok hwf) hq2]
    simp [readUtmPolicyLoop, normalizeUtmPolicyOptions, hA2, hC2, hT2]

theorem esiIdentMatch_df (v : String) : esiIdentMatch ("df-election-type " ++ v) = false := by
  rw [esiIdentMatch, String.data_append]
  rfl

theorem esiIdentMatch_bmac (v : String) : esiIdentMatch ("source-bmac " ++ v) = false := by
  rw [esiIdentMatch, String.data_append]
  rfl

theorem esiDecode_mode (m : String) (hm : m = "all-active" ∨ m = "single-active")
    (hok : intLineOk ("esi " ++ m)) :
    readInterfacePhysicalLoop {} ["set " ++ ("esi " ++ m)] =
      .ok { esi := [some { mode := m }] } := by
  obtain ⟨-, hu, ho, hc⟩ := hok
  have h1 : strStartsWith ("esi " ++ m) "aggregated-ether-options lacp " = false :=
    strStartsWith_append_false _ (by decide) (by decide)
  have h2 : strStartsWith ("esi " ++ m) "aggregated-ether-options link-speed " = false :=
    strStartsWith_append_false _ (by decide) (by decide)
  have h3 : strStartsWith ("esi " ++ m) "aggregated-ether-options minimum-links " = false :=
    strStartsWith_append_false _ (by decide) (by decide)
  have h4 : strStartsWith ("esi " ++ m) "description " = false :=
    strStartsWith_append_false _ (by decide) (by decide)
  have h5 : strStartsWith ("esi " ++ m) "esi " = true := strStartsWith_self_append _ _
  have him : esiIdentMatch m = false := by
    rcases hm with rfl | rfl <;> decide
  have hmm : (m = "all-active" || m = "single-active") = true := by
    rcases hm with rfl | rfl <;> decide
  simp [readInterfacePhysicalLoop, hu, ho, hc, strTrimPre_set, h1, h2, h3, h4, h5,
    readIntEsi, strTrimPre_append, him, hmm, modifyFirstSome]

theorem esiDecode_auto :
    readInterfacePhysicalLoop {} ["set " ++ "esi auto-derive lacp"] =
      .ok { esi := [some { autoDeriveLacp := true }] } := rfl

theorem esiDecode_df (v : String) (hok : intLineOk ("esi " ++ ("df-election-type " ++ v))) :
    readInterfacePhysicalLoop {} ["set " ++ ("esi " ++ ("df-election-type " ++ v))] =
      .ok { esi := [some { dfElectionType := v }] } := by
  obtain ⟨-, hu, ho, hc⟩ := hok
  have h1 : strStartsWith ("esi " ++ ("df-election-type " ++ v))
      "aggregated-ether-options lacp " = false :=
    strStartsWith_append_false _ (by decide) (by decide)
  have h2 : strStartsWith ("esi " ++ ("df-election-type " ++ v))
      "aggregated-ether-options link-speed " = false :=
    strStartsWith_append_false _ (by decide) (by decide)
  have h3 : strStartsWith ("esi " ++ ("df-election-type " ++ v))
      "aggregated-ether-options minimum-links " = false :=
    strStartsWith_append_false _ (by decide) (by decide)
  have h4 : strStartsWith ("esi " ++ ("df-election-type " ++ v)) "description " = false :=
    strStartsWith_append_false _ (by decide) (by decide)
  have h5 : strStartsWith ("esi " ++ ("df-election-type " ++ v)) "esi " = true :=
    strStartsWith_self_append _ _
  have hne1 : ("df-election-type " ++ v) ≠ "all-active" :=
    append_ne_of_startsWith_false _ (by decide)
  have hne2 : ("df-election-type " ++ v) ≠ "single-active" :=
    append_ne_of_startsWith_false _ (by decide)
  have hdf : strStartsWith ("df-election-type " ++ v) "df-election-type " = true :=
    strStartsWith_self_append _ _
  simp [readInterfacePhysicalLoop, hu, ho, hc, strTrimPre_set, h1, h2, h3, h4, h5,
    readIntEsi, strTrimPre_append, esiIdentMatch_df, hne1, hne2, hdf, modifyFirstSome]

theorem esiDecode_ident (v : String) (hv : esiIdentMatch v = true)
    (hok : intLineOk ("esi " ++ v)) :
    readInterfacePhysicalLoop {} ["set " ++ ("esi " ++ v)] =
      .ok { esi := [some { identifier := v }] } := by
  obtain ⟨-, hu, ho, hc⟩ := hok
  have h1 : strStartsWith ("esi " ++ v) "aggregated-ether-options lacp " = false :=
    strStartsWith_append_false _ (by decide) (by decide)
  have h2 : strStartsWith ("esi " ++ v) "aggregated-ether-options link-speed " = false :=
    strStartsWith_append_false _ (by decide) (by decide)
  have h3 : strStartsWith ("esi " ++ v) "aggregated-ether-options minimum-links " = false :=
    strStartsWith_append_false _ (by decide) (by decide)
  have h4 : strStartsWith ("esi " ++ v) "description " = false :=
    strStartsWith_append_false _ (by decide) (by decide)
  have h5 : strStartsWith ("esi " ++ v) "esi " = true := strStartsWith_self_append _ _
  simp [readInterfacePhysicalLoop, hu, ho, hc, strTrimPre_set, h1, h2, h3, h4, h5,
    readIntEsi, strTrimPre_append, hv, modifyFirstSome]

theorem esiDecode_bmac (v : String) (hok : intLineOk ("esi " ++ ("source-bmac " ++ v))) :
    readInterfacePhysicalLoop {} ["set " ++ ("esi " ++ ("source-bmac " ++ v))] =
      .ok { esi := [some { sourceBmac := v }] } := by
  obtain ⟨-, hu, ho, hc⟩ := hok
  have h1 : strStartsWith ("esi " ++ ("source-bmac " ++ v))
      "aggregated-ether-options lacp " = false :=
    strStartsWith_append_false _ (by decide) (by decide)
  have h2 : strStartsWith ("esi " ++ ("source-bmac " ++ v))
      "aggregated-ether-options link-speed " = false :=
    strStartsWith_append_false _ (by decide) (by decide)
  have h3 : strStartsWith ("esi " ++ ("source-bmac " ++ v))
      "aggregated-ether-options minimum-links " = false :=
    strStartsWith_append_false _ (by decide) (by decide)
  have h4 : strStartsWith ("esi " ++ ("source-bmac " ++ v)) "description " = false :=
    strStartsWith_append_false _ (by decide) (by decide)
  have h5 : strStartsWith ("esi " ++ ("source-bmac " ++ v)) "esi " = true :=
    strStartsWith_self_append _ _
  have hne1 : ("source-bmac " ++ v) ≠ "all-active" :=
    append_ne_of_startsWith_false _ (by decide)
  have hne2 : ("source-bmac " ++ v) ≠ "single-active" :=
    append_ne_of_startsWith_false _ (by decide)
  have hdf : strStartsWith ("source-bmac " ++ v) "df-election-type " = false :=
    strStartsWith_append_false _ (by decide) (by decide)
  have hsb : strStartsWith ("source-bmac " ++ v) "source-bmac " = true :=
    strStartsWith_self_append _ _
  simp [readInterfacePhysicalLoop, hu, ho, hc, strTrimPre_set, h1, h2, h3, h4, h5,
    readIntEsi, strTrimPre_append, esiIdentMatch_bmac, hne1, hne2, hdf, hsb, modifyFirstSome]

theorem cleanEsi_unique (mo : String) (al : Bool) (df idf sb : String)
    (hc : (esiPriorityOrder.filter (esiFieldPopulated ⟨mo, al, df, idf, sb⟩)).length ≤ 1) :
    (mo ≠ "" → al = false ∧ df = "" ∧ idf = "" ∧ sb = "") ∧
    (al = true → df = "" ∧ idf = "" ∧ sb = "") ∧
    (df ≠ "" → idf = "" ∧ sb = "") ∧ (idf ≠ "" → sb = "") := by
  simp [esiPriorityOrder, List.filter, esiFieldPopulated] at hc
  by_cases h1 : mo = "" <;> by_cases h2 : al = true <;> by_cases h3 : df = "" <;>
    by_cases h4 : idf = "" <;> by_cases h5 : sb = "" <;>
    simp_all

theorem esi_single_line_read (P T : String) (st' : InterfacePhysicalOptions)
    (hT : intLineOk T)
    (hdec : readInterfacePhysicalLoop {} ["set " ++ T] = .ok st') :
    readInterfacePhysical (displaySetRelative P [P ++ T]) = .ok st' := by
  have hsw : strStartsWith (P ++ T) P = true := strStartsWith_self_append _ _
  have hkept : displaySetRelative P [P ++ T] = "set " ++ T := by
    simp [displaySetRelative, hsw, strTrimPre_append, joinLines_single]
  rw [hkept, readInterfacePhysical,
    if_pos (ne_emptyWord_of_startsWith_set (strStartsWith_self_append "set " T)),
    splitLines_no_newline _ (newline_not_mem_set_append hT.1)]
  exact hdec

theorem esi_no_line_read : ∀ P : String,
    readInterfacePhysical (displaySetRelative P []) = .ok {} := fun _ => rfl

theorem esi_roundtrip_aux (name : String) (bs : List (Option EsiBlock)) (lines : List String)
    (hbs : bs = [] ∨ ∃ b, bs = [some b] ∧ cleanEsiBlock b)
    (henc : setIntEsi ("set interfaces " ++ name ++ " ") bs = .ok lines)
    (hok : ∀ l ∈ lines, intLineOk (strTrimPre l ("set interfaces " ++ name ++ " "))) :
    readInterfacePhysical (displaySetRelative ("set interfaces " ++ name ++ " ") lines) =
      .ok { esi := normalizeEsiBlocks bs } := by
  generalize hPg : ("set interfaces " ++ name ++ " " : String) = P at henc hok ⊢
  rcases hbs with rfl | ⟨b, rfl, hclean⟩
  · simp only [setIntEsi, List.foldl] at henc
    injection henc with hlines
    subst hlines
    rw [esi_no_line_read]
    rfl

  · obtain ⟨mo, al, df, idf, sb⟩ := b
    obtain ⟨hcount, hmode, hident⟩ := hclean
    obtain ⟨hu1, hu2, hu3, hu4⟩ := cleanEsi_unique mo al df idf sb hcount
    by_cases hmo : mo = ""
    · subst hmo
      by_cases hal : al = true
      · subst hal
        obtain ⟨hdf, hidf, hsb⟩ := hu2 rfl
        subst hdf hidf hsb
        simp [setIntEsi] at henc
        subst henc
        have hTok : intLineOk "esi auto-derive lacp" := by
          have h2 := hok (P ++ "esi auto-derive lacp") (List.mem_singleton.mpr rfl)
          rwa [strTrimPre_append] at h2
        rw [esi_single_line_read P "esi auto-derive lacp" _ hTok esiDecode_auto]
        simp [normalizeEsiBlocks]
      · have hal0 : al = false := by simpa using hal
        subst hal0
        by_cases hdf : df = ""
        · subst hdf
          by_cases hidf : idf = ""
          · subst hidf
            by_cases hsb : sb = ""
            · subst hsb
              simp [setIntEsi] at henc
              subst henc
              rw [esi_no_line_read]
              simp [normalizeEsiBlocks]
            · simp [setIntEsi, hsb, String.append_assoc] at henc
              subst henc
              have hfuse : ("esi " : String) ++ ("source-bmac " ++ sb) =
                  "esi source-bmac " ++ sb := by
                rw [← String.append_assoc]
                rfl
              have hTok : intLineOk ("esi " ++ ("source-bmac " ++ sb)) := by
                rw [hfuse]
                have h2 := hok (P ++ ("esi source-bmac " ++ sb)) (by simp [hsb])
                rwa [strTrimPre_append] at h2
              have hgoal : (List.cons (P ++ ("esi source-bmac " ++ sb)) []) =
                  [P ++ ("esi " ++ ("source-bmac " ++ sb))] := by rw [hfuse]
              rw [hgoal, esi_single_line_read P _ _ hTok (esiDecode_bmac sb hTok)]
              simp [normalizeEsiBlocks, hsb]
          · have hsb := hu4 hidf
            subst hsb
            simp [setIntEsi, hidf, String.append_assoc] at henc
            subst henc
            have hTok : intLineOk ("esi " ++ idf) := by
              have h2 := hok (P ++ ("esi " ++ idf)) (by simp [hidf])
              rwa [strTrimPre_append] at h2
            rw [esi_single_line_read P _ _ hTok (esiDecode_ident idf (hident hidf) hTok)]
            simp [normalizeEsiBlocks, hidf]
        · obtain ⟨hidf, hsb⟩ := hu3 hdf
          subst hidf hsb
          simp [setIntEsi, hdf, String.append_assoc] at henc
          subst henc
          have hfuse : ("esi " : String) ++ ("df-election-type " ++ df) =
              "esi df-election-type " ++ df := by
            rw [← String.append_assoc]
            rfl
          have hTok : intLineOk ("esi " ++ ("df-election-type " ++ df)) := by
            rw [hfuse]
            have h2 := hok (P ++ ("esi df-election-type " ++ df)) (by simp [hdf])
            rwa [strTrimPre_append] at h2
          have hgoal : (List.cons (P ++ ("esi df-election-type " ++ df)) []) =
              [P ++ ("esi " ++ ("df-election-type " ++ df))] := by rw [hfuse]
          rw [hgoal, esi_single_line_read P _ _ hTok (esiDecode_df df hTok)]
          simp [normalizeEsiBlocks, hdf]
    · obtain ⟨hal, hdf, hidf, hsb⟩ := hu1 hmo
      subst hal hdf hidf hsb
      simp [setIntEsi, hmo, String.append_assoc] at henc
      subst henc
      have hTok : intLineOk ("esi " ++ mo) := by
        have h2 := hok (P ++ ("esi " ++ mo)) (by simp [hmo])
        rwa [strTrimPre_append] at h2
      rw [esi_single_line_read P _ _ hTok (esiDecode_mode mo (hmode hmo) hTok)]
      simp [normalizeEsiBlocks, hmo]

/-- C2: counterexample to the unrestricted round-trip law.  An esi block
populating both `mode` and `df_election_type` encodes to the single
`esi all-active` statement (the encoder's switch drops the lower-priority
field), so decoding the applied configuration yields a block without the
`df_election_type` value — not the normalization of the original options. -/
theorem claimC2_counterexample :
    setIntEsi "set interfaces eth0 " [some { mode := "all-active", dfElectionType := "mod" }] =
      .ok ["set interfaces eth0 esi all-active"] ∧
    readInterfacePhysical (displaySetRelative "set interfaces eth0 "
        ["set interfaces eth0 esi all-active"]) =
      .ok { esi := [some { mode := "all-active" }] } ∧
    normalizeEsiBlocks [some { mode := "all-active", dfElectionType := "mod" }] ≠
      [some ({ mode := "all-active" } : EsiBlock)] :=
  ⟨rfl, rfl, by decide⟩

theorem intStep_noop : ∀ (st : InterfacePhysicalOptions) (rest : List String),
    readInterfacePhysicalLoop st (("set " ++ "") :: rest) = readInterfacePhysicalLoop st rest :=
  fun _ _ => rfl

theorem intStep_trunk : ∀ (st : InterfacePhysicalOptions) (rest : List String),
    readInterfacePhysicalLoop st
      (("set " ++ "unit 0 family ethernet-switching interface-mode trunk") :: rest) =
    readInterfacePhysicalLoop { st with trunk := true } rest :=
  fun _ _ => rfl

theorem intStep_tag : ∀ (st : InterfacePhysicalOptions) (rest : List String),
    readInterfacePhysicalLoop st (("set " ++ "vlan-tagging") :: rest) =
    readInterfacePhysicalLoop { st with vlanTagging := true } rest :=
  fun _ _ => rfl

theorem intStep_lacp (v : String) (hok : intLineOk ("aggregated-ether-options lacp " ++ v)) :
    ∀ (st : InterfacePhysicalOptions) (rest : List String),
      readInterfacePhysicalLoop st
        (("set " ++ ("aggregated-ether-options lacp " ++ v)) :: rest) =
      readInterfacePhysicalLoop { st with aeLacp := v } rest := by
  intro st rest
  obtain ⟨-, hu, ho, hc⟩ := hok
  have h1 : strStartsWith ("aggregated-ether-options lacp " ++ v)
      "aggregated-ether-options lacp " = true := strStartsWith_self_append _ _
  simp [readInterfacePhysicalLoop, hu, ho, hc, strTrimPre_set, h1, strTrimPre_append]

theorem intStep_speed (v : String)
    (hok : intLineOk ("aggregated-ether-options link-speed " ++ v)) :
    ∀ (st : InterfacePhysicalOptions) (rest : List String),
      readInterfacePhysicalLoop st
        (("set " ++ ("aggregated-ether-options link-speed " ++ v)) :: rest) =
      readInterfacePhysicalLoop { st with aeLinkSpeed := v } rest := by
  intro st rest
  obtain ⟨-, hu, ho, hc⟩ := hok
  have h1 : strStartsWith ("aggregated-ether-options link-speed " ++ v)
      "aggregated-ether-options lacp " = false :=
    strStartsWith_append_false _ (by decide) (by decide)
  have h2 : strStartsWith ("aggregated-ether-options link-speed " ++ v)
      "aggregated-ether-options link-speed " = true := strStartsWith_self_append _ _
  simp [readInterfacePhysicalLoop, hu, ho, hc, strTrimPre_set, h1, h2, strTrimPre_append]

theorem intStep_minlink (n : Int)
    (hok : intLineOk ("aggregated-ether-options minimum-links " ++ itoa n)) :
    ∀ (st : InterfacePhysicalOptions) (rest : List String),
      readInterfacePhysicalLoop st
        (("set " ++ ("aggregated-ether-options minimum-links " ++ itoa n)) :: rest) =
      readInterfacePhysicalLoop { st with aeMinLink := n } rest := by
  intro st rest
  obtain ⟨-, hu, ho, hc⟩ := hok
  have h1 : strStartsWith ("aggregated-ether-options minimum-links " ++ itoa n)
      "aggregated-ether-options lacp " = false :=
    strStartsWith_append_false _ (by decide) (by decide)
  have h2 : strStartsWith ("aggregated-ether-options minimum-links " ++ itoa n)
      "aggregated-ether-options link-speed " = false :=
    strStartsWith_append_false _ (by decide) (by decide)
  have h3 : strStartsWith ("aggregated-ether-options minimum-links " ++ itoa n)
      "aggregated-ether-options minimum-links " = true := strStartsWith_self_append _ _
  simp [readInterfacePhysicalLoop, hu, ho, hc, strTrimPre_set, h1, h2, h3, strTrimPre_append,
    atoi_itoa]

theorem intStep_desc (v : String) (hok : intLineOk ("description \"" ++ (v ++ "\"")))
    (hq : quoteSafe v) :
    ∀ (st : InterfacePhysicalOptions) (rest : List String),
      readInterfacePhysicalLoop st (("set " ++ ("description \"" ++ (v ++ "\""))) :: rest) =
      readInterfacePhysicalLoop { st with description := v } rest := by
  intro st rest
  obtain ⟨-, hu, ho, hc⟩ := hok
  have h1 : strStartsWith ("description \"" ++ (v ++ "\""))
      "aggregated-ether-options lacp " = false :=
    strStartsWith_append_false _ (by decide) (by decide)
  have h2 : strStartsWith ("description \"" ++ (v ++ "\""))
      "aggregated-ether-options link-speed " = false :=
    strStartsWith_append_false _ (by decide) (by decide)
  have h3 : strStartsWith ("description \"" ++ (v ++ "\""))
      "aggregated-ether-options minimum-links " = false :=
    strStartsWith_append_false _ (by decide) (by decide)
  have h4 : strStartsWith ("description \"" ++ (v ++ "\"")) "description " = true :=
    strStartsWith_append_of _ (by decide)
  have hsplit : ("description \"" : String) ++ (v ++ "\"") =
      "description " ++ ("\"" ++ (v ++ "\"")) := by
    rw [show ("description \"" : String) = "description " ++ "\"" from rfl, String.append_assoc]
  have htrim : strTrimPre ("description \"" ++ (v ++ "\"")) "description " =
      "\"" ++ (v ++ "\"") := by
    rw [hsplit, strTrimPre_append]
  simp [readInterfacePhysicalLoop, hu, ho, hc, strTrimPre_set, h1, h2, h3, h4, htrim,
    strTrimQuotes_wrap v hq.1 hq.2]

theorem intStep_esi (X : String) (hok : intLineOk ("esi " ++ X)) :
    ∀ (st : InterfacePhysicalOptions) (rest : List String),
      readInterfacePhysicalLoop st (("set " ++ ("esi " ++ X)) :: rest) =
      readInterfacePhysicalLoop (readIntEsi st ("esi " ++ X)) rest := by
  intro st rest
  obtain ⟨-, hu, ho, hc⟩ := hok
  have h1 : strStartsWith ("esi " ++ X) "aggregated-ether-options lacp " = false :=
    strStartsWith_append_false _ (by decide) (by decide)
  have h2 : strStartsWith ("esi " ++ X) "aggregated-ether-options link-speed " = false :=
    strStartsWith_append_false _ (by decide) (by decide)
  have h3 : strStartsWith ("esi " ++ X) "aggregated-ether-options minimum-links " = false :=
    strStartsWith_append_false _ (by decide) (by decide)
  have h4 : strStartsWith ("esi " ++ X) "description " = false :=
    strStartsWith_append_false _ (by decide) (by decide)
  have h5 : strStartsWith ("esi " ++ X) "esi " = true := strStartsWith_self_append _ _
  simp [readInterfacePhysicalLoop, hu, ho, hc, strTrimPre_set, h1, h2, h3, h4, h5]

theorem intStep_ether (v : String) (hok : intLineOk ("ether-options 802.3ad " ++ v)) :
    ∀ (st : InterfacePhysicalOptions) (rest : List String),
      readInterfacePhysicalLoop st (("set " ++ ("ether-options 802.3ad " ++ v)) :: rest) =
      readInterfacePhysicalLoop { st with v8023ad := v } rest := by
  intro st rest
  obtain ⟨-, hu, ho, hc⟩ := hok
  have h1 : strStartsWith ("ether-options 802.3ad " ++ v)
      "aggregated-ether-options lacp " = false :=
    strStartsWith_append_false _ (by decide) (by decide)
  have h2 : strStartsWith ("ether-options 802.3ad " ++ v)
      "aggregated-ether-options link-speed " = false :=
    strStartsWith_append_false _ (by decide) (by decide)
  have h3 : strStartsWith ("ether-options 802.3ad " ++ v)
      "aggregated-ether-options minimum-links " = false :=
    strStartsWith_append_false _ (by decide) (by decide)
  have h4 : strStartsWith ("ether-options 802.3ad " ++ v) "description " = false :=
    strStartsWith_append_false _ (by decide) (by decide)
  have h5 : strStartsWith ("ether-options 802.3ad " ++ v) "esi " = false :=
    strStartsWith_append_false _ (by decide) (by decide)
  have h6 : strStartsWith ("ether-options 802.3ad " ++ v) "ether-options 802.3ad " = true :=
    strStartsWith_self_append _ _
  simp [readInterfacePhysicalLoop, hu, ho, hc, strTrimPre_set, h1, h2, h3, h4, h5, h6,
    strTrimPre_append]

theorem intStep_gigether (v : String) (hok : intLineOk ("gigether-options 802.3ad " ++ v)) :
    ∀ (st : InterfacePhysicalOptions) (rest : List String),
      readInterfacePhysicalLoop st (("set " ++ ("gigether-options 802.3ad " ++ v)) :: rest) =
      readInterfacePhysicalLoop { st with v8023ad := v } rest := by
  intro st rest
  obtain ⟨-, hu, ho, hc⟩ := hok
  have h1 : strStartsWith ("gigether-options 802.3ad " ++ v)
      "aggregated-ether-options lacp " = false :=
    strStartsWith_append_false _ (by decide) (by decide)
  have h2 : strStartsWith ("gigether-options 802.3ad " ++ v)
      "aggregated-ether-options link-speed " = false :=
    strStartsWith_append_false _ (by decide) (by decide)
  have h3 : strStartsWith ("gigether-options 802.3ad " ++ v)
      "aggregated-ether-options minimum-links " = false :=
    strStartsWith_append_false _ (by decide) (by decide)
  have h4 : strStartsWith ("gigether-options 802.3ad " ++ v) "description " = false :=
    strStartsWith_append_false _ (by decide) (by decide)
  have h5 : strStartsWith ("gigether-options 802.3ad " ++ v) "esi " = false :=
    strStartsWith_append_false _ (by decide) (by decide)
  have h6 : strStartsWith ("gigether-options 802.3ad " ++ v) "ether-options 802.3ad " = false :=
    strStartsWith_append_false _ (by decide) (by decide)
  have h7 : strStartsWith ("gigether-options 802.3ad " ++ v)
      "gigether-options 802.3ad " = true := strStartsWith_self_append _ _
  simp [readInterfacePhysicalLoop, hu, ho, hc, strTrimPre_set, h1, h2, h3, h4, h5, h6, h7,
    strTrimPre_append]

theorem intStep_native (n : Int) (hok : intLineOk ("native-vlan-id " ++ itoa n)) :
    ∀ (st : InterfacePhysicalOptions) (rest : List String),
      readInterfacePhysicalLoop st (("set " ++ ("native-vlan-id " ++ itoa n)) :: rest) =
      readInterfacePhysicalLoop { st with vlanNative := n } rest := by
  intro st rest
  obtain ⟨-, hu, ho, hc⟩ := hok
  have h1 : strStartsWith ("native-vlan-id " ++ itoa n)
      "aggregated-ether-options lacp " = false :=
    strStartsWith_append_false _ (by decide) (by decide)
  have h2 : strStartsWith ("native-vlan-id " ++ itoa n)
      "aggregated-ether-options link-speed " = false :=
    strStartsWith_append_false _ (by decide) (by decide)
  have h3 : strStartsWith ("native-vlan-id " ++ itoa n)
      "aggregated-ether-options minimum-links " = false :=
    strStartsWith_append_false _ (by decide) (by decide)
  have h4 : strStartsWith ("native-vlan-id " ++ itoa n) "description " = false :=
    strStartsWith_append_false _ (by decide) (by decide)
  have h5 : strStartsWith ("native-vlan-id " ++ itoa n) "esi " = false :=
    strStartsWith_append_false _ (by decide) (by decide)
  have h6 : strStartsWith ("native-vlan-id " ++ itoa n) "ether-options 802.3ad " = false :=
    strStartsWith_append_false _ (by decide) (by decide)
  have h7 : strStartsWith ("native-vlan-id " ++ itoa n) "gigether-options 802.3ad " = false :=
    strStartsWith_append_false _ (by decide) (by decide)
  have h8 : strStartsWith ("native-vlan-id " ++ itoa n) "native-vlan-id" = true :=
    strStartsWith_append_of _ (by decide)
  simp [readInterfacePhysicalLoop, hu, ho, hc, strTrimPre_set, h1, h2, h3, h4, h5, h6, h7, h8,
    strTrimPre_append, atoi_itoa]

theorem intStep_member (v : String)
    (hok : intLineOk ("unit 0 family ethernet-switching vlan members " ++ v)) :
    ∀ (st : InterfacePhysicalOptions) (rest : List String),
      readInterfacePhysicalLoop st
        (("set " ++ ("unit 0 family ethernet-switching vlan members " ++ v)) :: rest) =
      readInterfacePhysicalLoop { st with vlanMembers := st.vlanMembers ++ [v] } rest := by
  intro st rest
  obtain ⟨-, hu, ho, hc⟩ := hok
  have h1 : strStartsWith ("unit 0 family ethernet-switching vlan members " ++ v)
      "aggregated-ether-options lacp " = false :=
    strStartsWith_append_false _ (by decide) (by decide)
  have h2 : strStartsWith ("unit 0 family ethernet-switching vlan members " ++ v)
      "aggregated-ether-options link-speed " = false :=
    strStartsWith_append_false _ (by decide) (by decide)
  have h3 : strStartsWith ("unit 0 family ethernet-switching vlan members " ++ v)
      "aggregated-ether-options minimum-links " = false :=
    strStartsWith_append_false _ (by decide) (by decide)
  have h4 : strStartsWith ("unit 0 family ethernet-switching vlan members " ++ v)
      "description " = false :=
    strStartsWith_append_false _ (by decide) (by decide)
  have h5 : strStartsWith ("unit 0 family ethernet-switching vlan members " ++ v)
      "esi " = false :=
    strStartsWith_append_false _ (by decide) (by decide)
  have h6 : strStartsWith ("unit 0 family ethernet-switching vlan members " ++ v)
      "ether-options 802.3ad " = false :=
    strStartsWith_append_false _ (by decide) (by decide)
  have h7 : strStartsWith ("unit 0 family ethernet-switching vlan members " ++ v)
      "gigether-options 802.3ad " = false :=
    strStartsWith_append_false _ (by decide) (by decide)
  have h8 : strStartsWith ("unit 0 family ethernet-switching vlan members " ++ v)
      "native-vlan-id" = false :=
    strStartsWith_append_false _ (by decide) (by decide)
  have h9 : ("unit 0 family ethernet-switching vlan members " ++ v) ≠
      "unit 0 family ethernet-switching interface-mode trunk" :=
    append_ne_of_startsWith_false _ (by decide)
  have h10 : strStartsWith ("unit 0 family ethernet-switching vlan members " ++ v)
      "unit 0 family ethernet-switching vlan members" = true :=
    strStartsWith_append_of _ (by decide)
  simp [readInterfacePhysicalLoop, hu, ho, hc, strTrimPre_set, h1, h2, h3, h4, h5, h6, h7, h8,
    h9, h10, strTrimPre_append]

theorem intLoop_cond_chunk (c : Prop) [Decidable c] (l : String) (R : List String)
    (st : InterfacePhysicalOptions) (g : InterfacePhysicalOptions → InterfacePhysicalOptions)
    (hstep : c → ∀ s rest, readInterfacePhysicalLoop s (l :: rest) =
      readInterfacePhysicalLoop (g s) rest) :
    readInterfacePhysicalLoop st ((if c then [l] else []) ++ R) =
      readInterfacePhysicalLoop (if c then g st else st) R := by
  by_cases hc : c
  · simp [hc, hstep hc]
  · simp [hc]

theorem intChunk_lacp (c : Prop) [Decidable c] (v : String) (R : List String)
    (st : InterfacePhysicalOptions)
    (hstep : c → ∀ s rest, readInterfacePhysicalLoop s
      (("set " ++ ("aggregated-ether-options lacp " ++ v)) :: rest) =
      readInterfacePhysicalLoop { s with aeLacp := v } rest) :
    readInterfacePhysicalLoop st
      ((if c then ["set " ++ ("aggregated-ether-options lacp " ++ v)] else []) ++ R) =
      readInterfacePhysicalLoop { st with aeLacp := if c then v else st.aeLacp } R := by
  by_cases hc : c
  · simp [hc, hstep hc]
  · simp [hc]

theorem intChunk_speed (c : Prop) [Decidable c] (v : String) (R : List String)
    (st : InterfacePhysicalOptions)
    (hstep : c → ∀ s rest, readInterfacePhysicalLoop s
      (("set " ++ ("aggregated-ether-options link-speed " ++ v)) :: rest) =
      readInterfacePhysicalLoop { s with aeLinkSpeed := v } rest) :
    readInterfacePhysicalLoop st
      ((if c then ["set " ++ ("aggregated-ether-options link-speed " ++ v)] else []) ++ R) =
      readInterfacePhysicalLoop { st with aeLinkSpeed := if c then v else st.aeLinkSpeed } R := by
  by_cases hc : c
  · simp [hc, hstep hc]
  · simp [hc]

theorem intChunk_minlink (c : Prop) [Decidable c] (n : Int) (R : List String)
    (st : InterfacePhysicalOptions)
    (hstep : c → ∀ s rest, readInterfacePhysicalLoop s
      (("set " ++ ("aggregated-ether-options minimum-links " ++ itoa n)) :: rest) =
      readInterfacePhysicalLoop { s with aeMinLink := n } rest) :
    readInterfacePhysicalLoop st
      ((if c then ["set " ++ ("aggregated-ether-options minimum-links " ++ itoa n)]
        else []) ++ R) =
      readInterfacePhysicalLoop { st with aeMinLink := if c then n else st.aeMinLink } R := by
  by_cases hc : c
  · simp [hc, hstep hc]
  · simp [hc]

theorem intChunk_desc (c : Prop) [Decidable c] (v : String) (R : List String)
    (st : InterfacePhysicalOptions)
    (hstep : c → ∀ s rest, readInterfacePhysicalLoop s
      (("set " ++ ("description \"" ++ (v ++ "\""))) :: rest) =
      readInterfacePhysicalLoop { s with description := v } rest) :
    readInterfacePhysicalLoop st
      ((if c then ["set " ++ ("description \"" ++ (v ++ "\""))] else []) ++ R) =
      readInterfacePhysicalLoop { st with description := if c then v else st.description } R := by
  by_cases hc : c
  · simp [hc, hstep hc]
  · simp [hc]

theorem intChunk_8023ad (c : Prop) [Decidable c] (v : String) (R : List String)
    (st : InterfacePhysicalOptions)
    (h1 : c → ∀ s rest, readInterfacePhysicalLoop s
      (("set " ++ ("ether-options 802.3ad " ++ v)) :: rest) =
      readInterfacePhysicalLoop { s with v8023ad := v } rest)
    (h2 : c → ∀ s rest, readInterfacePhysicalLoop s
      (("set " ++ ("gigether-options 802.3ad " ++ v)) :: rest) =
      readInterfacePhysicalLoop { s with v8023ad := v } rest) :
    readInterfacePhysicalLoop st
      ((if c then ["set " ++ ("ether-options 802.3ad " ++ v),
          "set " ++ ("gigether-options 802.3ad " ++ v)] else []) ++ R) =
      readInterfacePhysicalLoop { st with v8023ad := if c then v else st.v8023ad } R := by
  by_cases hc : c
  · simp [hc, h1 hc, h2 hc]
  · simp [hc]

theorem intChunk_trunk (c : Prop) [Decidable c] (R : List String)
    (st : InterfacePhysicalOptions) :
    readInterfacePhysicalLoop st
      ((if c then ["set " ++ "unit 0 family ethernet-switching interface-mode trunk"]
        else []) ++ R) =
      readInterfacePhysicalLoop { st with trunk := if c then true else st.trunk } R := by
  by_cases hc : c
  · rw [if_pos hc, List.singleton_append, intStep_trunk]
    simp [hc]
  · simp [hc]

theorem intChunk_native (c : Prop) [Decidable c] (n : Int) (R : List String)
    (st : InterfacePhysicalOptions)
    (hstep : c → ∀ s rest, readInterfacePhysicalLoop s
      (("set " ++ ("native-vlan-id " ++ itoa n)) :: rest) =
      readInterfacePhysicalLoop { s with vlanNative := n } rest) :
    readInterfacePhysicalLoop st
      ((if c then ["set " ++ ("native-vlan-id " ++ itoa n)] else []) ++ R) =
      readInterfacePhysicalLoop { st with vlanNative := if c then n else st.vlanNative } R := by
  by_cases hc : c
  · simp [hc, hstep hc]
  · simp [hc]

theorem intChunk_tag (c : Prop) [Decidable c] (R : List String)
    (st : InterfacePhysicalOptions) :
    readInterfacePhysicalLoop st ((if c then ["set " ++ "vlan-tagging"] else []) ++ R) =
      readInterfacePhysicalLoop { st with vlanTagging := if c then true else st.vlanTagging }
        R := by
  by_cases hc : c
  · rw [if_pos hc, List.singleton_append, intStep_tag]
    simp [hc]
  · simp [hc]

theorem intLoop_members (vs : List String)
    (hoks : ∀ v ∈ vs, intLineOk ("unit 0 family ethernet-switching vlan members " ++ v)) :
    ∀ (st : InterfacePhysicalOptions) (rest : List String),
      readInterfacePhysicalLoop st
        ((vs.map (fun v => "set " ++ ("unit 0 family ethernet-switching vlan members " ++ v)))
          ++ rest) =
      readInterfacePhysicalLoop { st with vlanMembers := st.vlanMembers ++ vs } rest := by
  induction vs with
  | nil =>
    intro st rest
    simp
  | cons v vs ih =>
    intro st rest
    rw [List.map_cons, List.cons_append,
      intStep_member v (hoks v (List.mem_cons_self _ _)),
      ih (fun u hu => hoks u (List.mem_cons_of_mem _ hu))]
    simp

theorem esiRead_mode (m : String) (hm : m = "all-active" ∨ m = "single-active") :
    readIntEsi {} ("esi " ++ m) = { esi := [some { mode := m }] } := by
  have him : esiIdentMatch m = false := by
    rcases hm with rfl | rfl <;> decide
  have hmm : (m = "all-active" || m = "single-active") = true := by
    rcases hm with rfl | rfl <;> decide
  simp [readIntEsi, strTrimPre_append, him, hmm, modifyFirstSome]

theorem esiRead_auto : readIntEsi {} "esi auto-derive lacp" =
    { esi := [some { autoDeriveLacp := true }] } := rfl

theorem esiRead_df (v : String) : readIntEsi {} ("esi " ++ ("df-election-type " ++ v)) =
    { esi := [some { dfElectionType := v }] } := by
  have hne1 : ("df-election-type " ++ v) ≠ "all-active" :=
    append_ne_of_startsWith_false _ (by decide)
  have hne2 : ("df-election-type " ++ v) ≠ "single-active" :=
    append_ne_of_startsWith_false _ (by decide)
  have hdf : strStartsWith ("df-election-type " ++ v) "df-election-type " = true :=
    strStartsWith_self_append _ _
  simp [readIntEsi, strTrimPre_append, esiIdentMatch_df, hne1, hne2, hdf, modifyFirstSome]

theorem esiRead_ident (v : String) (hv : esiIdentMatch v = true) :
    readIntEsi {} ("esi " ++ v) = { esi := [some { identifier := v }] } := by
  simp [readIntEsi, strTrimPre_append, hv, modifyFirstSome]

theorem esiRead_bmac (v : String) : readIntEsi {} ("esi " ++ ("source-bmac " ++ v)) =
    { esi := [some { sourceBmac := v }] } := by
  have hne1 : ("source-bmac " ++ v) ≠ "all-active" :=
    append_ne_of_startsWith_false _ (by decide)
  have hne2 : ("source-bmac " ++ v) ≠ "single-active" :=
    append_ne_of_startsWith_false _ (by decide)
  have hdf : strStartsWith ("source-bmac " ++ v) "df-election-type " = false :=
    strStartsWith_append_false _ (by decide) (by decide)
  have hsb : strStartsWith ("source-bmac " ++ v) "source-bmac " = true :=
    strStartsWith_self_append _ _
  simp [readIntEsi, strTrimPre_append, esiIdentMatch_bmac, hne1, hne2, hdf, hsb, modifyFirstSome]

set_option maxHeartbeats 1000000 in
theorem intRest_decode (o : InterfacePhysicalOptions)
    (hk1 : o.aeLacp ≠ "" → intLineOk ("aggregated-ether-options lacp " ++ o.aeLacp))
    (hk2 : o.aeLinkSpeed ≠ "" → intLineOk ("aggregated-ether-options link-speed " ++
      o.aeLinkSpeed))
    (hk3 : 0 < o.aeMinLink → intLineOk ("aggregated-ether-options minimum-links " ++
      itoa o.aeMinLink))
    (hk4 : o.description ≠ "" → intLineOk ("description \"" ++ (o.description ++ "\"")))
    (hq : quoteSafe o.description)
    (hk5 : o.v8023ad ≠ "" → intLineOk ("ether-options 802.3ad " ++ o.v8023ad))
    (hk6 : o.v8023ad ≠ "" → intLineOk ("gigether-options 802.3ad " ++ o.v8023ad))
    (hk7 : o.vlanNative ≠ 0 → intLineOk ("native-vlan-id " ++ itoa o.vlanNative))
    (hk8 : ∀ v ∈ o.vlanMembers,
      intLineOk ("unit 0 family ethernet-switching vlan members " ++ v)) :
    ∀ E : List (Option EsiBlock),
      readInterfacePhysicalLoop { esi := E }
        (("set " ++ "") ::
          ((if o.aeLacp ≠ "" then ["set " ++ ("aggregated-ether-options lacp " ++ o.aeLacp)]
            else []) ++
           ((if o.aeLinkSpeed ≠ "" then
              ["set " ++ ("aggregated-ether-options link-speed " ++ o.aeLinkSpeed)] else []) ++
            ((if 0 < o.aeMinLink then
              ["set " ++ ("aggregated-ether-options minimum-links " ++ itoa o.aeMinLink)]
              else []) ++
             ((if o.description ≠ "" then
              ["set " ++ ("description \"" ++ (o.description ++ "\""))] else []) ++
              ((if o.v8023ad ≠ "" then ["set " ++ ("ether-options 802.3ad " ++ o.v8023ad),
                  "set " ++ ("gigether-options 802.3ad " ++ o.v8023ad)] else []) ++
               ((if o.trunk then
                  ["set " ++ "unit 0 family ethernet-switching interface-mode trunk"]
                  else []) ++
                ((o.vlanMembers.map (fun v =>
                    "set " ++ ("unit 0 family ethernet-switching vlan members " ++ v))) ++
                 ((if o.vlanNative ≠ 0 then ["set " ++ ("native-vlan-id " ++ itoa o.vlanNative)]
                    else []) ++
                  (if o.vlanTagging then ["set " ++ "vlan-tagging"] else [])))))))))) =
      .ok { trunk := o.trunk, vlanTagging := o.vlanTagging, aeMinLink := (if 0 < o.aeMinLink then o.aeMinLink else 0), vlanNative := o.vlanNative, aeLacp := o.aeLacp, aeLinkSpeed := o.aeLinkSpeed, description := o.description, v8023ad := o.v8023ad, vlanMembers := o.vlanMembers, esi := E } := by
  intro E
  rw [intStep_noop]
  rw [intChunk_lacp _ _ _ _ (fun hc => intStep_lacp _ (hk1 hc))]
  simp only []
  rw [intChunk_speed _ _ _ _ (fun hc => intStep_speed _ (hk2 hc))]
  simp only []
  rw [intChunk_minlink _ _ _ _ (fun hc => intStep_minlink _ (hk3 hc))]
  simp only []
  rw [intChunk_desc _ _ _ _ (fun hc => intStep_desc _ (hk4 hc) hq)]
  simp only []
  rw [intChunk_8023ad _ _ _ _ (fun hc => intStep_ether _ (hk5 hc))
      (fun hc => intStep_gigether _ (hk6 hc))]
  simp only []
  rw [intChunk_trunk]
  simp only []
  rw [intLoop_members _ hk8]
  simp only []
  rw [intChunk_native _ _ _ _ (fun hc => intStep_native _ (hk7 hc))]
  simp only []
  by_cases htag : o.vlanTagging = true
  · rw [if_pos htag, intStep_tag, readInterfacePhysicalLoop]
    simp only [Except.ok.injEq, InterfacePhysicalOptions.mk.injEq]
    refine ⟨?_, ?_, ?_, ?_, ?_, ?_, ?_, ?_, ?_, ?_⟩ <;>
      first
        | rfl
        | trivial
        | (split <;> simp_all)
        | simp [htag]
  · rw [if_neg htag, readInterfacePhysicalLoop]
    simp only [Except.ok.injEq, InterfacePhysicalOptions.mk.injEq]
    refine ⟨?_, ?_, ?_, ?_, ?_, ?_, ?_, ?_, ?_, ?_⟩ <;>
      first
        | rfl
        | trivial
        | (split <;> simp_all)
        | (simp at htag
           simp [htag])

theorem esiPayload (P : String) (bs : List (Option EsiBlock))
    (hbs : bs = [] ∨ ∃ b, bs = [some b] ∧ cleanEsiBlock b) :
    ∃ EL, setIntEsi P bs = .ok EL ∧
      List.filter (fun l => strStartsWith l P) EL = EL ∧
      (∀ rest : List String, (∀ l ∈ EL, intLineOk (strTrimPre l P)) →
        readInterfacePhysicalLoop {} ((EL.map (fun l => "set " ++ strTrimPre l P)) ++ rest) =
        readInterfacePhysicalLoop { esi := normalizeEsiBlocks bs } rest) := by
  rcases hbs with rfl | ⟨b, rfl, hclean⟩
  · exact ⟨[], rfl, rfl, fun rest _ => rfl⟩
  · obtain ⟨mo, al, df, idf, sb⟩ := b
    obtain ⟨hcount, hmode, hident⟩ := hclean
    obtain ⟨hu1, hu2, hu3, hu4⟩ := cleanEsi_unique mo al df idf sb hcount
    by_cases hmo : mo = ""
    · subst hmo
      by_cases hal : al = true
      · subst hal
        obtain ⟨hdf, hidf, hsb⟩ := hu2 rfl
        subst hdf hidf hsb
        refine ⟨[P ++ "esi auto-derive lacp"], by simp [setIntEsi], ?_, ?_⟩
        · simp [List.filter, strStartsWith_self_append]
        · intro rest hok
          rw [List.map_cons, List.map_nil, strTrimPre_append, List.cons_append,
            List.nil_append]
          have hTok : intLineOk "esi auto-derive lacp" := by
            have h2 := hok (P ++ "esi auto-derive lacp") (List.mem_singleton.mpr rfl)
            rwa [strTrimPre_append] at h2
          rw [show ("esi auto-derive lacp" : String) = "esi " ++ "auto-derive lacp" from rfl]
            at hTok ⊢
          rw [intStep_esi _ hTok, show ("esi " : String) ++ "auto-derive lacp" =
            "esi auto-derive lacp" from rfl, esiRead_auto]
          simp [normalizeEsiBlocks]
      · have hal0 : al = false := by simpa using hal
        subst hal0
        by_cases hdf : df = ""
        · subst hdf
          by_cases hidf : idf = ""
          · subst hidf
            by_cases hsb : sb = ""
            · subst hsb
              exact ⟨[], by simp [setIntEsi], rfl, fun rest _ => by
                simp [normalizeEsiBlocks]⟩
            · refine ⟨[P ++ "esi source-bmac " ++ sb], by simp [setIntEsi, hsb], ?_, ?_⟩
              · have hsw : strStartsWith (P ++ "esi source-bmac " ++ sb) P = true := by
                  rw [String.append_assoc]
                  exact strStartsWith_self_append _ _
                simp [List.filter, hsw]
              · intro rest hok
                have hfuse : ("esi " : String) ++ ("source-bmac " ++ sb) =
                    "esi source-bmac " ++ sb := by
                  rw [← String.append_assoc]
                  rfl
                have hTok : intLineOk ("esi " ++ ("source-bmac " ++ sb)) := by
                  rw [hfuse]
                  have h2 := hok (P ++ "esi source-bmac " ++ sb)
                    (List.mem_singleton.mpr rfl)
                  rwa [String.append_assoc, strTrimPre_append] at h2
                rw [List.map_cons, List.map_nil, String.append_assoc, strTrimPre_append,
                  List.cons_append, List.nil_append, ← hfuse, intStep_esi _ hTok,
                  esiRead_bmac]
                simp [normalizeEsiBlocks, hsb]
          · have hsb := hu4 hidf
            subst hsb
            refine ⟨[P ++ "esi " ++ idf], by simp [setIntEsi, hidf], ?_, ?_⟩
            · have hsw : strStartsWith (P ++ "esi " ++ idf) P = true := by
                rw [String.append_assoc]
                exact strStartsWith_self_append _ _
              simp [List.filter, hsw]
            · intro rest hok
              have hTok : intLineOk ("esi " ++ idf) := by
                have h2 := hok (P ++ "esi " ++ idf) (List.mem_singleton.mpr rfl)
                rwa [String.append_assoc, strTrimPre_append] at h2
              rw [List.map_cons, List.map_nil, String.append_assoc, strTrimPre_append,
                List.cons_append, List.nil_append, intStep_esi _ hTok,
                esiRead_ident idf (hident hidf)]
              simp [normalizeEsiBlocks, hidf]
        · obtain ⟨hidf, hsb⟩ := hu3 hdf
          subst hidf hsb
          refine ⟨[P ++ "esi df-election-type " ++ df], by simp [setIntEsi, hdf], ?_, ?_⟩
          · have hsw : strStartsWith (P ++ "esi df-election-type " ++ df) P = true := by
              rw [String.append_assoc]
              exact strStartsWith_self_append _ _
            simp [List.filter, hsw]
          · intro rest hok
            have hfuse : ("esi " : String) ++ ("df-election-type " ++ df) =
                "esi df-election-type " ++ df := by
              rw [← String.append_assoc]
              rfl
            have hTok : intLineOk ("esi " ++ ("df-election-type " ++ df)) := by
              rw [hfuse]
              have h2 := hok (P ++ "esi df-election-type " ++ df)
                (List.mem_singleton.mpr rfl)
              rwa [String.append_assoc, strTrimPre_append] at h2
            rw [List.map_cons, List.map_nil, String.append_assoc, strTrimPre_append,
              List.cons_append, List.nil_append, ← hfuse, intStep_esi _ hTok,
              esiRead_df]
            simp [normalizeEsiBlocks, hdf]
    · obtain ⟨hal, hdf, hidf, hsb⟩ := hu1 hmo
      subst hal hdf hidf hsb
      refine ⟨[P ++ "esi " ++ mo], by simp [setIntEsi, hmo], ?_, ?_⟩
      · have hsw : strStartsWith (P ++ "esi " ++ mo) P = true := by
          rw [String.append_assoc]
          exact strStartsWith_self_append _ _
        simp [List.filter, hsw]
      · intro rest hok
        have hTok : intLineOk ("esi " ++ mo) := by
          have h2 := hok (P ++ "esi " ++ mo) (List.mem_singleton.mpr rfl)
          rwa [String.append_assoc, strTrimPre_append] at h2
        rw [List.map_cons, List.map_nil, String.append_assoc, strTrimPre_append,
          List.cons_append, List.nil_append, intStep_esi _ hTok,
          esiRead_mode mo (hmode hmo)]
        simp [normalizeEsiBlocks, hmo]

theorem startsWith_chassis_false (name cnt : String) :
    strStartsWith ("set chassis aggregated-devices ethernet device-count " ++ cnt)
      ("set interfaces " ++ name ++ " ") = false := by
  cases h : strStartsWith ("set chassis aggregated-devices ethernet device-count " ++ cnt)
      ("set interfaces " ++ name ++ " ") with
  | false => rfl
  | true =>
    have hpq : ("set interfaces " : String).data.isPrefixOf
        ("set interfaces " ++ name ++ " ").data = true := by
      rw [String.data_append, String.data_append, List.append_assoc,
        List.isPrefixOf_iff_prefix]
      exact List.prefix_append _ _
    have h2 := strStartsWith_weaken "set interfaces " h hpq
    have h3 : strStartsWith ("set chassis aggregated-devices ethernet device-count " ++ cnt)
        "set interfaces " = false := strStartsWith_append_false _ (by decide) (by decide)
    simp [h2] at h3

theorem setIP_ok_shape (name oldAE showConf : String) (o : InterfacePhysicalOptions)
    (stmts : List String)
    (henc : setInterfacePhysical name oldAE o showConf = .ok stmts) :
    ∃ EL AGG, setIntEsi ("set interfaces " ++ name ++ " ") o.esi = .ok EL ∧
      stmts = EL ++ ["set interfaces " ++ name ++ " "] ++
        (if o.aeLacp ≠ "" then ["set interfaces " ++ name ++ " " ++
          "aggregated-ether-options lacp " ++ o.aeLacp] else []) ++
        (if o.aeLinkSpeed ≠ "" then ["set interfaces " ++ name ++ " " ++
          "aggregated-ether-options link-speed " ++ o.aeLinkSpeed] else []) ++
        (if 0 < o.aeMinLink then ["set interfaces " ++ name ++ " " ++
          "aggregated-ether-options minimum-links " ++ itoa o.aeMinLink] else []) ++
        (if o.description ≠ "" then ["set interfaces " ++ name ++ " " ++
          "description \"" ++ o.description ++ "\""] else []) ++
        AGG ++
        (if o.trunk = true then ["set interfaces " ++ name ++ " " ++
          "unit 0 family ethernet-switching interface-mode trunk"] else []) ++
        (List.map (fun v => "set interfaces " ++ name ++ " " ++
          "unit 0 family ethernet-switching vlan members " ++ v) o.vlanMembers) ++
        (if o.vlanNative ≠ 0 then ["set interfaces " ++ name ++ " " ++
          "native-vlan-id " ++ itoa o.vlanNative] else []) ++
        (if o.vlanTagging = true then ["set interfaces " ++ name ++ " " ++ "vlan-tagging"]
          else []) ∧
      (strStartsWith name "ae" = true → ∃ cnt,
        AGG = ["set chassis aggregated-devices ethernet device-count " ++ cnt]) ∧
      (strStartsWith name "ae" = false → o.v8023ad ≠ "" → ∃ cnt,
        AGG = ["set interfaces " ++ name ++ " " ++ "ether-options 802.3ad " ++ o.v8023ad,
          "set interfaces " ++ name ++ " " ++ "gigether-options 802.3ad " ++ o.v8023ad,
          "set chassis aggregated-devices ethernet device-count " ++ cnt]) ∧
      (strStartsWith name "ae" = false → o.v8023ad = "" → AGG = []) := by
  simp only [setInterfacePhysical] at henc
  by_cases h4 : strStartsWith name "ae" = true
  · by_cases h1 : o.aeLacp = "" <;> by_cases h2 : o.aeLinkSpeed = "" <;>
      by_cases h3 : 0 < o.aeMinLink <;>
    · simp [h1, h2, h3, h4, except_bind_ok] at henc
      cases hEL0 : setIntEsi ("set interfaces " ++ name ++ " ") o.esi with
      | error e => exact absurd hEL0 (by simp [setIntEsi])
      | ok EL =>
        simp only [hEL0, except_bind_ok] at henc
        cases hC : interfaceAggregatedCountSearchMax name "ae-1" name showConf with
        | error e =>
          simp [hC, except_bind_error] at henc
        | ok cnt =>
          simp only [hC, except_bind_ok, Except.ok.injEq] at henc
          subst henc
          refine ⟨EL, ["set chassis aggregated-devices ethernet device-count " ++ cnt],
            rfl, ?_, fun _ => ⟨cnt, rfl⟩, ?_, ?_⟩
          · simp [h1, h2, h3, h4]
          · intro hf
            simp [hf] at h4
          · intro hf
            simp [hf] at h4
  · by_cases h1 : o.aeLacp = ""
    case neg => exact absurd henc (by
      simp [h1, h4, except_bind_error, except_bind_ok])
    by_cases h2 : o.aeLinkSpeed = ""
    case neg => exact absurd henc (by
      simp [h1, h2, h4, except_bind_error, except_bind_ok])
    by_cases h3 : 0 < o.aeMinLink
    case pos => exact absurd henc (by
      simp [h1, h2, h3, h4, except_bind_error, except_bind_ok])
    by_cases h5 : o.v8023ad = ""
    · simp [h1, h2, h3, h4, h5, except_bind_ok] at henc
      cases hEL0 : setIntEsi ("set interfaces " ++ name ++ " ") o.esi with
      | error e => exact absurd hEL0 (by simp [setIntEsi])
      | ok EL =>
        simp only [hEL0, except_bind_ok, Except.ok.injEq] at henc
        subst henc
        refine ⟨EL, [], rfl, ?_, ?_, ?_, fun _ _ => rfl⟩
        · simp [h1, h2, h3, h5]
        · intro hT
          exact absurd hT h4
        · intro _ hv
          exact absurd h5 hv
    · simp [h1, h2, h3, h4, h5, except_bind_ok] at henc
      cases hEL0 : setIntEsi ("set interfaces " ++ name ++ " ") o.esi with
      | error e => exact absurd hEL0 (by simp [setIntEsi])
      | ok EL =>
        simp only [hEL0, except_bind_ok] at henc
        cases hC : interfaceAggregatedCountSearchMax o.v8023ad oldAE name showConf with
        | error e =>
          simp [hC, except_bind_error] at henc
        | ok cnt =>
          simp only [hC, except_bind_ok, Except.ok.injEq] at henc
          subst henc
          refine ⟨EL, ["set interfaces " ++ name ++ " " ++ "ether-options 802.3ad " ++
              o.v8023ad, "set interfaces " ++ name ++ " " ++
              "gigether-options 802.3ad " ++ o.v8023ad,
              "set chassis aggregated-devices ethernet device-count " ++ cnt],
            rfl, ?_, ?_, fun _ _ => ⟨cnt, rfl⟩, ?_⟩
          · simp [h1, h2, h3, h5]
          · intro hT
            exact absurd hT h4
          · intro _ hv
            exact absurd hv h5

theorem strStartsWith_same (p : String) : strStartsWith p p = true := by
  rw [strStartsWith_iff]

theorem strTrimPre_same (p : String) : strTrimPre p p = "" := by
  rw [strTrimPre, if_pos (by rw [List.isPrefixOf_iff_prefix])]
  rw [List.drop_length]

theorem filter_pfx_single (pfx : String) :
    List.filter (fun l => strStartsWith l pfx) [pfx] = [pfx] := by
  simp [strStartsWith_same]

theorem filter_pfx_chunk2 (pfx : String) (c : Prop) [Decidable c] (t1 t2 : String) :
    List.filter (fun l => strStartsWith l pfx) (if c then [pfx ++ t1, pfx ++ t2] else []) =
      (if c then [pfx ++ t1, pfx ++ t2] else []) := by
  split
  · simp [strStartsWith_self_append]
  · rfl

theorem map_trim_chunk2 (pfx t1 t2 : String) (c : Prop) [Decidable c] :
    List.map (fun l => "set " ++ strTrimPre l pfx) (if c then [pfx ++ t1, pfx ++ t2] else []) =
      (if c then ["set " ++ t1, "set " ++ t2] else []) := by
  split
  · simp [strTrimPre_append]
  · rfl

theorem filter_pfx_map (pfx t : String) (vs : List String) :
    List.filter (fun l => strStartsWith l pfx) (vs.map (fun v => pfx ++ (t ++ v))) =
      vs.map (fun v => pfx ++ (t ++ v)) := by
  refine List.filter_eq_self.mpr ?_
  intro l hl
  obtain ⟨v, -, rfl⟩ := List.mem_map.mp hl
  exact strStartsWith_self_append _ _

theorem map_trim_map (pfx t : String) (vs : List String) :
    List.map (fun l => "set " ++ strTrimPre l pfx) (vs.map (fun v => pfx ++ (t ++ v))) =
      vs.map (fun v => "set " ++ (t ++ v)) := by
  induction vs with
  | nil => rfl
  | cons v vs ih =>
    simp only [List.map_cons] at ih ⊢
    rw [ih, strTrimPre_append]

set_option maxHeartbeats 1000000 in
theorem intFull_roundtrip_aux (name oldAE showConf : String) (o : InterfacePhysicalOptions)
    (stmts : List String)
    (hesi : o.esi = [] ∨ ∃ b, o.esi = [some b] ∧ cleanEsiBlock b)
    (haev : strStartsWith name "ae" = true → o.v8023ad = "")
    (henc : setInterfacePhysical name oldAE o showConf = .ok stmts)
    (hok : ∀ l ∈ stmts, strStartsWith l ("set interfaces " ++ name ++ " ") = true →
      intLineOk (strTrimPre l ("set interfaces " ++ name ++ " ")))
    (hq : quoteSafe o.description) :
    readInterfacePhysical (displaySetRelative ("set interfaces " ++ name ++ " ") stmts) =
      .ok (normalizeInterfacePhysicalOptions o) := by
  obtain ⟨EL, AGG, hEL, hstmts, hAGGae, hAGGsome, hAGGnil⟩ :=
    setIP_ok_shape name oldAE showConf o stmts henc
  obtain ⟨EL2, hEL2, hfilEL, hdecEL⟩ := esiPayload ("set interfaces " ++ name ++ " ") o.esi hesi
  rw [hEL] at hEL2
  injection hEL2 with hE
  subst hE
  have hstmts2 : stmts = EL ++ ["set interfaces " ++ name ++ " "] ++
      (if o.aeLacp ≠ "" then
        ["set interfaces " ++ name ++ " " ++ ("aggregated-ether-options lacp " ++ o.aeLacp)]
       else []) ++
      (if o.aeLinkSpeed ≠ "" then
        ["set interfaces " ++ name ++ " " ++
          ("aggregated-ether-options link-speed " ++ o.aeLinkSpeed)] else []) ++
      (if 0 < o.aeMinLink then
        ["set interfaces " ++ name ++ " " ++
          ("aggregated-ether-options minimum-links " ++ itoa o.aeMinLink)] else []) ++
      (if o.description ≠ "" then
        ["set interfaces " ++ name ++ " " ++ ("description \"" ++ (o.description ++ "\""))]
       else []) ++
      AGG ++
      (if o.trunk = true then
        ["set interfaces " ++ name ++ " " ++
          "unit 0 family ethernet-switching interface-mode trunk"] else []) ++
      (List.map (fun v => "set interfaces " ++ name ++ " " ++
        ("unit 0 family ethernet-switching vlan members " ++ v)) o.vlanMembers) ++
      (if o.vlanNative ≠ 0 then
        ["set interfaces " ++ name ++ " " ++ ("native-vlan-id " ++ itoa o.vlanNative)] else []) ++
      (if o.vlanTagging = true then ["set interfaces " ++ name ++ " " ++ "vlan-tagging"]
       else []) := by
    rw [hstmts]
    simp only [String.append_assoc]
  have hswE : strStartsWith ("set interfaces " ++ name ++ " " ++ "ether-options 802.3ad " ++
      o.v8023ad) ("set interfaces " ++ name ++ " ") = true :=
    strStartsWith_append_of _ (strStartsWith_self_append _ _)
  have hswG : strStartsWith ("set interfaces " ++ name ++ " " ++ "gigether-options 802.3ad " ++
      o.v8023ad) ("set interfaces " ++ name ++ " ") = true :=
    strStartsWith_append_of _ (strStartsWith_self_append _ _)
  have hAGGfil : List.filter (fun l => strStartsWith l ("set interfaces " ++ name ++ " ")) AGG =
      (if o.v8023ad ≠ "" then
        ["set interfaces " ++ name ++ " " ++ ("ether-options 802.3ad " ++ o.v8023ad),
         "set interfaces " ++ name ++ " " ++ ("gigether-options 802.3ad " ++ o.v8023ad)]
       else []) := by
    by_cases hae : strStartsWith name "ae" = true
    · obtain ⟨cnt, hA⟩ := hAGGae hae
      rw [hA, if_neg (by simp [haev hae])]
      simp [startsWith_chassis_false]
    · have hae2 : strStartsWith name "ae" = false := by
        cases h : strStartsWith name "ae"
        · rfl
        · exact absurd h hae
      by_cases hv : o.v8023ad = ""
      · rw [hAGGnil hae2 hv, if_neg (by simp [hv])]
        rfl
      · obtain ⟨cnt, hA⟩ := hAGGsome hae2 hv
        rw [hA, if_pos hv]
        rw [@List.filter_cons_of_pos _
            (fun l => strStartsWith l ("set interfaces " ++ name ++ " ")) _ _ hswE,
          @List.filter_cons_of_pos _
            (fun l => strStartsWith l ("set interfaces " ++ name ++ " ")) _ _ hswG,
          @List.filter_cons_of_neg _
            (fun l => strStartsWith l ("set interfaces " ++ name ++ " ")) _ _
            (by simp [startsWith_chassis_false]), List.filter_nil]
        simp only [String.append_assoc]
  have hkept : List.filter (fun l => strStartsWith l ("set interfaces " ++ name ++ " "))
      stmts =
      EL ++ ["set interfaces " ++ name ++ " "] ++
      (if o.aeLacp ≠ "" then
        ["set interfaces " ++ name ++ " " ++ ("aggregated-ether-options lacp " ++ o.aeLacp)]
       else []) ++
      (if o.aeLinkSpeed ≠ "" then
        ["set interfaces " ++ name ++ " " ++
          ("aggregated-ether-options link-speed " ++ o.aeLinkSpeed)] else []) ++
      (if 0 < o.aeMinLink then
        ["set interfaces " ++ name ++ " " ++
          ("aggregated-ether-options minimum-links " ++ itoa o.aeMinLink)] else []) ++
      (if o.description ≠ "" then
        ["set interfaces " ++ name ++ " " ++ ("description \"" ++ (o.description ++ "\""))]
       else []) ++
      (if o.v8023ad ≠ "" then
        ["set interfaces " ++ name ++ " " ++ ("ether-options 802.3ad " ++ o.v8023ad),
         "set interfaces " ++ name ++ " " ++ ("gigether-options 802.3ad " ++ o.v8023ad)]
       else []) ++
      (if o.trunk = true then
        ["set interfaces " ++ name ++ " " ++
          "unit 0 family ethernet-switching interface-mode trunk"] else []) ++
      (List.map (fun v => "set interfaces " ++ name ++ " " ++
        ("unit 0 family ethernet-switching vlan members " ++ v)) o.vlanMembers) ++
      (if o.vlanNative ≠ 0 then
        ["set interfaces " ++ name ++ " " ++ ("native-vlan-id " ++ itoa o.vlanNative)] else []) ++
      (if o.vlanTagging = true then ["set interfaces " ++ name ++ " " ++ "vlan-tagging"]
       else []) := by
    rw [hstmts2]
    simp only [List.filter_append, hfilEL, filter_pfx_single, filter_pfx_chunk, hAGGfil,
      filter_pfx_map]
  have hkne : List.filter (fun l => strStartsWith l ("set interfaces " ++ name ++ " "))
      stmts ≠ [] := by
    rw [hkept]
    simp
  have hMne : (List.filter (fun l => strStartsWith l ("set interfaces " ++ name ++ " "))
      stmts).map (fun l => "set " ++ strTrimPre l ("set interfaces " ++ name ++ " ")) ≠ [] := by
    simpa using hkne
  have hMsw : ∀ l ∈ (List.filter (fun l => strStartsWith l ("set interfaces " ++ name ++ " "))
      stmts).map (fun l => "set " ++ strTrimPre l ("set interfaces " ++ name ++ " ")),
      strStartsWith l "set " = true := by
    intro l hl
    obtain ⟨x, -, rfl⟩ := List.mem_map.mp hl
    exact strStartsWith_self_append _ _
  have hMnl : ∀ l ∈ (List.filter (fun l => strStartsWith l ("set interfaces " ++ name ++ " "))
      stmts).map (fun l => "set " ++ strTrimPre l ("set interfaces " ++ name ++ " ")),
      '\n' ∉ l.data := by
    intro l hl
    obtain ⟨x, hx, rfl⟩ := List.mem_map.mp hl
    have h2 := List.mem_filter.mp hx
    exact newline_not_mem_set_append (hok x h2.1 h2.2).1
  have hELok : ∀ l ∈ EL, intLineOk (strTrimPre l ("set interfaces " ++ name ++ " ")) := by
    intro l hl
    have hmem : l ∈ stmts := by
      rw [hstmts2]
      exact List.mem_append_left _ (List.mem_append_left _ (List.mem_append_left _
        (List.mem_append_left _ (List.mem_append_left _ (List.mem_append_left _
        (List.mem_append_left _ (List.mem_append_left _ (List.mem_append_left _
        (List.mem_append_left _ hl)))))))))
    exact hok l hmem (List.filter_eq_self.mp hfilEL l hl)
  have hk1 : o.aeLacp ≠ "" → intLineOk ("aggregated-ether-options lacp " ++ o.aeLacp) := by
    intro hc
    have hmem : ("set interfaces " ++ name ++ " " ++
        ("aggregated-ether-options lacp " ++ o.aeLacp)) ∈ stmts := by
      rw [hstmts2]
      refine List.mem_append_left _ (List.mem_append_left _ (List.mem_append_left _
        (List.mem_append_left _ (List.mem_append_left _ (List.mem_append_left _
        (List.mem_append_left _ (List.mem_append_left _ (List.mem_append_right _ ?_))))))))
      rw [if_pos hc]
      exact List.mem_cons_self _ _
    have h2 := hok _ hmem (strStartsWith_self_append _ _)
    rwa [strTrimPre_append] at h2
  have hk2 : o.aeLinkSpeed ≠ "" →
      intLineOk ("aggregated-ether-options link-speed " ++ o.aeLinkSpeed) := by
    intro hc
    have hmem : ("set interfaces " ++ name ++ " " ++
        ("aggregated-ether-options link-speed " ++ o.aeLinkSpeed)) ∈ stmts := by
      rw [hstmts2]
      refine List.mem_append_left _ (List.mem_append_left _ (List.mem_append_left _
        (List.mem_append_left _ (List.mem_append_left _ (List.mem_append_left _
        (List.mem_append_left _ (List.mem_append_right _ ?_)))))))
      rw [if_pos hc]
      exact List.mem_cons_self _ _
    have h2 := hok _ hmem (strStartsWith_self_append _ _)
    rwa [strTrimPre_append] at h2
  have hk3 : 0 < o.aeMinLink →
      intLineOk ("aggregated-ether-options minimum-links " ++ itoa o.aeMinLink) := by
    intro hc
    have hmem : ("set interfaces " ++ name ++ " " ++
        ("aggregated-ether-options minimum-links " ++ itoa o.aeMinLink)) ∈ stmts := by
      rw [hstmts2]
      refine List.mem_append_left _ (List.mem_append_left _ (List.mem_append_left _
        (List.mem_append_left _ (List.mem_append_left _ (List.mem_append_left _
        (List.mem_append_right _ ?_))))))
      rw [if_pos hc]
      exact List.mem_cons_self _ _
    have h2 := hok _ hmem (strStartsWith_self_append _ _)
    rwa [strTrimPre_append] at h2
  have hk4 : o.description ≠ "" →
      intLineOk ("description \"" ++ (o.description ++ "\"")) := by
    intro hc
    have hmem : ("set interfaces " ++ name ++ " " ++
        ("description \"" ++ (o.description ++ "\""))) ∈ stmts := by
      rw [hstmts2]
      refine List.mem_append_left _ (List.mem_append_left _ (List.mem_append_left _
        (List.mem_append_left _ (List.mem_append_left _ (List.mem_append_right _ ?_)))))
      rw [if_pos hc]
      exact List.mem_cons_self _ _
    have h2 := hok _ hmem (strStartsWith_self_append _ _)
    rwa [strTrimPre_append] at h2
  have hk5 : o.v8023ad ≠ "" → intLineOk ("ether-options 802.3ad " ++ o.v8023ad) := by
    intro hc
    have hae2 : strStartsWith name "ae" = false := by
      cases h : strStartsWith name "ae"
      · rfl
      · exact absurd (haev h) hc
    obtain ⟨cnt, hA⟩ := hAGGsome hae2 hc
    have hmem : ("set interfaces " ++ name ++ " " ++ "ether-options 802.3ad " ++
        o.v8023ad) ∈ stmts := by
      rw [hstmts2]
      refine List.mem_append_left _ (List.mem_append_left _ (List.mem_append_left _
        (List.mem_append_left _ (List.mem_append_right _ ?_))))
      rw [hA]
      exact List.mem_cons_self _ _
    have h2 := hok _ hmem hswE
    rw [String.append_assoc ("set interfaces " ++ name ++ " ") "ether-options 802.3ad "
      o.v8023ad, strTrimPre_append] at h2
    exact h2
  have hk6 : o.v8023ad ≠ "" → intLineOk ("gigether-options 802.3ad " ++ o.v8023ad) := by
    intro hc
    have hae2 : strStartsWith name "ae" = false := by
      cases h : strStartsWith name "ae"
      · rfl
      · exact absurd (haev h) hc
    obtain ⟨cnt, hA⟩ := hAGGsome hae2 hc
    have hmem : ("set interfaces " ++ name ++ " " ++ "gigether-options 802.3ad " ++
        o.v8023ad) ∈ stmts := by
      rw [hstmts2]
      refine List.mem_append_left _ (List.mem_append_left _ (List.mem_append_left _
        (List.mem_append_left _ (List.mem_append_right _ ?_))))
      rw [hA]
      exact List.mem_cons_of_mem _ (List.mem_cons_self _ _)
    have h2 := hok _ hmem hswG
    rw [String.append_assoc ("set interfaces " ++ name ++ " ") "gigether-options 802.3ad "
      o.v8023ad, strTrimPre_append] at h2
    exact h2
  have hk7 : o.vlanNative ≠ 0 → intLineOk ("native-vlan-id " ++ itoa o.vlanNative) := by
    intro hc
    have hmem : ("set interfaces " ++ name ++ " " ++
        ("native-vlan-id " ++ itoa o.vlanNative)) ∈ stmts := by
      rw [hstmts2]
      refine List.mem_append_left _ (List.mem_append_right _ ?_)
      rw [if_pos hc]
      exact List.mem_cons_self _ _
    have h2 := hok _ hmem (strStartsWith_self_append _ _)
    rwa [strTrimPre_append] at h2
  have hk8 : ∀ v ∈ o.vlanMembers,
      intLineOk ("unit 0 family ethernet-switching vlan members " ++ v) := by
    intro v hv
    have hmem : ("set interfaces " ++ name ++ " " ++
        ("unit 0 family ethernet-switching vlan members " ++ v)) ∈ stmts := by
      rw [hstmts2]
      refine List.mem_append_left _ (List.mem_append_left _ (List.mem_append_right _ ?_))
      exact List.mem_map.mpr ⟨v, hv, rfl⟩
    have h2 := hok _ hmem (strStartsWith_self_append _ _)
    rwa [strTrimPre_append] at h2
  simp only [displaySetRelative]
  rw [if_neg (show ¬((List.filter (fun l => strStartsWith l ("set interfaces " ++ name ++ " "))
    stmts).isEmpty = true) from by simpa [List.isEmpty_iff] using hkne)]
  rw [readInterfacePhysical]
  rw [if_pos (joinLines_ne_emptyWord _ hMne hMsw)]
  rw [splitLines_joinLines _ hMne hMnl]
  rw [hkept]
  simp only [List.map_append, List.map_cons, List.map_nil, map_trim_chunk, map_trim_chunk2,
    map_trim_map, strTrimPre_same, List.append_assoc, List.singleton_append, List.cons_append,
    List.nil_append]
  rw [hdecEL _ hELok]
  rw [intRest_decode o hk1 hk2 hk3 hk4 hq hk5 hk6 hk7 hk8]
  rfl

/-- C2 (amended): the round-trip law `decode (encode o) = normalize o`
holds for both codecs under the stated conditions, and the one excluded
degenerate case is characterized exactly.  (a) UTM policy options round-trip
whenever the encoder emits at least one statement, the sub-block lists are
absent or hold a single materialized entry, the quoted values are quote-safe
and the emitted statements are well-formed single lines.  (b) When the
encoder emits no statements (a policy carrying nothing but its name), the
displayed configuration is the empty sentinel and decoding returns the empty
record: the policy name itself does not survive the trip.  (c) The full
physical-interface codec round-trips whenever the encoder succeeds, the esi
block list is absent or a single clean block, an `ae`-named interface
carries no `ether802_3ad` binding, the emitted statements are well-formed
single lines and the description is quote-safe. -/
theorem claimC2_amended :
    (∀ (o : UtmPolicyOptions) (stmts : List String),
      (o.antiVirus = [] ∨ ∃ p, o.antiVirus = [some p]) →
      (o.contentFiltering = [] ∨ ∃ p, o.contentFiltering = [some p]) →
      (o.trafficSessionsPerClient = [] ∨ ∃ t, o.trafficSessionsPerClient = [some t]) →
      setUtmPolicy o = .ok stmts → stmts ≠ [] →
      (∀ l ∈ stmts,
        utmLineOk (strTrimPre l ("set security utm utm-policy \"" ++ o.name ++ "\" "))) →
      quoteSafe o.antiSpamSMTPProfile → quoteSafe o.webFilteringProfile →
      (∀ p, some p ∈ o.antiVirus → quoteSafeProfile p) →
      (∀ p, some p ∈ o.contentFiltering → quoteSafeProfile p) →
      readUtmPolicy o.name
        (displaySetRelative ("set security utm utm-policy \"" ++ o.name ++ "\" ") stmts) =
        .ok (normalizeUtmPolicyOptions o)) ∧
    (∀ (o : UtmPolicyOptions) (pfx : String), setUtmPolicy o = .ok [] →
      readUtmPolicy o.name (displaySetRelative pfx []) = .ok { name := "" }) ∧
    (∀ (name oldAE showConf : String) (o : InterfacePhysicalOptions) (stmts : List String),
      (o.esi = [] ∨ ∃ b, o.esi = [some b] ∧ cleanEsiBlock b) →
      (strStartsWith name "ae" = true → o.v8023ad = "") →
      setInterfacePhysical name oldAE o showConf = .ok stmts →
      (∀ l ∈ stmts, strStartsWith l ("set interfaces " ++ name ++ " ") = true →
        intLineOk (strTrimPre l ("set interfaces " ++ name ++ " "))) →
      quoteSafe o.description →
      readInterfacePhysical (displaySetRelative ("set interfaces " ++ name ++ " ") stmts) =
        .ok (normalizeInterfacePhysicalOptions o)) :=
  ⟨fun o stmts h1 h2 h3 h4 h5 h6 h7 h8 h9 h10 =>
      utm_roundtrip_aux o stmts h1 h2 h3 h4 h5 h6 h7 h8 h9 h10,
   fun _ _ _ => rfl,
   fun name oldAE showConf o stmts h1 h2 h3 h4 h5 =>
      intFull_roundtrip_aux name oldAE showConf o stmts h1 h2 h3 h4 h5⟩

/-- C2 witness: the amended law evaluated on a concrete UTM policy (name,
anti-spam profile, one anti-virus profile, a traffic limit), on a name-only
UTM policy whose encoding is empty, and on a concrete physical interface
(trunk mode, a vlan member, a description and a single-field esi block). -/
theorem claimC2_witness :
    readUtmPolicy "p1"
      (displaySetRelative "set security utm utm-policy \"p1\" "
        ["set security utm utm-policy \"p1\" anti-spam smtp-profile \"sp\"",
         "set security utm utm-policy \"p1\" anti-virus ftp download-profile \"d\"",
         "set security utm utm-policy \"p1\" traffic-options sessions-per-client limit 5"]) =
      .ok (normalizeUtmPolicyOptions { name := "p1", antiSpamSMTPProfile := "sp", antiVirus := [some { ftpDownloadProfile := "d" }], trafficSessionsPerClient := [some { limit := 5 }] }) ∧
    readUtmPolicy "p2" (displaySetRelative "set security utm utm-policy \"p2\" " []) =
      .ok { name := "" } ∧
    readInterfacePhysical (displaySetRelative "set interfaces eth0 "
        ["set interfaces eth0 esi all-active",
         "set interfaces eth0 ",
         "set interfaces eth0 description \"up\"",
         "set interfaces eth0 unit 0 family ethernet-switching interface-mode trunk",
         "set interfaces eth0 unit 0 family ethernet-switching vlan members ten"]) =
      .ok (normalizeInterfacePhysicalOptions { trunk := true, description := "up", vlanMembers := ["ten"], esi := [some { mode := "all-active" }] }) := by
  refine ⟨?_, ?_, ?_⟩
  · exact claimC2_amended.1
      { name := "p1", antiSpamSMTPProfile := "sp", antiVirus := [some { ftpDownloadProfile := "d" }], trafficSessionsPerClient := [some { limit := 5 }] }
      ["set security utm utm-policy \"p1\" anti-spam smtp-profile \"sp\"",
       "set security utm utm-policy \"p1\" anti-virus ftp download-profile \"d\"",
       "set security utm utm-policy \"p1\" traffic-options sessions-per-client limit 5"]
      (Or.inr ⟨_, rfl⟩) (Or.inl rfl) (Or.inr ⟨_, rfl⟩) rfl (by decide)
      (by intro l hl
          simp only [List.mem_cons, List.not_mem_nil, or_false] at hl
          rcases hl with rfl | rfl | rfl <;> exact ⟨by decide, by decide, by decide⟩)
      ⟨by decide, by decide⟩ ⟨by decide, by decide⟩
      (by intro p hp
          simp at hp
          subst hp
          exact ⟨⟨by decide, by decide⟩, ⟨by decide, by decide⟩, ⟨by decide, by decide⟩,
            ⟨by decide, by decide⟩, ⟨by decide, by decide⟩, ⟨by decide, by decide⟩⟩)
      (by intro p hp; simp at hp)
  · exact claimC2_amended.2.1 { name := "p2" } "set security utm utm-policy \"p2\" " rfl
  · exact claimC2_amended.2.2 "eth0" "x" "" { trunk := true, description := "up", vlanMembers := ["ten"], esi := [some { mode := "all-active" }] }
      ["set interfaces eth0 esi all-active",
       "set interfaces eth0 ",
       "set interfaces eth0 description \"up\"",
       "set interfaces eth0 unit 0 family ethernet-switching interface-mode trunk",
       "set interfaces eth0 unit 0 family ethernet-switching vlan members ten"]
      (Or.inr ⟨_, rfl, by decide, by decide, by decide⟩) (fun _ => rfl) rfl
      (by intro l hl hsw
          simp only [List.mem_cons, List.not_mem_nil, or_false] at hl
          rcases hl with rfl | rfl | rfl | rfl | rfl <;>
            exact ⟨by decide, by decide, by decide, by decide⟩)
      ⟨by decide, by decide⟩

